import Mathlib

/-!
# Segmented muxer flow (`src/flow/muxer_flow.cc`)

A shallow embedding of `MuxerFlow` (the segmentation controller) and
`VideoRecorder` (the per-file recording session) together with proofs of
properties of `GenFilePath`, `StartStream`/`StopStream`/`Control`,
`VideoRecorder::Write` and `save_buffer`.

Conventions of the embedding.

* `int64_t` fields (`file_duration`, `file_index`, `last_ts`, buffer
  timestamps) are `Int`.  The arithmetic of the rotation check,
  `ts - last_ts` and `duration_us * 1000000`, is computed in 64 bits:
  `rotation_check` applies `wrap64` to both results, and `int64` names the
  values for which the 64-bit result is the exact one (`wrap64_of_int64`,
  `arith_exact_in_range`).
* A `shared_ptr` that may be null is an `Option`.
* Everything the code calls outside this file (the muxer backend, the
  extradata extractor, the buffer allocator, the file-name callback, the
  clock) is an input of the call: the `Env` of a cycle carries what each of
  those calls answers.  Every such call, and every event delivered to the
  registered event callback, is appended to a log of `Action`s in program
  order.
* `exit(EXIT_FAILURE)` and a call through a null `recorder` end the run; they
  are reported in the `Status` of the outcome.
-/

namespace easymedia

/-! ## Data model -/

/-- Media type of a buffer, `MediaBuffer::GetType()`. -/
inductive MediaType where
  | Video
  | Audio
  | None
  deriving DecidableEq, Repr

/-- Codec of the video configuration,
`vid_enc_config.vid_cfg.image_cfg.codec_type`. -/
inductive CodecType where
  | CODEC_TYPE_H264
  | CODEC_TYPE_H265
  | CODEC_TYPE_OTHER
  deriving DecidableEq, Repr

/-- What `save_buffer` and `VideoRecorder::Write` read of a `MediaBuffer`. -/
structure MediaBuffer where
  /-- Result of `GetType()`. -/
  type : MediaType
  /-- Result of `GetUSTimeStamp()`, microseconds. -/
  ustimestamp : Int
  /-- Whether `GetUserFlag() & MediaBuffer::kIntra` is non-zero. -/
  intra : Bool
  deriving DecidableEq, Repr

/-- Event kinds of `MuxerEvent::type`. -/
inductive MuxerEventType where
  | MUX_EVENT_FILE_BEGIN
  | MUX_EVENT_FILE_END
  | MUX_EVENT_STREAM_START
  | MUX_EVENT_STREAM_STOP
  | MUX_EVENT_ERR_CREATE_FILE_FAIL
  | MUX_EVENT_ERR_WRITE_FILE_FAIL
  deriving DecidableEq, Repr

/-- Record handed to the event callback. -/
structure MuxerEvent where
  type : MuxerEventType
  file_name : String
  value : Int
  deriving DecidableEq, Repr

/-- Calls that leave `muxer_flow.cc`, in the order the program issues them. -/
inductive Action where
  /-- Call of `event_callback_(event_handler2_, &muxer_event)`. -/
  | event (e : MuxerEvent)
  /-- Call of `(*file_name_cb)(file_name_handle, 1, &new_name_ptr)` with the
  value it returned and the name it left in `new_name`. -/
  | fileNameCb (ret : Int) (name : String)
  /-- Call of `REFLECTOR(Muxer)::Create` for a new recorder on `path`. -/
  | createMuxer (path : String) (customio : Bool)
  /-- Release of the muxer, `muxer.reset()` in the destructor. -/
  | closeMuxer
  /-- Call of `GetSpsPpsFromBuffer` / `GetVpsSpsPpsFromBuffer`. -/
  | extract (b : MediaBuffer)
  /-- Call of `MediaBuffer::Alloc(extra_size)` for `video_extra`; `ok` tells
  whether it returned a buffer. -/
  | allocExtra (ok : Bool)
  /-- Call of `muxer->NewMuxerStream`; `res` is the stream number on success. -/
  | newMuxerStream (t : MediaType) (res : Option Nat)
  /-- Call of `muxer->WriteHeader(vid_stream_id)`. -/
  | writeHeader (stream : Int) (ok : Bool)
  /-- Call of `muxer->Write(buffer, stream)` for an input buffer. -/
  | write (b : MediaBuffer) (stream : Int) (ok : Bool)
  /-- Call of `muxer->Write` with the end-of-stream buffer of the destructor. -/
  | writeEOS (stream : Int)
  deriving DecidableEq, Repr

/-- Fields of `VideoRecorder`; a stream id of `-1` means the track is not open. -/
structure VideoRecorder where
  vid_stream_id : Int
  aud_stream_id : Int
  record_path : String
  deriving DecidableEq, Repr

/-- Fields of `MuxerFlow` used by the functions embedded here. -/
structure MuxerFlow where
  video_recorder : Option VideoRecorder
  video_in : Bool
  audio_in : Bool
  /-- Codec type of `vid_enc_config`. -/
  codec_type : CodecType
  file_duration : Int
  file_index : Int
  /-- Segment start; `0` means not set. -/
  last_ts : Int
  file_time_en : Bool
  enable_streaming : Bool
  /-- Whether `file_name_cb` is non-null. -/
  file_name_cb : Bool
  file_path : String
  file_prefix : String
  is_use_customio : Bool
  /-- Cached extradata, `nullptr` when absent. -/
  video_extra : Option (List Nat)
  /-- Whether `event_callback_` is non-null. -/
  event_callback_ : Bool
  deriving DecidableEq, Repr

/-- Broken-down local time as `localtime` returns it. -/
structure Tm where
  tm_year : Nat
  tm_mon : Nat
  tm_mday : Nat
  tm_hour : Nat
  tm_min : Nat
  tm_sec : Nat
  deriving DecidableEq, Repr

/-- Answer of `NewRecorder`. -/
inductive OpenResult where
  /-- The recorder and its muxer were created. -/
  | created
  /-- `REFLECTOR(Muxer)::Create` returned null: the constructor calls
  `exit(EXIT_FAILURE)`. -/
  | muxerFailed
  /-- `NewRecorder` returned `nullptr`: the answer `save_buffer` tests for at
  line 356, which `std::make_shared` never gives. -/
  | nullRecorder
  deriving DecidableEq, Repr

/-- Answers of the muxer backend during one `VideoRecorder::Write`. -/
structure WriteEnv where
  /-- `NewMuxerStream` for video: the stream number, or `none` on failure. -/
  newVid : Option Nat
  /-- `NewMuxerStream` for audio. -/
  newAud : Option Nat
  /-- Whether `WriteHeader` returns a buffer. -/
  header : Bool
  /-- Whether `muxer->Write` returns a buffer. -/
  write : Bool
  deriving DecidableEq, Repr

/-- Answers of everything `save_buffer` calls during one cycle. -/
structure Env where
  /-- Return value and written name of the file-name callback. -/
  cb : Int × String
  /-- Local time read by `GenFilePath`. -/
  now : Tm
  /-- Answer of `NewRecorder`. -/
  newRecorder : OpenResult
  /-- Extradata found by the extractor: `none` is a null `extra_ptr`, the
  length of the list is `extra_size`. -/
  extract : Option (List Nat)
  /-- Whether `MediaBuffer::Alloc` for the extradata succeeds. -/
  alloc : Bool
  /-- Backend answers during the audio `Write`. -/
  audW : WriteEnv
  /-- Backend answers during the video `Write`. -/
  vidW : WriteEnv
  deriving DecidableEq, Repr

/-- How a call of `save_buffer` ends. -/
inductive Status where
  /-- The function returned (`save_buffer` only ever returns `true`). -/
  | returned
  /-- The process ended in `exit(EXIT_FAILURE)`. -/
  | exited
  /-- `recorder->Write` was called with `recorder == nullptr`. -/
  | nullDeref
  deriving DecidableEq, Repr

/-- State, log and status at the end of one `save_buffer` call. -/
structure Outcome where
  flow : MuxerFlow
  log : List Action
  status : Status
  deriving DecidableEq, Repr

/-! ## `GenFilePath` -/

/-- Conversion `(int)x` of an `int64_t`. -/
def toInt32 (x : Int) : Int := (x + 2147483648) % 4294967296 - 2147483648

/-- Two's complement value of an exact result, as a 64-bit machine computes it. -/
def wrap64 (x : Int) : Int := (x + 9223372036854775808) % 18446744073709551616 - 9223372036854775808

/-- The value is representable as an `int64_t`. -/
def int64 (x : Int) : Prop := -9223372036854775808 ≤ x ∧ x < 9223372036854775808

instance (x : Int) : Decidable (int64 x) := by
  unfold int64
  infer_instance

/-- Format `%02d` for a non-negative value. -/
def pad2 (n : Nat) : String := if n < 10 then "0" ++ toString n else toString n

/-- Time suffix, `snprintf(time_str, 128, "_%d%02d%02d%02d%02d%02d", ...)`. -/
def time_str (tm : Tm) : String :=
  "_" ++ toString (tm.tm_year + 1900) ++ pad2 (tm.tm_mon + 1) ++ pad2 tm.tm_mday ++
    pad2 tm.tm_hour ++ pad2 tm.tm_min ++ pad2 tm.tm_sec

/-- Pattern part of `GenFilePath` (from `if (!file_path.empty() && ...)` on):
the path and the flow with the updated index. -/
def GenFilePath_pattern (f : MuxerFlow) (now : Tm) : String × MuxerFlow :=
  if f.file_path ≠ "" ∧ f.file_prefix = "" then (f.file_path, f)
  else
    let s0 := if f.file_path ≠ "" then f.file_path ++ "/" else ""
    let s1 := if f.file_prefix ≠ "" then s0 ++ f.file_prefix else s0
    let s2 := if f.file_time_en then s1 ++ time_str now else s1
    if f.file_index > 0 then
      (s2 ++ "_" ++ toString f.file_index ++ ".mp4", { f with file_index := f.file_index + 1 })
    else (s2 ++ ".mp4", f)

/-- `MuxerFlow::GenFilePath`: the path, the flow afterwards and the calls made.
`cb` is what the file-name callback answers if it is called. -/
def GenFilePath (f : MuxerFlow) (cb : Int × String) (now : Tm) :
    String × MuxerFlow × List Action :=
  if f.file_name_cb then
    if cb.1 = 0 then (cb.2, f, [Action.fileNameCb cb.1 cb.2])
    else
      let r := GenFilePath_pattern f now
      (r.1, r.2, [Action.fileNameCb cb.1 cb.2])
  else
    let r := GenFilePath_pattern f now
    (r.1, r.2, [])

/-- Flow after `n` successive calls of `GenFilePath`; the `k`-th call is
answered by `cbs k` and `nows k`. -/
def GenFilePath_iter (cbs : Nat → Int × String) (nows : Nat → Tm) : Nat → MuxerFlow → MuxerFlow
  | 0, f => f
  | n + 1, f => (GenFilePath (GenFilePath_iter cbs nows n f) (cbs n) (nows n)).2.1

/-! ## `VideoRecorder` -/

/-- Modelled from the spec: `Muxer::NewMuxerStream` is declared in `muxer.h`,
which is not among the sources.  The spec describes a track handle as either
"not yet open" or an opened identifier: a successful call (`res = some n`)
returns `true` and stores the number of the new stream, never `-1`, in
`stream_no`; a failing call returns `false` and leaves `stream_no` as it was. -/
def NewMuxerStream (res : Option Nat) (stream_no : Int) : Bool × Int :=
  match res with
  | some n => (true, (n : Int))
  | none => (false, stream_no)

namespace VideoRecorder

/-- `VideoRecorder::ProcessEvent`: `muxer_flow` is always the owning flow, the
event carries `value` only when `record_path` is not empty, and it is
delivered only when an event callback is registered. -/
def ProcessEvent (r : VideoRecorder) (f : MuxerFlow) (event_type : MuxerEventType)
    (value : Int) : List Action :=
  if f.event_callback_ then
    [Action.event { type := event_type, file_name := r.record_path,
                    value := if r.record_path ≠ "" then value else 0 }]
  else []

/-- `VideoRecorder::ClearStream`. -/
def ClearStream (r : VideoRecorder) : VideoRecorder :=
  { r with vid_stream_id := -1, aud_stream_id := -1 }

/-- Constructor `VideoRecorder::VideoRecorder` when the muxer is created. -/
def create (f : MuxerFlow) (rpath : String) : VideoRecorder × List Action :=
  let r : VideoRecorder := { vid_stream_id := -1, aud_stream_id := -1, record_path := rpath }
  (r, [Action.createMuxer rpath f.is_use_customio] ++
        r.ProcessEvent f MuxerEventType.MUX_EVENT_FILE_BEGIN (toInt32 f.file_duration))

/-- Destructor `VideoRecorder::~VideoRecorder`: the calls it makes. -/
def destroy (r : VideoRecorder) (f : MuxerFlow) : List Action :=
  (if r.vid_stream_id ≠ -1 then [Action.writeEOS r.vid_stream_id] else []) ++
    r.ProcessEvent f MuxerEventType.MUX_EVENT_FILE_END (toInt32 f.file_duration) ++
    [Action.closeMuxer]

/-- First block of `VideoRecorder::Write` (lines 486-512): creation of the
streams and the header write.  The `Bool` is `false` when `Write` returns
`false` from this block. -/
def openStreams (r : VideoRecorder) (f : MuxerFlow) (env : WriteEnv) :
    Bool × VideoRecorder × List Action :=
  if f.video_in = true ∧ f.video_extra ≠ none ∧ r.vid_stream_id = -1 then
    let v := NewMuxerStream env.newVid r.vid_stream_id
    let r1 := { r with vid_stream_id := v.2 }
    let l1 := [Action.newMuxerStream MediaType.Video env.newVid] ++
      (if v.1 then [] else r1.ProcessEvent f MuxerEventType.MUX_EVENT_ERR_CREATE_FILE_FAIL (-1))
    let a := NewMuxerStream env.newAud r1.aud_stream_id
    let r2 := if f.audio_in then { r1 with aud_stream_id := a.2 } else r1
    let l2 := if f.audio_in then
        [Action.newMuxerStream MediaType.Audio env.newAud] ++
          (if a.1 then [] else r2.ProcessEvent f MuxerEventType.MUX_EVENT_ERR_CREATE_FILE_FAIL (-2))
      else []
    let l3 := [Action.writeHeader r2.vid_stream_id env.header]
    if env.header then (true, r2, l1 ++ l2 ++ l3)
    else (false, r2.ClearStream,
      l1 ++ l2 ++ l3 ++ r2.ClearStream.ProcessEvent f MuxerEventType.MUX_EVENT_ERR_WRITE_FILE_FAIL 0)
  else (true, r, [])

/-- Second block of `VideoRecorder::Write` (lines 514-530): the frame write. -/
def writeFrame (r : VideoRecorder) (f : MuxerFlow) (buffer : MediaBuffer) (env : WriteEnv) :
    Bool × VideoRecorder × List Action :=
  if buffer.type = MediaType.Video ∧ r.vid_stream_id ≠ -1 then
    if env.write then (true, r, [Action.write buffer r.vid_stream_id true])
    else (false, r.ClearStream, [Action.write buffer r.vid_stream_id false] ++
      r.ClearStream.ProcessEvent f MuxerEventType.MUX_EVENT_ERR_WRITE_FILE_FAIL (-1))
  else if buffer.type = MediaType.Audio ∧ r.aud_stream_id ≠ -1 then
    if env.write then (true, r, [Action.write buffer r.aud_stream_id true])
    else (false, r.ClearStream, [Action.write buffer r.aud_stream_id false] ++
      r.ClearStream.ProcessEvent f MuxerEventType.MUX_EVENT_ERR_WRITE_FILE_FAIL (-2))
  else (true, r, [])

/-- `VideoRecorder::Write`: the returned `bool`, the recorder afterwards and
the calls made. -/
def Write (r : VideoRecorder) (f : MuxerFlow) (buffer : MediaBuffer) (env : WriteEnv) :
    Bool × VideoRecorder × List Action :=
  let o := r.openStreams f env
  if o.1 then
    let w := o.2.1.writeFrame f buffer env
    (w.1, w.2.1, o.2.2 ++ w.2.2)
  else (false, o.2.1, o.2.2)

end VideoRecorder

/-! ## Control surface -/

/-- `MuxerFlow::StartStream`. -/
def StartStream (f : MuxerFlow) : MuxerFlow × List Action :=
  ({ f with enable_streaming := true },
    if f.event_callback_ ∧ ¬ f.enable_streaming then
      [Action.event { type := MuxerEventType.MUX_EVENT_STREAM_START, file_name := "", value := 0 }]
    else [])

/-- `MuxerFlow::StopStream`. -/
def StopStream (f : MuxerFlow) : MuxerFlow × List Action :=
  ({ f with enable_streaming := false }, [])

/-- Requests of `MuxerFlow::Control` with their arguments. -/
inductive Request where
  | S_START_SRTEAM
  | S_STOP_SRTEAM
  /-- The argument tells whether the `int *value` passed is non-null. -/
  | G_MUXER_GET_STATUS (value : Bool)
  | S_MUXER_FILE_DURATION (duration : Int)
  | S_MUXER_FILE_PATH (path : String)
  | S_MUXER_FILE_PREFIX (p : String)
  /-- The argument tells whether the callback passed is non-null. -/
  | S_MUXER_FILE_NAME_CB (cb : Bool)
  /-- Any other request number. -/
  | other
  deriving DecidableEq, Repr

/-- Result of `Control`: the return value, the flow afterwards, the calls
made, and what was stored through the `int *value` argument. -/
structure ControlResult where
  ret : Int
  flow : MuxerFlow
  log : List Action
  value : Option Int
  deriving DecidableEq, Repr

/-- `MuxerFlow::Control`. -/
def Control (f : MuxerFlow) : Request → ControlResult
  | Request.S_START_SRTEAM => ⟨0, (StartStream f).1, (StartStream f).2, none⟩
  | Request.S_STOP_SRTEAM => ⟨0, (StopStream f).1, (StopStream f).2, none⟩
  | Request.G_MUXER_GET_STATUS value =>
    ⟨0, f, [], if value then some (if f.enable_streaming then 1 else 0) else none⟩
  | Request.S_MUXER_FILE_DURATION duration =>
    ⟨0, if duration ≠ 0 then { f with file_duration := duration } else f, [], none⟩
  | Request.S_MUXER_FILE_PATH path =>
    ⟨0, if path ≠ "" then { f with file_path := path } else f, [], none⟩
  | Request.S_MUXER_FILE_PREFIX p =>
    ⟨0, if p ≠ "" then { f with file_prefix := p } else f, [], none⟩
  | Request.S_MUXER_FILE_NAME_CB cb => ⟨0, { f with file_name_cb := cb }, [], none⟩
  | Request.other => ⟨-1, f, [], none⟩

/-! ## `save_buffer` -/

/-- `MuxerFlow::NewRecorder`: the recorder or `nullptr`, the calls made, and
whether the constructor ended the process with `exit`. -/
def NewRecorder (f : MuxerFlow) (path : String) (res : OpenResult) :
    Option VideoRecorder × List Action × Bool :=
  match res with
  | OpenResult.created => (some (VideoRecorder.create f path).1, (VideoRecorder.create f path).2, false)
  | OpenResult.muxerFailed => (none, [Action.createMuxer path f.is_use_customio], true)
  | OpenResult.nullRecorder => (none, [], false)

/-- State and calls of one block of `save_buffer`; `stop` is `none` when
control falls through to the next block. -/
structure Phase where
  flow : MuxerFlow
  log : List Action
  stop : Option Status
  deriving DecidableEq, Repr

/-- Lines 317-330: the cycle with streaming disabled. -/
def disabled_cycle (f : MuxerFlow) : Outcome :=
  match f.video_recorder with
  | some r =>
    ⟨{ f with video_recorder := none },
      r.destroy f ++
        (if f.event_callback_ then
          [Action.event { type := MuxerEventType.MUX_EVENT_STREAM_STOP, file_name := "", value := 0 }]
        else []),
      Status.returned⟩
  | none => ⟨f, [], Status.returned⟩

/-- Lines 332-351: the rotation check.  The difference and the product of
line 346 are `int64_t` results. -/
def rotation_check (f : MuxerFlow) (vid : Option MediaBuffer) : MuxerFlow × List Action :=
  if f.file_duration ≤ 0 then (f, [])
  else if f.last_ts = 0 then (f, [])
  else if !f.video_in then (f, [])
  else
    match f.video_recorder with
    | none => (f, [])
    | some r =>
      match vid with
      | none => (f, [])
      | some vid_buffer =>
        if !vid_buffer.intra then (f, [])
        else if wrap64 (vid_buffer.ustimestamp - f.last_ts) ≥ wrap64 (f.file_duration * 1000000) then
          ({ f with video_recorder := none, video_extra := none }, r.destroy f)
        else (f, [])

/-- Lines 353-358: a recorder is created when there is none. -/
def open_recorder (f : MuxerFlow) (env : Env) : Phase :=
  match f.video_recorder with
  | some _ => ⟨f, [], none⟩
  | none =>
    let g := GenFilePath f env.cb env.now
    let n := NewRecorder g.2.1 g.1 env.newRecorder
    if n.2.2 then ⟨g.2.1, g.2.2 ++ n.2.1, some Status.exited⟩
    else
      match n.1 with
      | some r => ⟨{ g.2.1 with video_recorder := some r, last_ts := 0 }, g.2.2 ++ n.2.1, none⟩
      | none =>
        ⟨{ g.2.1 with video_recorder := none, last_ts := 0, enable_streaming := false },
          g.2.2 ++ n.2.1, none⟩

/-- Lines 361-377: the audio buffer. -/
def process_audio (f : MuxerFlow) (aud : Option MediaBuffer) (env : WriteEnv) : Phase :=
  if !f.audio_in then ⟨f, [], none⟩
  else
    match aud with
    | none => ⟨f, [], none⟩
    | some aud_buffer =>
      match f.video_recorder with
      | none => ⟨f, [], some Status.nullDeref⟩
      | some r =>
        let w := r.Write f aud_buffer env
        if w.1 then ⟨{ f with video_recorder := some w.2.1 }, w.2.2, none⟩
        else
          ⟨{ f with video_recorder := none, enable_streaming := false },
            w.2.2 ++ w.2.1.destroy f, some Status.returned⟩

/-- Lines 391-411: extradata of a key frame is cached when none is cached.
The `Bool` is `true` when the block leaves the video part with `break`
(the allocation failed). -/
def capture_extra (f : MuxerFlow) (vid_buffer : MediaBuffer) (env : Env) :
    MuxerFlow × List Action × Bool :=
  if f.video_extra = none ∧ vid_buffer.intra = true then
    if f.codec_type = CodecType.CODEC_TYPE_H264 ∨ f.codec_type = CodecType.CODEC_TYPE_H265 then
      match env.extract with
      | some bytes =>
        if bytes.length > 0 then
          if env.alloc then
            ({ f with video_extra := some bytes },
              [Action.extract vid_buffer, Action.allocExtra true], false)
          else (f, [Action.extract vid_buffer, Action.allocExtra false], true)
        else (f, [Action.extract vid_buffer], false)
      | none => (f, [Action.extract vid_buffer], false)
    else (f, [], false)
  else (f, [], false)

/-- Lines 380-423: the video buffer. -/
def process_video (f : MuxerFlow) (vid : Option MediaBuffer) (env : Env) : Phase :=
  if !f.video_in then ⟨f, [], none⟩
  else
    match vid with
    | none => ⟨f, [], none⟩
    | some vid_buffer =>
      let c := capture_extra f vid_buffer env
      if c.2.2 then ⟨c.1, c.2.1, none⟩
      else
        match c.1.video_recorder with
        | none => ⟨c.1, c.2.1, some Status.nullDeref⟩
        | some r =>
          let w := r.Write c.1 vid_buffer env.vidW
          if w.1 then
            let f1 := { c.1 with video_recorder := some w.2.1 }
            ⟨if f1.last_ts = 0 ∨ vid_buffer.ustimestamp < f1.last_ts then
                { f1 with last_ts := vid_buffer.ustimestamp }
              else f1,
              c.2.1 ++ w.2.2, none⟩
          else
            ⟨{ c.1 with video_recorder := none, enable_streaming := false },
              c.2.1 ++ w.2.2 ++ w.2.1.destroy c.1, some Status.returned⟩

/-- Lines 332-426: the cycle with streaming enabled. -/
def enabled_cycle (f : MuxerFlow) (vid aud : Option MediaBuffer) (env : Env) : Outcome :=
  let p1 := rotation_check f vid
  let p2 := open_recorder p1.1 env
  match p2.stop with
  | some s => ⟨p2.flow, p1.2 ++ p2.log, s⟩
  | none =>
    let p3 := process_audio p2.flow aud env.audW
    match p3.stop with
    | some s => ⟨p3.flow, p1.2 ++ p2.log ++ p3.log, s⟩
    | none =>
      let p4 := process_video p3.flow vid env
      ⟨p4.flow, p1.2 ++ p2.log ++ p3.log ++ p4.log, p4.stop.getD Status.returned⟩

/-- `save_buffer(f, input_vector)` with `vid = input_vector[0]` and
`aud = input_vector[1]`. -/
def save_buffer (f : MuxerFlow) (vid aud : Option MediaBuffer) (env : Env) : Outcome :=
  if !f.enable_streaming then disabled_cycle f else enabled_cycle f vid aud env

/-! ## Runs -/

/-- One call into the flow: an ingest cycle or a control request. -/
inductive Op where
  | ingest (vid aud : Option MediaBuffer) (env : Env)
  | control (req : Request)
  deriving DecidableEq, Repr

/-- Effect of one call. -/
def step (f : MuxerFlow) : Op → Outcome
  | Op.ingest vid aud env => save_buffer f vid aud env
  | Op.control req => ⟨(Control f req).flow, (Control f req).log, Status.returned⟩

/-- Effect of a sequence of calls; the run ends with the first call that does
not return. -/
def run (f : MuxerFlow) : List Op → Outcome
  | [] => ⟨f, [], Status.returned⟩
  | op :: ops =>
    match (step f op).status with
    | Status.returned =>
      ⟨(run (step f op).flow ops).flow, (step f op).log ++ (run (step f op).flow ops).log,
        (run (step f op).flow ops).status⟩
    | Status.exited => step f op
    | Status.nullDeref => step f op

/-- State and calls of an enabled cycle when the buffers are about to be
processed (after the rotation check and the creation of a recorder). -/
def before_writes (f : MuxerFlow) (vid : Option MediaBuffer) (env : Env) : Phase :=
  open_recorder (rotation_check f vid).1 env

/-- State and calls of the audio part of an enabled cycle. -/
def after_audio (f : MuxerFlow) (vid aud : Option MediaBuffer) (env : Env) : Phase :=
  process_audio (before_writes f vid env).flow aud env.audW

/-! ## Example data -/

/-- Flow of the naming example: prefix `cam`, index 3, nothing else set. -/
def camFlow : MuxerFlow :=
  { video_recorder := none, video_in := true, audio_in := false,
    codec_type := CodecType.CODEC_TYPE_H264, file_duration := -1, file_index := 3,
    last_ts := 0, file_time_en := false, enable_streaming := true, file_name_cb := false,
    file_path := "", file_prefix := "cam", is_use_customio := false, video_extra := none,
    event_callback_ := false }

/-- Flow of the full-path example: a path and no prefix, index and time
suffix both set. -/
def pathFlow : MuxerFlow :=
  { camFlow with file_path := "/tmp/out.mp4", file_prefix := "", file_time_en := true }

/-- Flow of the callback example. -/
def cbFlow : MuxerFlow := { camFlow with file_name_cb := true }

/-- Time used in the examples. -/
def tm0 : Tm := ⟨124, 0, 1, 0, 0, 0⟩

/-- Flow with streaming disabled, an event callback and an open recorder
whose video track is stream 0. -/
def stoppedFlow : MuxerFlow :=
  { camFlow with enable_streaming := false, event_callback_ := true, file_duration := 60,
                 video_recorder := some ⟨0, -1, "cam_3.mp4"⟩, file_index := 4,
                 video_extra := some [1], last_ts := 1000 }

/-- Environment in which every call succeeds. -/
def okEnv : Env :=
  { cb := (0, ""), now := tm0, newRecorder := OpenResult.created, extract := some [1],
    alloc := true, audW := ⟨some 0, some 1, true, true⟩, vidW := ⟨some 0, some 1, true, true⟩ }

/-- A video key frame with the given timestamp. -/
def keyFrame (ts : Int) : MediaBuffer := ⟨MediaType.Video, ts, true⟩

/-- An audio buffer with the given timestamp. -/
def audioFrame (ts : Int) : MediaBuffer := ⟨MediaType.Audio, ts, false⟩

/-- Flow with streaming enabled, a session whose segment started at
1 000 000 us and a duration of 60 s. -/
def rotFlow : MuxerFlow :=
  { stoppedFlow with enable_streaming := true, last_ts := 1000000, audio_in := true }

/-- Fresh flow with audio and video configured and no session. -/
def freshFlow : MuxerFlow := { camFlow with audio_in := true, event_callback_ := true }

/-- Environment in which the muxer cannot be created. -/
def noMuxerEnv : Env := { okEnv with newRecorder := OpenResult.muxerFailed }

/-- Flow with an open session whose tracks are open (video 0, audio 1). -/
def openFlow : MuxerFlow :=
  { rotFlow with video_recorder := some ⟨0, 1, "cam_3.mp4"⟩, file_duration := 0 }

/-- Environment in which the muxer refuses every frame. -/
def badWriteEnv : Env :=
  { okEnv with audW := ⟨some 0, some 1, true, false⟩, vidW := ⟨some 0, some 1, true, false⟩ }

/-- Fresh flow with video configured and a segment duration of 1 (second). -/
def oneSecFlow : MuxerFlow := { camFlow with file_duration := 1 }

/-! ## Observations on logs -/

/-- Events delivered to the event callback, in order. -/
def events : List Action → List MuxerEvent
  | [] => []
  | Action.event e :: l => e :: events l
  | _ :: l => events l

namespace Action

/-- Whether the action hands an input buffer to `muxer->Write`. -/
def isBufferWrite : Action → Bool
  | Action.write _ _ _ => true
  | _ => false

/-- Whether the action creates a track or writes to the muxer. -/
def isTrackCall : Action → Bool
  | Action.newMuxerStream _ _ => true
  | Action.writeHeader _ _ => true
  | Action.write _ _ _ => true
  | Action.writeEOS _ => true
  | _ => false

/-- Whether the action is a header or frame write that the muxer refused. -/
def isFailedWrite : Action → Bool
  | Action.writeHeader _ false => true
  | Action.write _ _ false => true
  | _ => false

/-- Whether the action belongs to the extradata capture. -/
def isExtract : Action → Bool
  | Action.extract _ => true
  | Action.allocExtra _ => true
  | _ => false

end Action

namespace Action

/-- Whether the action creates a track or writes the container header. -/
def opensTrack : Action → Bool
  | Action.newMuxerStream _ _ => true
  | Action.writeHeader _ _ => true
  | _ => false

/-- Whether the action is the successful allocation of `video_extra`, which
follows a successful extraction from a key frame. -/
def isCapture : Action → Bool
  | Action.allocExtra true => true
  | _ => false

end Action

/-- Whether every track creation and header write of the log comes after a
successful extradata capture; `c` tells whether one happened before the log. -/
def gated : Bool → List Action → Bool
  | _, [] => true
  | c, a :: l => (!a.opensTrack || c) && gated (c || a.isCapture) l

/-- A part of a cycle that takes the flow from `g` to `g2` with calls `l`
keeps track creation behind the capture: whenever `c` accounts for the
extradata cached in `g`, the log is gated and `c` extended by the captures of
`l` accounts for the extradata cached in `g2`. -/
def Safe (g : MuxerFlow) (l : List Action) (g2 : MuxerFlow) : Prop :=
  ∀ c : Bool, (g.video_extra ≠ none → c = true) →
    gated c l = true ∧ (g2.video_extra ≠ none → (c || l.any Action.isCapture) = true)

namespace Action

end Action

/-- Whether the cycle closes the active session in its rotation check. -/
def rotates (f : MuxerFlow) (vid : Option MediaBuffer) : Bool :=
  f.enable_streaming && !(rotation_check f vid).2.isEmpty

/-- Which cycles rotate in a run of cycles that each carry a video key frame:
a cycle is given by the timestamp of its key frame, its audio buffer (if any)
and the answers of the calls it makes.  The run ends with the first cycle
that does not return. -/
def rotations (f : MuxerFlow) : List (Int × Option MediaBuffer × Env) → List Bool
  | [] => []
  | c :: cs =>
    match (save_buffer f (some (keyFrame c.1)) c.2.1 c.2.2).status with
    | Status.returned =>
      rotates f (some (keyFrame c.1)) ::
        rotations (save_buffer f (some (keyFrame c.1)) c.2.1 c.2.2).flow cs
    | _ => [rotates f (some (keyFrame c.1))]

/-- Rotation schedule in the words of the specification, for a threshold in
microseconds: `start` is the timestamp of the first key frame of the current
segment (`none` before the first key frame); a key frame rotates exactly when
it is at least `threshold` after `start`, and it then starts the next
segment. -/
def schedule (threshold : Int) : Option Int → List Int → List Bool
  | _, [] => []
  | none, t :: ts => false :: schedule threshold (some t) ts
  | some s, t :: ts =>
    if t - s ≥ threshold then true :: schedule threshold (some t) ts
    else false :: schedule threshold (some s) ts

/-- The calls of the cycle that can make it fail all succeed: the recorder is
created, the extradata buffer is allocated, headers and frames are written. -/
def Env.allOk (env : Env) : Prop :=
  env.newRecorder = OpenResult.created ∧ env.alloc = true ∧
    env.audW.header = true ∧ env.audW.write = true ∧
    env.vidW.header = true ∧ env.vidW.write = true

instance (env : Env) : Decidable env.allOk := by
  unfold Env.allOk
  infer_instance

/-- Three key-frame cycles, the second with an audio buffer, in which every
call succeeds. -/
def threeCycles : List (Int × Option MediaBuffer × Env) :=
  [(1000, none, okEnv), (500000, some (audioFrame 400000), okEnv), (1200000, none, okEnv)]

/-- Segment start recorded in the flow, against the first key frame of the
current segment: before the first key frame `last_ts` is unset; afterwards a
session is active and `last_ts` is that key frame's (non-zero) timestamp. -/
def segment_start (f : MuxerFlow) : Option Int → Prop
  | none => f.last_ts = 0
  | some s => f.last_ts = s ∧ s ≠ 0 ∧ f.video_recorder ≠ none

/-- Rotation condition as the code evaluates it (lines 333-346): the duration
is positive, a session is active, video is configured, the segment start is
set, the video buffer of the cycle is present and a key frame, and the 64-bit
difference of its timestamp and the segment start is at least the 64-bit
product `file_duration * 1000000`. -/
def rotation_due (f : MuxerFlow) (vid : Option MediaBuffer) : Prop :=
  0 < f.file_duration ∧ f.video_recorder ≠ none ∧ f.video_in = true ∧ f.last_ts ≠ 0 ∧
    ∃ b, vid = some b ∧ b.intra = true ∧
      wrap64 (b.ustimestamp - f.last_ts) ≥ wrap64 (f.file_duration * 1000000)

/-- Rotation condition in the words of the specification: the duration is
positive, a session is active, video is configured, the segment start is set,
the video buffer of the cycle is present and a key frame, and its timestamp
minus the segment start is at least `file_duration` seconds, that is
`file_duration * 1000000` microseconds. -/
def rotation_spec (f : MuxerFlow) (vid : Option MediaBuffer) : Prop :=
  0 < f.file_duration ∧ f.video_recorder ≠ none ∧ f.video_in = true ∧ f.last_ts ≠ 0 ∧
    ∃ b, vid = some b ∧ b.intra = true ∧
      b.ustimestamp - f.last_ts ≥ f.file_duration * 1000000

/-! ## Sessions -/

/-- Calls made by a sequence of `Write` calls on one recorder.  Each call comes
with the flow it is made with (the cached extradata may appear between two
calls), the buffer and the answers of the backend.  The sequence ends with
the first `Write` that returns `false`, after which `save_buffer` destroys
the recorder. -/
def session_log (r : VideoRecorder) : List (MuxerFlow × MediaBuffer × WriteEnv) → List Action
  | [] => []
  | c :: cs =>
    if (r.Write c.1 c.2.1 c.2.2).1 then
      (r.Write c.1 c.2.1 c.2.2).2.2 ++ session_log (r.Write c.1 c.2.1 c.2.2).2.1 cs
    else (r.Write c.1 c.2.1 c.2.2).2.2

/-- Whether the action is a header write. -/
def Action.isHeader : Action → Bool
  | Action.writeHeader _ _ => true
  | _ => false

/-- Fresh flow with audio and video configured and extradata cached. -/
def extraFlow : MuxerFlow := { freshFlow with video_extra := some [1] }

/-- A recorder with no open track. -/
def newRec : VideoRecorder := ⟨-1, -1, "cam_3.mp4"⟩

/-- Backend answers in which the video stream is refused and everything else
succeeds. -/
def noVideoW : WriteEnv := ⟨none, some 1, true, true⟩

/-- Environment of a cycle in which the video stream is refused and
everything else succeeds. -/
def noVideoEnv : Env := { okEnv with audW := noVideoW, vidW := noVideoW }

/-- A video frame that is not a key frame. -/
def deltaFrame (ts : Int) : MediaBuffer := ⟨MediaType.Video, ts, false⟩

/-- A session is opened and captures extradata, streaming is stopped, a cycle
closes the session, streaming is started again. -/
def stopStartOps : List Op :=
  [Op.ingest (some (keyFrame 5)) none okEnv, Op.control Request.S_STOP_SRTEAM,
    Op.ingest none none okEnv, Op.control Request.S_START_SRTEAM]

/-- A session is opened and captures extradata, a video write fails (which
closes the session and disables streaming), streaming is started again. -/
def failStartOps : List Op :=
  [Op.ingest (some (keyFrame 5)) none okEnv, Op.ingest (some (deltaFrame 6)) none badWriteEnv,
    Op.control Request.S_START_SRTEAM]

/-! ## Configuration and invariants of runs -/

/-- Fields of the flow that neither an ingest cycle nor a control request
changes: the track configuration and the event callback. -/
def config (f : MuxerFlow) : Bool × Bool × CodecType × Bool :=
  (f.video_in, f.audio_in, f.codec_type, f.event_callback_)

/-- No extradata is cached and the active recorder, if any, has no open
track. -/
def untracked (f : MuxerFlow) : Prop :=
  f.video_extra = none ∧
    ∀ r, f.video_recorder = some r → r.vid_stream_id = -1 ∧ r.aud_stream_id = -1

/-- The configuration is audio-only, or its video codec is neither H.264 nor
H.265. -/
def no_h26x (f : MuxerFlow) : Prop :=
  f.video_in = false ∨
    (f.codec_type ≠ CodecType.CODEC_TYPE_H264 ∧ f.codec_type ≠ CodecType.CODEC_TYPE_H265)

/-- The ingest cycles of a run, each given by its video buffer, its audio
buffer and the answers of its calls. -/
def ingests (cs : List (Option MediaBuffer × Option MediaBuffer × Env)) : List Op :=
  cs.map (fun c => Op.ingest c.1 c.2.1 c.2.2)

/-- Audio-only flow without session. -/
def audioOnlyFlow : MuxerFlow :=
  { camFlow with video_in := false, audio_in := true, file_duration := 60 }

/-- Flow whose video codec is neither H.264 nor H.265. -/
def otherCodecFlow : MuxerFlow :=
  { camFlow with audio_in := true, codec_type := CodecType.CODEC_TYPE_OTHER }

/-- Flow whose video codec is neither H.264 nor H.265, with a segment
duration of 60 s. -/
def otherCodecTimedFlow : MuxerFlow := { otherCodecFlow with file_duration := 60 }

/-- Two cycles with a key frame and an audio buffer each, all calls
succeeding. -/
def avCycles : List (Option MediaBuffer × Option MediaBuffer × Env) :=
  [(some (keyFrame 5), some (audioFrame 5), okEnv),
    (some (keyFrame 70000000), some (audioFrame 70000000), okEnv)]

/-- A recorder with no open track and an empty path. -/
def noPathRec : VideoRecorder := ⟨-1, -1, ""⟩

/-- Flow with cached extradata and no event callback. -/
def noSinkFlow : MuxerFlow := { extraFlow with event_callback_ := false }

/-- Fresh flow with a file-name callback registered. -/
def cbFreshFlow : MuxerFlow := { freshFlow with file_name_cb := true }

/-- Environment in which the file-name callback succeeds without writing a
name and the backend refuses the video stream. -/
def emptyNameEnv : Env := { noVideoEnv with cb := (0, "") }

/-- Backend answers in which the audio stream is refused, the header is
written and the frame is refused. -/
def noAudioBadFrameW : WriteEnv := ⟨some 0, none, true, false⟩

/-- Backend answers in which only the audio stream is refused. -/
def noAudioW : WriteEnv := ⟨some 0, none, true, true⟩

/-! ## Segment start -/

/-- Timestamp of the video buffer forwarded by the video part of a cycle
entered with flow `g`: the part reaches `recorder->Write` (video configured,
buffer present, no `break`, recorder present) and `Write` returns `true`. -/
def video_write_ok (g : MuxerFlow) (vid : Option MediaBuffer) (env : Env) : Option Int :=
  if !g.video_in then none
  else
    match vid with
    | none => none
    | some b =>
      if (capture_extra g b env).2.2 then none
      else
        match (capture_extra g b env).1.video_recorder with
        | none => none
        | some r =>
          if (r.Write (capture_extra g b env).1 b env.vidW).1 then some b.ustimestamp else none

/-- Timestamp of the video buffer forwarded by an enabled cycle, if the
cycle reaches its video part and forwards one. -/
def video_forwarded (f : MuxerFlow) (vid aud : Option MediaBuffer) (env : Env) : Option Int :=
  if (before_writes f vid env).stop = none ∧ (after_audio f vid aud env).stop = none then
    video_write_ok (after_audio f vid aud env).flow vid env
  else none

/-- Whether an enabled cycle resets the segment start: after the rotation
check there is no recorder, so lines 354-355 run. -/
def segment_reset (f : MuxerFlow) (vid : Option MediaBuffer) : Bool :=
  decide ((rotation_check f vid).1.video_recorder = none)

/-- Segment start after a successful video write (lines 419-421). -/
def next_start (base : Int) : Option Int → Int
  | some t => if base = 0 ∨ t < base then t else base
  | none => base

/-- Timestamps of the video buffers forwarded since the last reset of the
segment start, after one call entered with the list `g`. -/
def forwarded_step (f : MuxerFlow) (g : List Int) : Op → List Int
  | Op.control _ => g
  | Op.ingest vid aud env =>
    if f.enable_streaming then
      match video_forwarded f vid aud env with
      | some t => t :: (if segment_reset f vid then [] else g)
      | none => if segment_reset f vid then [] else g
    else g

/-- Timestamps of the video buffers forwarded since the last reset of the
segment start, at the end of a run entered with the list `g`. -/
def forwarded_since_reset (f : MuxerFlow) (g : List Int) : List Op → List Int
  | [] => g
  | op :: ops =>
    match (step f op).status with
    | Status.returned => forwarded_since_reset (step f op).flow (forwarded_step f g op) ops
    | _ => forwarded_step f g op

/-- The segment start agrees with the forwarded timestamps `g`: unset when
there is none, their minimum otherwise; no timestamp is zero. -/
def start_is_min (f : MuxerFlow) (g : List Int) : Prop :=
  (g = [] → f.last_ts = 0) ∧ (g ≠ [] → f.last_ts ∈ g ∧ ∀ t ∈ g, f.last_ts ≤ t) ∧
    ∀ t ∈ g, t ≠ 0

/-- A session captures a key frame at 5 us, streaming is stopped and a
disabled cycle closes the session. -/
def stopOps : List Op :=
  [Op.ingest (some (keyFrame 5)) none okEnv, Op.control Request.S_STOP_SRTEAM,
    Op.ingest none none okEnv]

/-- Three video frames at 9, 4 and 6 us in one session. -/
def threeFrames : List Op :=
  [Op.ingest (some (keyFrame 9)) none okEnv, Op.ingest (some (deltaFrame 4)) none okEnv,
    Op.ingest (some (deltaFrame 6)) none okEnv]

/-! ## Life cycle of sessions in a log -/

/-- Stage of the session as a log shows it: no muxer; muxer created and
`FILE_BEGIN` pending; session active; `FILE_END` delivered and the release of
the muxer pending. -/
inductive Life where
  | idle
  | created
  | active
  | ended
  deriving DecidableEq, Repr

/-- Stage after one more action, or `none` when the action is out of order.
With an event callback (`sink`) a session is `createMuxer`, `FILE_BEGIN`, ...,
`FILE_END`, `closeMuxer`; without one it is `createMuxer`, ..., `closeMuxer`
and no `FILE_BEGIN` or `FILE_END` is delivered at all. -/
def Life.next (sink : Bool) (st : Life) : Action → Option Life
  | Action.createMuxer _ _ =>
    if st = Life.idle then some (if sink then Life.created else Life.active) else none
  | Action.closeMuxer =>
    if st = (if sink then Life.ended else Life.active) then some Life.idle else none
  | Action.event e =>
    if e.type = MuxerEventType.MUX_EVENT_FILE_BEGIN then
      if st = Life.created ∧ sink = true then some Life.active else none
    else if e.type = MuxerEventType.MUX_EVENT_FILE_END then
      if st = Life.active ∧ sink = true then some Life.ended else none
    else some st
  | _ => some st

/-- Stage at the end of a log, or `none` when an action is out of order. -/
def lifecycle (sink : Bool) : Life → List Action → Option Life
  | st, [] => some st
  | st, a :: l =>
    match Life.next sink st a with
    | some st2 => lifecycle sink st2 l
    | none => none

/-- Stage that corresponds to the flow between two calls. -/
def life_of (f : MuxerFlow) : Life :=
  match f.video_recorder with
  | some _ => Life.active
  | none => Life.idle

/-- A part of a cycle takes the stage of the flow `g` to the stage of the
flow `g2` through the calls `l`. -/
def Lives (sink : Bool) (g : MuxerFlow) (l : List Action) (g2 : MuxerFlow) : Prop :=
  lifecycle sink (life_of g) l = some (life_of g2)

/-- Flow with cached extradata and an active recorder without open track. -/
def sessionFlow : MuxerFlow := { extraFlow with video_recorder := some newRec }

/-- Whether the log writes the header at most once and before every frame;
`h` tells whether the header was written before the log. -/
def header_once : Bool → List Action → Bool
  | _, [] => true
  | h, Action.writeHeader _ _ :: l => !h && header_once true l
  | h, Action.write _ _ _ :: l => h && header_once h l
  | h, _ :: l => header_once h l

/-! ## Theorems: machine arithmetic -/

/-- On the values the program works with (microsecond timestamps that are
not negative, a duration that was read as a 32-bit `int`) the 64-bit results
of `ts - last_ts` and `duration_us * 1000000` are the exact ones, and the
`(int)` conversion of the duration is the identity. -/
theorem arith_exact_in_range (ts last d : Int) (h1 : 0 ≤ ts) (h2 : ts < 9223372036854775808)
    (h3 : 0 ≤ last) (h4 : last < 9223372036854775808) (h5 : -2147483648 ≤ d)
    (h6 : d < 2147483648) :
    wrap64 (ts - last) = ts - last ∧ wrap64 (d * 1000000) = d * 1000000 ∧ toInt32 d = d := by
  unfold wrap64 toInt32
  omega

/-- The 64-bit result of an operation is the exact one when the exact one is
representable. -/
theorem wrap64_of_int64 (x : Int) (h : int64 x) : wrap64 x = x := by
  unfold int64 at h
  unfold wrap64
  omega

/-- The 64-bit result is always representable, and differs from the exact one
exactly when the exact one is not. -/
theorem wrap64_int64 (x : Int) : int64 (wrap64 x) ∧ (wrap64 x = x ↔ int64 x) := by
  unfold int64 wrap64
  omega

/-! ## Theorems: `GenFilePath` -/

theorem GenFilePath_pattern_indexed (f : MuxerFlow) (now : Tm) (h1 : f.file_path = "")
    (h2 : f.file_prefix ≠ "") (h3 : f.file_time_en = false) (h4 : 0 < f.file_index) :
    GenFilePath_pattern f now =
      (f.file_prefix ++ "_" ++ toString f.file_index ++ ".mp4",
        { f with file_index := f.file_index + 1 }) := by
  simp [GenFilePath_pattern, h1, h2, h3, h4]

theorem GenFilePath_of_no_cb (f : MuxerFlow) (cb : Int × String) (now : Tm)
    (h : f.file_name_cb = false) :
    GenFilePath f cb now = ((GenFilePath_pattern f now).1, (GenFilePath_pattern f now).2, []) := by
  unfold GenFilePath
  rw [h]
  rfl

theorem GenFilePath_indexed (f : MuxerFlow) (cb : Int × String) (now : Tm)
    (h0 : f.file_name_cb = false) (h1 : f.file_path = "")
    (h2 : f.file_prefix ≠ "") (h3 : f.file_time_en = false) (h4 : 0 < f.file_index) :
    GenFilePath f cb now =
      (f.file_prefix ++ "_" ++ toString f.file_index ++ ".mp4",
        { f with file_index := f.file_index + 1 }, []) := by
  rw [GenFilePath_of_no_cb f cb now h0, GenFilePath_pattern_indexed f now h1 h2 h3 h4]

theorem GenFilePath_iter_indexed (cbs : Nat → Int × String) (nows : Nat → Tm) (f : MuxerFlow)
    (h0 : f.file_name_cb = false) (h1 : f.file_path = "") (h2 : f.file_prefix ≠ "")
    (h3 : f.file_time_en = false) (h4 : 0 < f.file_index) (n : Nat) :
    GenFilePath_iter cbs nows n f = { f with file_index := f.file_index + n } := by
  induction n with
  | zero => simp [GenFilePath_iter]
  | succ n ih =>
    have h4n : 0 < f.file_index + (n : Int) := by omega
    rw [GenFilePath_iter, ih,
      GenFilePath_indexed { f with file_index := f.file_index + n } _ _ h0 h1 h2 h3 h4n]
    simp only [Nat.cast_add, Nat.cast_one, Int.add_assoc]

/-- C4: with no naming callback, no output directory, the time suffix off, a
non-empty prefix `p` and a starting index `i > 0`, the call number `n + 1` of
`GenFilePath` returns `p ++ "_" ++ decimal (i + n) ++ ".mp4"` and leaves the
index at `i + n + 1`; for prefix `cam` and index 3 the first three calls
return `cam_3.mp4`, `cam_4.mp4`, `cam_5.mp4`. -/
theorem C4_genfilepath_indexed_names :
    (∀ (cbs : Nat → Int × String) (nows : Nat → Tm) (f : MuxerFlow) (n : Nat),
      f.file_name_cb = false → f.file_path = "" → f.file_time_en = false →
      f.file_prefix ≠ "" → 0 < f.file_index →
      (GenFilePath (GenFilePath_iter cbs nows n f) (cbs n) (nows n)).1 =
          f.file_prefix ++ "_" ++ toString (f.file_index + n) ++ ".mp4" ∧
        (GenFilePath_iter cbs nows (n + 1) f).file_index = f.file_index + n + 1) ∧
    (∀ (cbs : Nat → Int × String) (nows : Nat → Tm),
      (GenFilePath (GenFilePath_iter cbs nows 0 camFlow) (cbs 0) (nows 0)).1 = "cam_3.mp4" ∧
      (GenFilePath (GenFilePath_iter cbs nows 1 camFlow) (cbs 1) (nows 1)).1 = "cam_4.mp4" ∧
      (GenFilePath (GenFilePath_iter cbs nows 2 camFlow) (cbs 2) (nows 2)).1 = "cam_5.mp4") := by
  have key : ∀ (cbs : Nat → Int × String) (nows : Nat → Tm) (f : MuxerFlow) (n : Nat),
      f.file_name_cb = false → f.file_path = "" → f.file_time_en = false →
      f.file_prefix ≠ "" → 0 < f.file_index →
      (GenFilePath (GenFilePath_iter cbs nows n f) (cbs n) (nows n)).1 =
          f.file_prefix ++ "_" ++ toString (f.file_index + n) ++ ".mp4" ∧
        (GenFilePath_iter cbs nows (n + 1) f).file_index = f.file_index + n + 1 := by
    intro cbs nows f n h0 h1 h3 h2 h4
    have h4n : 0 < f.file_index + (n : Int) := by omega
    constructor
    · rw [GenFilePath_iter_indexed cbs nows f h0 h1 h2 h3 h4 n,
        GenFilePath_indexed { f with file_index := f.file_index + n } _ _ h0 h1 h2 h3 h4n]
    · rw [GenFilePath_iter_indexed cbs nows f h0 h1 h2 h3 h4 (n + 1)]
      simp only [Nat.cast_add, Nat.cast_one, Int.add_assoc]
  refine ⟨key, ?_⟩
  intro cbs nows
  have e0 := (key cbs nows camFlow 0 rfl rfl rfl (by decide) (by decide)).1
  have e1 := (key cbs nows camFlow 1 rfl rfl rfl (by decide) (by decide)).1
  have e2 := (key cbs nows camFlow 2 rfl rfl rfl (by decide) (by decide)).1
  refine ⟨e0.trans (by decide), e1.trans (by decide), e2.trans (by decide)⟩

/-- Witness of C4: the third call on the `cam` flow. -/
theorem C4_genfilepath_indexed_names_witness :
    (GenFilePath (GenFilePath_iter (fun _ => (0, "")) (fun _ => tm0) 2 camFlow) (0, "") tm0).1 =
        camFlow.file_prefix ++ "_" ++ toString (camFlow.file_index + (2 : Nat)) ++ ".mp4" ∧
      (GenFilePath_iter (fun _ => (0, "")) (fun _ => tm0) (2 + 1) camFlow).file_index =
        camFlow.file_index + (2 : Nat) + 1 :=
  C4_genfilepath_indexed_names.1 (fun _ => (0, "")) (fun _ => tm0) camFlow 2 rfl rfl rfl
    (by decide) (by decide)

/-- C5: with a non-empty output path, an empty prefix and no naming callback,
every call of `GenFilePath` returns exactly the path, makes no call and
leaves the flow (the file index with it) unchanged, whatever the index and
the time-suffix setting. -/
theorem C5_genfilepath_full_path (cbs : Nat → Int × String) (nows : Nat → Tm) (f : MuxerFlow)
    (n : Nat) (h0 : f.file_name_cb = false) (h1 : f.file_path ≠ "") (h2 : f.file_prefix = "") :
    GenFilePath (GenFilePath_iter cbs nows n f) (cbs n) (nows n) = (f.file_path, f, []) := by
  have one : ∀ cb now, GenFilePath f cb now = (f.file_path, f, []) := by
    intro cb now
    simp [GenFilePath, GenFilePath_pattern, h0, h1, h2]
  have it : GenFilePath_iter cbs nows n f = f := by
    induction n with
    | zero => rfl
    | succ n ih => simp only [GenFilePath_iter, ih, one]
  rw [it, one]

/-- Witness of C5: the fourth call on a flow with path `/tmp/out.mp4`, index 3
and the time suffix on. -/
theorem C5_genfilepath_full_path_witness :
    GenFilePath (GenFilePath_iter (fun _ => (0, "")) (fun _ => tm0) 3 pathFlow) (0, "") tm0 =
      ("/tmp/out.mp4", pathFlow, []) :=
  C5_genfilepath_full_path (fun _ => (0, "")) (fun _ => tm0) pathFlow 3 rfl (by decide) rfl

/-- C6: with a naming callback registered, a call of `GenFilePath` calls it
exactly once; when it returns 0 the path is the name it wrote and the flow
(the file index with it) is unchanged; when it returns non-zero the path and
the flow afterwards, up to the registration itself, are those of the same
call with no callback registered. -/
theorem C6_genfilepath_callback (f : MuxerFlow) (cb : Int × String) (now : Tm)
    (h : f.file_name_cb = true) :
    (GenFilePath f cb now).2.2 = [Action.fileNameCb cb.1 cb.2] ∧
    (cb.1 = 0 → (GenFilePath f cb now).1 = cb.2 ∧ (GenFilePath f cb now).2.1 = f) ∧
    (cb.1 ≠ 0 →
      (GenFilePath f cb now).1 = (GenFilePath { f with file_name_cb := false } cb now).1 ∧
      (GenFilePath f cb now).2.1.file_index =
        (GenFilePath { f with file_name_cb := false } cb now).2.1.file_index ∧
      { (GenFilePath f cb now).2.1 with file_name_cb := false } =
        (GenFilePath { f with file_name_cb := false } cb now).2.1) := by
  refine ⟨?_, ?_, ?_⟩
  · unfold GenFilePath
    rw [h]
    simp only [if_true]
    split <;> rfl
  · intro h0
    simp [GenFilePath, h, h0]
  · intro h0
    simp only [GenFilePath, h, h0, if_true, if_false, Bool.false_eq_true]
    unfold GenFilePath_pattern
    simp only
    split_ifs <;> simp

/-- Witness of C6: the callback fails on the `cam` flow and the pattern name
is produced. -/
theorem C6_genfilepath_callback_witness :
    (GenFilePath cbFlow (-1, "x") tm0).2.2 = [Action.fileNameCb (-1) "x"] ∧
    (((-1 : Int), "x").1 = 0 →
      (GenFilePath cbFlow (-1, "x") tm0).1 = "x" ∧ (GenFilePath cbFlow (-1, "x") tm0).2.1 = cbFlow) ∧
    (((-1 : Int), "x").1 ≠ 0 →
      (GenFilePath cbFlow (-1, "x") tm0).1 =
        (GenFilePath { cbFlow with file_name_cb := false } (-1, "x") tm0).1 ∧
      (GenFilePath cbFlow (-1, "x") tm0).2.1.file_index =
        (GenFilePath { cbFlow with file_name_cb := false } (-1, "x") tm0).2.1.file_index ∧
      { (GenFilePath cbFlow (-1, "x") tm0).2.1 with file_name_cb := false } =
        (GenFilePath { cbFlow with file_name_cb := false } (-1, "x") tm0).2.1) :=
  C6_genfilepath_callback cbFlow (-1, "x") tm0 rfl

/-! ## Theorems: control surface -/

/-- C10: `StartStream` delivers exactly one `STREAM_START` event if and only
if streaming was disabled and an event callback is registered, and nothing
otherwise; it creates no recorder; `StopStream` delivers nothing and leaves the
recorder untouched; after either call `G_MUXER_GET_STATUS` reads the value
just set; `Control` forwards the two requests to these functions. -/
theorem C10_start_stop_stream (f : MuxerFlow) :
    ((StartStream f).2 =
        [Action.event ⟨MuxerEventType.MUX_EVENT_STREAM_START, "", 0⟩] ↔
      (f.enable_streaming = false ∧ f.event_callback_ = true)) ∧
    ((StartStream f).2 = [Action.event ⟨MuxerEventType.MUX_EVENT_STREAM_START, "", 0⟩] ∨
      (StartStream f).2 = []) ∧
    (StartStream f).1.video_recorder = f.video_recorder ∧
    (StartStream f).1 = { f with enable_streaming := true } ∧
    (StopStream f).2 = [] ∧
    (StopStream f).1 = { f with enable_streaming := false } ∧
    (StopStream f).1.video_recorder = f.video_recorder ∧
    (Control (StartStream f).1 (Request.G_MUXER_GET_STATUS true)).value = some 1 ∧
    (Control (StopStream f).1 (Request.G_MUXER_GET_STATUS true)).value = some 0 ∧
    (Control f Request.S_START_SRTEAM).flow = (StartStream f).1 ∧
    (Control f Request.S_START_SRTEAM).log = (StartStream f).2 ∧
    (Control f Request.S_STOP_SRTEAM).flow = (StopStream f).1 ∧
    (Control f Request.S_STOP_SRTEAM).log = (StopStream f).2 := by
  refine ⟨?_, ?_, rfl, rfl, rfl, rfl, rfl, rfl, rfl, rfl, rfl, rfl, rfl⟩
  · cases he : f.enable_streaming <;> cases hc : f.event_callback_ <;>
      simp [StartStream, he, hc]
  · cases he : f.enable_streaming <;> cases hc : f.event_callback_ <;>
      simp [StartStream, he, hc]

/-! ## Theorems: `save_buffer` -/

theorem save_buffer_enabled (f : MuxerFlow) (vid aud : Option MediaBuffer) (env : Env)
    (he : f.enable_streaming = true) :
    save_buffer f vid aud env = enabled_cycle f vid aud env := by
  simp [save_buffer, he]

theorem save_buffer_disabled (f : MuxerFlow) (vid aud : Option MediaBuffer) (env : Env)
    (he : f.enable_streaming = false) :
    save_buffer f vid aud env = disabled_cycle f := by
  simp [save_buffer, he]

theorem rotation_check_of_due (f : MuxerFlow) (vid : Option MediaBuffer)
    (h : rotation_due f vid) :
    ∃ r, f.video_recorder = some r ∧
      rotation_check f vid =
        ({ f with video_recorder := none, video_extra := none }, r.destroy f) := by
  obtain ⟨hd, hr, hv, hl, b, hb, hi, ht⟩ := h
  cases hrec : f.video_recorder with
  | none => exact absurd hrec hr
  | some r =>
    refine ⟨r, rfl, ?_⟩
    have hd2 : ¬ f.file_duration ≤ 0 := by omega
    simp [rotation_check, hd2, hl, hv, hrec, hb, hi, ht]

theorem rotation_check_of_not_due (f : MuxerFlow) (vid : Option MediaBuffer)
    (h : ¬ rotation_due f vid) : rotation_check f vid = (f, []) := by
  unfold rotation_check
  split_ifs with h1 h2 h3
  · rfl
  · rfl
  · rfl
  · cases hrec : f.video_recorder with
    | none => rfl
    | some r =>
      cases hvid : vid with
      | none => rfl
      | some b =>
        simp only
        split_ifs with h4 h5
        · rfl
        · exfalso
          apply h
          refine ⟨by omega, by simp [hrec], by simpa using h3, h2, b, hvid, by simpa using h4, h5⟩
        · rfl

/-- Outside that range the two conditions differ: a key frame stamped with the
least 64-bit value gives a difference to the segment start that is not
representable, the 64-bit result is positive and the check closes the
session. -/
theorem rotation_check_wraps :
    ¬ int64 ((keyFrame (-9223372036854775808)).ustimestamp - rotFlow.last_ts) ∧
    Action.closeMuxer ∈ (rotation_check rotFlow (some (keyFrame (-9223372036854775808)))).2 ∧
    ¬ rotation_spec rotFlow (some (keyFrame (-9223372036854775808))) := by
  refine ⟨by decide, by decide, ?_⟩
  rintro ⟨_, _, _, _, b, hb, _, hge⟩
  cases hb
  revert hge
  decide

/-- C9: with streaming disabled and an event callback registered, a cycle
entered with an active session destroys it, hands no input buffer to the
muxer and delivers `FILE_END` followed by one `STREAM_STOP` and nothing else,
and the next disabled cycle does nothing; a disabled cycle entered without a
session makes no call and leaves the flow unchanged. -/
theorem C9_disabled_cycle (f : MuxerFlow) (vid aud vid2 aud2 : Option MediaBuffer)
    (env env2 : Env) (hd : f.enable_streaming = false) (hs : f.event_callback_ = true) :
    (∀ r, f.video_recorder = some r →
      (save_buffer f vid aud env).status = Status.returned ∧
      (save_buffer f vid aud env).flow = { f with video_recorder := none } ∧
      events (save_buffer f vid aud env).log =
        [⟨MuxerEventType.MUX_EVENT_FILE_END, r.record_path,
            if r.record_path ≠ "" then toInt32 f.file_duration else 0⟩,
          ⟨MuxerEventType.MUX_EVENT_STREAM_STOP, "", 0⟩] ∧
      (∀ a ∈ (save_buffer f vid aud env).log, a.isBufferWrite = false) ∧
      Action.closeMuxer ∈ (save_buffer f vid aud env).log ∧
      save_buffer (save_buffer f vid aud env).flow vid2 aud2 env2 =
        ⟨(save_buffer f vid aud env).flow, [], Status.returned⟩) ∧
    (f.video_recorder = none → save_buffer f vid aud env = ⟨f, [], Status.returned⟩) := by
  constructor
  · intro r hr
    have e : save_buffer f vid aud env =
        ⟨{ f with video_recorder := none },
          r.destroy f ++
            [Action.event ⟨MuxerEventType.MUX_EVENT_STREAM_STOP, "", 0⟩],
          Status.returned⟩ := by
      rw [save_buffer_disabled f vid aud env hd]
      simp [disabled_cycle, hr, hs]
    rw [e]
    refine ⟨rfl, rfl, ?_, ?_, ?_, ?_⟩
    · by_cases hv : r.vid_stream_id = -1 <;>
        simp [VideoRecorder.destroy, VideoRecorder.ProcessEvent, hs, hv, events]
    · by_cases hv : r.vid_stream_id = -1 <;>
        simp [VideoRecorder.destroy, VideoRecorder.ProcessEvent, hs, hv, Action.isBufferWrite]
    · simp [VideoRecorder.destroy]
    · exact save_buffer_disabled { f with video_recorder := none } vid2 aud2 env2 hd
  · intro hr
    rw [save_buffer_disabled f vid aud env hd]
    simp [disabled_cycle, hr]

/-- Witness of C9: a disabled cycle on a flow with an open session and a
disabled cycle on a flow without one. -/
theorem C9_disabled_cycle_witness :
    events (save_buffer stoppedFlow (some (keyFrame 5)) none okEnv).log =
        [⟨MuxerEventType.MUX_EVENT_FILE_END, "cam_3.mp4", 60⟩,
          ⟨MuxerEventType.MUX_EVENT_STREAM_STOP, "", 0⟩] ∧
      save_buffer { stoppedFlow with video_recorder := none } (some (keyFrame 5)) none okEnv =
        ⟨{ stoppedFlow with video_recorder := none }, [], Status.returned⟩ :=
  ⟨((C9_disabled_cycle stoppedFlow (some (keyFrame 5)) none none none okEnv okEnv rfl rfl).1
      ⟨0, -1, "cam_3.mp4"⟩ rfl).2.2.1,
    (C9_disabled_cycle { stoppedFlow with video_recorder := none } (some (keyFrame 5)) none none
      none okEnv okEnv rfl rfl).2 rfl⟩

/-! ### Shape of the logs of the parts of a cycle -/

theorem ProcessEvent_quiet (r : VideoRecorder) (f : MuxerFlow) (t : MuxerEventType) (v : Int) :
    ∀ x ∈ r.ProcessEvent f t v, x.isTrackCall = false ∧ x.isExtract = false := by
  unfold VideoRecorder.ProcessEvent
  split <;> simp [Action.isTrackCall, Action.isExtract]

theorem destroy_no_extract (r : VideoRecorder) (f : MuxerFlow) :
    ∀ x ∈ r.destroy f, x.isExtract = false := by
  intro x hx
  simp only [VideoRecorder.destroy, List.mem_append, List.mem_singleton] at hx
  rcases hx with (hx | hx) | hx
  · split at hx
    · simp only [List.mem_singleton] at hx
      subst hx
      rfl
    · simp at hx
  · exact (ProcessEvent_quiet r f _ _ x hx).2
  · subst hx
    rfl

theorem destroy_cleared_quiet (r : VideoRecorder) (f : MuxerFlow) (h : r.vid_stream_id = -1) :
    ∀ x ∈ r.destroy f, x.isTrackCall = false ∧ x.isExtract = false := by
  intro x hx
  simp only [VideoRecorder.destroy, h, ne_eq, not_true_eq_false, if_false, List.nil_append,
    List.mem_append, List.mem_singleton] at hx
  rcases hx with hx | hx
  · exact ProcessEvent_quiet r f _ _ x hx
  · subst hx
    exact ⟨rfl, rfl⟩

theorem openStreams_no_extract (r : VideoRecorder) (f : MuxerFlow) (env : WriteEnv) :
    ∀ x ∈ (r.openStreams f env).2.2, x.isExtract = false := by
  intro x hx
  unfold VideoRecorder.openStreams at hx
  simp only at hx
  have hq := fun t v (r0 : VideoRecorder) hy => (ProcessEvent_quiet r0 f t v x hy).2
  split at hx
  · split at hx <;>
      simp only [List.mem_append, List.mem_singleton] at hx
    · rcases hx with (hx | hx) | hx
      · rcases hx with hx | hx
        · subst hx; rfl
        · split at hx
          · simp at hx
          · exact hq _ _ _ hx
      · split at hx
        · simp only [List.mem_append, List.mem_singleton] at hx
          rcases hx with hx | hx
          · subst hx; rfl
          · split at hx
            · simp at hx
            · exact hq _ _ _ hx
        · simp at hx
      · subst hx; rfl
    · rcases hx with ((hx | hx) | hx) | hx
      · rcases hx with hx | hx
        · subst hx; rfl
        · split at hx
          · simp at hx
          · exact hq _ _ _ hx
      · split at hx
        · simp only [List.mem_append, List.mem_singleton] at hx
          rcases hx with hx | hx
          · subst hx; rfl
          · split at hx
            · simp at hx
            · exact hq _ _ _ hx
        · simp at hx
      · subst hx; rfl
      · exact hq _ _ _ hx
  · simp at hx

theorem writeFrame_no_extract (r : VideoRecorder) (f : MuxerFlow) (b : MediaBuffer)
    (env : WriteEnv) : ∀ x ∈ (r.writeFrame f b env).2.2, x.isExtract = false := by
  intro x hx
  unfold VideoRecorder.writeFrame at hx
  have hq := fun t v (r0 : VideoRecorder) hy => (ProcessEvent_quiet r0 f t v x hy).2
  split_ifs at hx <;>
    simp only [List.mem_append, List.mem_singleton, List.not_mem_nil] at hx
  · subst hx; rfl
  · rcases hx with hx | hx
    · subst hx; rfl
    · exact hq _ _ _ hx
  · subst hx; rfl
  · rcases hx with hx | hx
    · subst hx; rfl
    · exact hq _ _ _ hx

theorem Write_no_extract (r : VideoRecorder) (f : MuxerFlow) (b : MediaBuffer) (env : WriteEnv) :
    ∀ x ∈ (r.Write f b env).2.2, x.isExtract = false := by
  intro x hx
  unfold VideoRecorder.Write at hx
  simp only at hx
  split at hx
  · simp only [List.mem_append] at hx
    rcases hx with hx | hx
    · exact openStreams_no_extract r f env x hx
    · exact writeFrame_no_extract _ f b env x hx
  · exact openStreams_no_extract r f env x hx

theorem rotation_check_no_extract (f : MuxerFlow) (vid : Option MediaBuffer) :
    ∀ x ∈ (rotation_check f vid).2, x.isExtract = false := by
  by_cases h : rotation_due f vid
  · obtain ⟨r, _, e⟩ := rotation_check_of_due f vid h
    rw [e]
    exact destroy_no_extract r f
  · rw [rotation_check_of_not_due f vid h]
    simp

theorem GenFilePath_no_extract (f : MuxerFlow) (cb : Int × String) (now : Tm) :
    ∀ x ∈ (GenFilePath f cb now).2.2, x.isExtract = false := by
  unfold GenFilePath
  split_ifs <;> simp [Action.isExtract]

theorem NewRecorder_no_extract (f : MuxerFlow) (path : String) (res : OpenResult) :
    ∀ x ∈ (NewRecorder f path res).2.1, x.isExtract = false := by
  intro x hx
  cases res <;>
    simp only [NewRecorder, VideoRecorder.create, List.mem_append, List.mem_singleton,
      List.not_mem_nil] at hx
  · rcases hx with hx | hx
    · subst hx; rfl
    · exact (ProcessEvent_quiet _ f _ _ x hx).2
  · subst hx; rfl

theorem open_recorder_no_extract (f : MuxerFlow) (env : Env) :
    ∀ x ∈ (open_recorder f env).log, x.isExtract = false := by
  intro x hx
  unfold open_recorder at hx
  split at hx
  · simp at hx
  · simp only at hx
    have key : ∀ y ∈ (GenFilePath f env.cb env.now).2.2 ++
        (NewRecorder (GenFilePath f env.cb env.now).2.1 (GenFilePath f env.cb env.now).1
          env.newRecorder).2.1, y.isExtract = false := by
      intro y hy
      rcases List.mem_append.mp hy with hy | hy
      · exact GenFilePath_no_extract f _ _ y hy
      · exact NewRecorder_no_extract _ _ _ y hy
    split at hx
    · exact key x hx
    · split at hx <;> exact key x hx

theorem openStreams_failed (r : VideoRecorder) (f : MuxerFlow) (env : WriteEnv)
    (h : (r.openStreams f env).1 = false) :
    (r.openStreams f env).2.1.vid_stream_id = -1 ∧
    ∃ pre a post, (r.openStreams f env).2.2 = pre ++ a :: post ∧ a.isFailedWrite = true ∧
      ∀ x ∈ post, x.isTrackCall = false ∧ x.isExtract = false := by
  unfold VideoRecorder.openStreams at h ⊢
  simp only at h ⊢
  by_cases hg : f.video_in = true ∧ f.video_extra ≠ none ∧ r.vid_stream_id = -1
  · rw [if_pos hg] at h ⊢
    cases hh : env.header
    · simp only [Bool.false_eq_true, if_false]
      exact ⟨rfl, _, _, _, List.append_assoc _ _ _, rfl, ProcessEvent_quiet _ f _ _⟩
    · simp [hh] at h
  · rw [if_neg hg] at h
    simp at h

theorem writeFrame_failed (r : VideoRecorder) (f : MuxerFlow) (b : MediaBuffer) (env : WriteEnv)
    (h : (r.writeFrame f b env).1 = false) :
    (r.writeFrame f b env).2.1.vid_stream_id = -1 ∧
    ∃ a post, (r.writeFrame f b env).2.2 = a :: post ∧ a.isFailedWrite = true ∧
      ∀ x ∈ post, x.isTrackCall = false ∧ x.isExtract = false := by
  unfold VideoRecorder.writeFrame at h ⊢
  cases hw : env.write
  · simp only [Bool.false_eq_true, if_false]
    by_cases h1 : b.type = MediaType.Video ∧ r.vid_stream_id ≠ -1
    · rw [if_pos h1]
      exact ⟨rfl, _, _, rfl, rfl, ProcessEvent_quiet _ f _ _⟩
    · by_cases h2 : b.type = MediaType.Audio ∧ r.aud_stream_id ≠ -1
      · rw [if_neg h1, if_pos h2]
        exact ⟨rfl, _, _, rfl, rfl, ProcessEvent_quiet _ f _ _⟩
      · rw [if_neg h1, if_neg h2] at h
        simp at h
  · simp only [hw, if_true] at h
    split_ifs at h

theorem Write_failed (r : VideoRecorder) (f : MuxerFlow) (b : MediaBuffer) (env : WriteEnv)
    (h : (r.Write f b env).1 = false) :
    (r.Write f b env).2.1.vid_stream_id = -1 ∧
    ∃ pre a post, (r.Write f b env).2.2 = pre ++ a :: post ∧ a.isFailedWrite = true ∧
      ∀ x ∈ post, x.isTrackCall = false ∧ x.isExtract = false := by
  unfold VideoRecorder.Write at h ⊢
  simp only at h ⊢
  split_ifs at h ⊢ with ho
  · obtain ⟨hv, a, post, e, ha, hp⟩ := writeFrame_failed _ f b env h
    exact ⟨hv, (r.openStreams f env).2.2, a, post, by rw [e], ha, hp⟩
  · have ho2 : (r.openStreams f env).1 = false := by simpa using ho
    exact openStreams_failed r f env ho2

theorem failed_split (X W D : List Action)
    (hW : ∃ pre a post, W = pre ++ a :: post ∧ a.isFailedWrite = true ∧
      ∀ x ∈ post, x.isTrackCall = false ∧ x.isExtract = false)
    (hD : ∀ x ∈ D, x.isTrackCall = false ∧ x.isExtract = false) :
    ∃ pre a post, X ++ W ++ D = pre ++ a :: post ∧ a.isFailedWrite = true ∧
      ∀ x ∈ post, x.isTrackCall = false ∧ x.isExtract = false := by
  obtain ⟨pre, a, post, e, ha, hp⟩ := hW
  refine ⟨X ++ pre, a, post ++ D, ?_, ha, ?_⟩
  · rw [e]
    simp only [List.append_assoc, List.cons_append]
  · intro x hx
    rcases List.mem_append.mp hx with hx | hx
    · exact hp x hx
    · exact hD x hx

theorem process_audio_failed (f : MuxerFlow) (aud : Option MediaBuffer) (env : WriteEnv)
    (r : VideoRecorder) (b : MediaBuffer) (hr : f.video_recorder = some r)
    (ha : f.audio_in = true) (hb : aud = some b) (hw : (r.Write f b env).1 = false) :
    process_audio f aud env =
      ⟨{ f with video_recorder := none, enable_streaming := false },
        (r.Write f b env).2.2 ++ (r.Write f b env).2.1.destroy f, some Status.returned⟩ := by
  simp [process_audio, ha, hb, hr, hw]

theorem process_audio_last_ts (f : MuxerFlow) (aud : Option MediaBuffer) (env : WriteEnv) :
    (process_audio f aud env).flow.last_ts = f.last_ts := by
  unfold process_audio
  split
  · rfl
  · split
    · rfl
    · split
      · rfl
      · simp only
        split <;> rfl

theorem capture_extra_last_ts (f : MuxerFlow) (b : MediaBuffer) (env : Env) :
    (capture_extra f b env).1.last_ts = f.last_ts := by
  rcases env with ⟨cb, now, nr, ex, al, aw, vw⟩
  cases ex <;> cases al <;> simp only [capture_extra] <;> split_ifs <;> rfl

theorem capture_extra_quiet (f : MuxerFlow) (b : MediaBuffer) (env : Env) :
    ∀ x ∈ (capture_extra f b env).2.1, x.isTrackCall = false ∧ x.isFailedWrite = false := by
  intro x hx
  rcases env with ⟨cb, now, nr, ex, al, aw, vw⟩
  cases ex <;> cases al <;> simp only [capture_extra] at hx <;> split_ifs at hx <;>
    simp only [List.mem_cons, List.mem_singleton, List.not_mem_nil, or_false] at hx <;>
    (try rcases hx with hx | hx) <;> (try subst hx) <;> exact ⟨rfl, rfl⟩

theorem process_video_failed (f : MuxerFlow) (vid : Option MediaBuffer) (env : Env)
    (r : VideoRecorder) (b : MediaBuffer) (hv : f.video_in = true) (hb : vid = some b)
    (hc : (capture_extra f b env).2.2 = false)
    (hr : (capture_extra f b env).1.video_recorder = some r)
    (hw : (r.Write (capture_extra f b env).1 b env.vidW).1 = false) :
    process_video f vid env =
      ⟨{ (capture_extra f b env).1 with video_recorder := none, enable_streaming := false },
        (capture_extra f b env).2.1 ++ (r.Write (capture_extra f b env).1 b env.vidW).2.2 ++
          (r.Write (capture_extra f b env).1 b env.vidW).2.1.destroy (capture_extra f b env).1,
        some Status.returned⟩ := by
  simp [process_video, hv, hb, hc, hr, hw]

theorem enabled_cycle_audio_stop (f : MuxerFlow) (vid aud : Option MediaBuffer) (env : Env)
    (s : Status) (ho : (before_writes f vid env).stop = none)
    (ha : (after_audio f vid aud env).stop = some s) :
    enabled_cycle f vid aud env =
      ⟨(after_audio f vid aud env).flow,
        (rotation_check f vid).2 ++ (before_writes f vid env).log ++
          (after_audio f vid aud env).log, s⟩ := by
  unfold after_audio before_writes at *
  unfold enabled_cycle
  simp only [ho, ha]

theorem enabled_cycle_video (f : MuxerFlow) (vid aud : Option MediaBuffer) (env : Env)
    (ho : (before_writes f vid env).stop = none)
    (ha : (after_audio f vid aud env).stop = none) :
    enabled_cycle f vid aud env =
      ⟨(process_video (after_audio f vid aud env).flow vid env).flow,
        (rotation_check f vid).2 ++ (before_writes f vid env).log ++
          (after_audio f vid aud env).log ++
          (process_video (after_audio f vid aud env).flow vid env).log,
        (process_video (after_audio f vid aud env).flow vid env).stop.getD Status.returned⟩ := by
  unfold after_audio before_writes at *
  unfold enabled_cycle
  simp only [ho, ha]

/-- C7: in an enabled cycle whose recorder exists when the buffers are
processed, a failing audio `Write` ends the cycle with the session destroyed
and streaming disabled, the segment start and the cached extradata as they
were before the writes, no extradata call in the whole cycle, and no call of
the cycle besides those of the rotation check, the recorder creation, that
`Write` and the destructor; a failing video `Write` ends the cycle with the
session destroyed, streaming disabled and the segment start as it was before
the writes.  In both cases no track is created or written after the refused
write. -/
theorem C7_write_failure_contained (f : MuxerFlow) (vid aud : Option MediaBuffer) (env : Env)
    (he : f.enable_streaming = true) (ho : (before_writes f vid env).stop = none) :
    (∀ r b, (before_writes f vid env).flow.video_recorder = some r →
      (before_writes f vid env).flow.audio_in = true → aud = some b →
      (r.Write (before_writes f vid env).flow b env.audW).1 = false →
      (save_buffer f vid aud env).status = Status.returned ∧
      (save_buffer f vid aud env).flow.video_recorder = none ∧
      (save_buffer f vid aud env).flow.enable_streaming = false ∧
      (save_buffer f vid aud env).flow.last_ts = (before_writes f vid env).flow.last_ts ∧
      (save_buffer f vid aud env).flow.video_extra =
        (before_writes f vid env).flow.video_extra ∧
      (∀ x ∈ (save_buffer f vid aud env).log, x.isExtract = false) ∧
      (save_buffer f vid aud env).log =
        (rotation_check f vid).2 ++ (before_writes f vid env).log ++
          ((r.Write (before_writes f vid env).flow b env.audW).2.2 ++
            (r.Write (before_writes f vid env).flow b env.audW).2.1.destroy
              (before_writes f vid env).flow) ∧
      ∃ pre a post, (save_buffer f vid aud env).log = pre ++ a :: post ∧
        a.isFailedWrite = true ∧ ∀ x ∈ post, x.isTrackCall = false ∧ x.isExtract = false) ∧
    (∀ r b, (after_audio f vid aud env).stop = none →
      (after_audio f vid aud env).flow.video_in = true → vid = some b →
      (capture_extra (after_audio f vid aud env).flow b env).2.2 = false →
      (capture_extra (after_audio f vid aud env).flow b env).1.video_recorder = some r →
      (r.Write (capture_extra (after_audio f vid aud env).flow b env).1 b env.vidW).1 = false →
      (save_buffer f vid aud env).status = Status.returned ∧
      (save_buffer f vid aud env).flow.video_recorder = none ∧
      (save_buffer f vid aud env).flow.enable_streaming = false ∧
      (save_buffer f vid aud env).flow.last_ts = (before_writes f vid env).flow.last_ts ∧
      ∃ pre a post, (save_buffer f vid aud env).log = pre ++ a :: post ∧
        a.isFailedWrite = true ∧ ∀ x ∈ post, x.isTrackCall = false ∧ x.isExtract = false) := by
  constructor
  · intro r b hr ha hb hw
    have hp := process_audio_failed (before_writes f vid env).flow aud env.audW r b hr ha hb hw
    have hstop : (after_audio f vid aud env).stop = some Status.returned := by
      unfold after_audio
      rw [hp]
    have e := enabled_cycle_audio_stop f vid aud env _ ho hstop
    have hlog : (after_audio f vid aud env) = _ := hp
    rw [save_buffer_enabled f vid aud env he, e, hlog]
    refine ⟨rfl, rfl, rfl, rfl, rfl, ?_, rfl, ?_⟩
    · intro x hx
      simp only [List.mem_append] at hx
      rcases hx with (hx | hx) | hx | hx
      · exact rotation_check_no_extract f vid x hx
      · exact open_recorder_no_extract _ env x hx
      · exact Write_no_extract _ _ _ _ x hx
      · exact destroy_no_extract _ _ x hx
    · obtain ⟨hv, hs⟩ := Write_failed r _ b env.audW hw
      have := failed_split ((rotation_check f vid).2 ++ (before_writes f vid env).log) _ _ hs
        (destroy_cleared_quiet _ (before_writes f vid env).flow hv)
      simpa only [List.append_assoc] using this
  · intro r b ha hv hb hc hr hw
    have hp := process_video_failed (after_audio f vid aud env).flow vid env r b hv hb hc hr hw
    rw [save_buffer_enabled f vid aud env he, enabled_cycle_video f vid aud env ho ha, hp]
    refine ⟨rfl, rfl, rfl, ?_, ?_⟩
    · show (capture_extra (after_audio f vid aud env).flow b env).1.last_ts = _
      rw [capture_extra_last_ts]
      exact process_audio_last_ts _ _ _
    · obtain ⟨hvs, hs⟩ := Write_failed r _ b env.vidW hw
      have := failed_split ((rotation_check f vid).2 ++ (before_writes f vid env).log ++
          (after_audio f vid aud env).log ++
          (capture_extra (after_audio f vid aud env).flow b env).2.1) _ _ hs
        (destroy_cleared_quiet _ (capture_extra (after_audio f vid aud env).flow b env).1 hvs)
      simpa only [List.append_assoc] using this

/-- Witness of C7: the muxer refuses the audio frame of a cycle on a session
with both tracks open, and refuses the video frame of a cycle without audio
buffer. -/
theorem C7_write_failure_contained_witness :
    ((save_buffer openFlow (some (keyFrame 7)) (some (audioFrame 5)) badWriteEnv).status =
        Status.returned ∧
      (save_buffer openFlow (some (keyFrame 7)) (some (audioFrame 5)) badWriteEnv).flow.video_recorder =
        none ∧
      (save_buffer openFlow (some (keyFrame 7)) (some (audioFrame 5)) badWriteEnv).flow.enable_streaming =
        false) ∧
    ((save_buffer openFlow (some (keyFrame 7)) none badWriteEnv).status = Status.returned ∧
      (save_buffer openFlow (some (keyFrame 7)) none badWriteEnv).flow.video_recorder = none ∧
      (save_buffer openFlow (some (keyFrame 7)) none badWriteEnv).flow.enable_streaming = false) :=
  have h1 := (C7_write_failure_contained openFlow (some (keyFrame 7)) (some (audioFrame 5))
    badWriteEnv rfl (by decide)).1 ⟨0, 1, "cam_3.mp4"⟩ (audioFrame 5) (by decide) (by decide) rfl
    (by decide)
  have h2 := (C7_write_failure_contained openFlow (some (keyFrame 7)) none
    badWriteEnv rfl (by decide)).2 ⟨0, 1, "cam_3.mp4"⟩ (keyFrame 7) (by decide) (by decide) rfl
    (by decide) (by decide) (by decide)
  ⟨⟨h1.1, h1.2.1, h1.2.2.1⟩, ⟨h2.1, h2.2.1, h2.2.2.1⟩⟩

/-! ### Track creation is gated by the extradata capture -/

theorem gated_append (c : Bool) (l1 l2 : List Action) :
    gated c (l1 ++ l2) = (gated c l1 && gated (c || l1.any Action.isCapture) l2) := by
  induction l1 generalizing c with
  | nil => simp [gated]
  | cons a l ih =>
    rw [List.cons_append, gated, gated, ih, List.any_cons, Bool.and_assoc, Bool.or_assoc]

theorem Safe.trans {g g1 g2 : MuxerFlow} {l1 l2 : List Action} (h1 : Safe g l1 g1)
    (h2 : Safe g1 l2 g2) : Safe g (l1 ++ l2) g2 := by
  intro c hc
  obtain ⟨a1, b1⟩ := h1 c hc
  obtain ⟨a2, b2⟩ := h2 (c || l1.any Action.isCapture) b1
  refine ⟨?_, ?_⟩
  · rw [gated_append, a1, a2]
    rfl
  · intro hg
    rw [List.any_append, ← Bool.or_assoc]
    exact b2 hg

theorem GenFilePath_pattern_video_extra (f : MuxerFlow) (now : Tm) :
    (GenFilePath_pattern f now).2.video_extra = f.video_extra := by
  unfold GenFilePath_pattern
  simp only
  split_ifs <;> rfl

theorem GenFilePath_video_extra (f : MuxerFlow) (cb : Int × String) (now : Tm) :
    (GenFilePath f cb now).2.1.video_extra = f.video_extra := by
  unfold GenFilePath
  split_ifs
  · rfl
  · exact GenFilePath_pattern_video_extra f now
  · exact GenFilePath_pattern_video_extra f now

theorem open_recorder_video_extra (f : MuxerFlow) (env : Env) :
    (open_recorder f env).flow.video_extra = f.video_extra := by
  unfold open_recorder
  split
  · rfl
  · simp only
    split
    · exact GenFilePath_video_extra f _ _
    · split <;> exact GenFilePath_video_extra f _ _

theorem openStreams_nil_of_no_extra (r : VideoRecorder) (f : MuxerFlow) (env : WriteEnv)
    (h : f.video_extra = none) : r.openStreams f env = (true, r, []) := by
  unfold VideoRecorder.openStreams
  rw [if_neg]
  rintro ⟨_, h2, _⟩
  exact h2 h

theorem openStreams_ok (r : VideoRecorder) (f : MuxerFlow) (env : WriteEnv)
    (h1 : env.header = true) : (r.openStreams f env).1 = true := by
  unfold VideoRecorder.openStreams
  by_cases hg : f.video_in = true ∧ f.video_extra ≠ none ∧ r.vid_stream_id = -1
  · rw [if_pos hg]
    simp only [h1, if_true]
  · rw [if_neg hg]

theorem writeFrame_ok (r : VideoRecorder) (f : MuxerFlow) (b : MediaBuffer) (env : WriteEnv)
    (h2 : env.write = true) : (r.writeFrame f b env).1 = true := by
  unfold VideoRecorder.writeFrame
  simp only [h2, if_true]
  split_ifs <;> rfl

theorem Write_ok (r : VideoRecorder) (f : MuxerFlow) (b : MediaBuffer) (env : WriteEnv)
    (h1 : env.header = true) (h2 : env.write = true) : (r.Write f b env).1 = true := by
  unfold VideoRecorder.Write
  simp only [openStreams_ok r f env h1, if_true]
  exact writeFrame_ok _ f b env h2

theorem GenFilePath_pattern_fields (f : MuxerFlow) (now : Tm) :
    (GenFilePath_pattern f now).2 =
      { f with file_index := (GenFilePath_pattern f now).2.file_index } := by
  unfold GenFilePath_pattern
  simp only
  split_ifs <;> rfl

theorem GenFilePath_fields (f : MuxerFlow) (cb : Int × String) (now : Tm) :
    (GenFilePath f cb now).2.1 = { f with file_index := (GenFilePath f cb now).2.1.file_index } := by
  unfold GenFilePath
  split_ifs
  · rfl
  · exact GenFilePath_pattern_fields f now
  · exact GenFilePath_pattern_fields f now

theorem open_recorder_created (f : MuxerFlow) (env : Env)
    (h : env.newRecorder = OpenResult.created) (hr : f.video_recorder = none) :
    open_recorder f env =
      ⟨{ (GenFilePath f env.cb env.now).2.1 with
          video_recorder := some (VideoRecorder.create (GenFilePath f env.cb env.now).2.1
            (GenFilePath f env.cb env.now).1).1,
          last_ts := 0 },
        (GenFilePath f env.cb env.now).2.2 ++
          (VideoRecorder.create (GenFilePath f env.cb env.now).2.1
            (GenFilePath f env.cb env.now).1).2,
        none⟩ := by
  unfold open_recorder
  rw [hr]
  simp only [h, NewRecorder, Bool.false_eq_true, if_false]

theorem open_recorder_ok (f : MuxerFlow) (env : Env) (h : env.newRecorder = OpenResult.created) :
    (open_recorder f env).stop = none ∧
    (open_recorder f env).flow.file_duration = f.file_duration ∧
    (open_recorder f env).flow.enable_streaming = f.enable_streaming ∧
    (open_recorder f env).flow.video_in = f.video_in ∧
    (open_recorder f env).flow.video_recorder ≠ none ∧
    (open_recorder f env).flow.last_ts = if f.video_recorder = none then 0 else f.last_ts := by
  cases hr : f.video_recorder with
  | some r =>
    have e : open_recorder f env = ⟨f, [], none⟩ := by
      unfold open_recorder
      rw [hr]
    rw [e]
    refine ⟨rfl, rfl, rfl, rfl, ?_, ?_⟩
    · rw [hr]
      exact Option.some_ne_none r
    · rw [if_neg (Option.some_ne_none r)]
  | none =>
    have e := GenFilePath_fields f env.cb env.now
    rw [open_recorder_created f env h hr]
    refine ⟨rfl, ?_, ?_, ?_, Option.some_ne_none _, ?_⟩
    · show (GenFilePath f env.cb env.now).2.1.file_duration = _
      rw [e]
    · show (GenFilePath f env.cb env.now).2.1.enable_streaming = _
      rw [e]
    · show (GenFilePath f env.cb env.now).2.1.video_in = _
      rw [e]
    · rw [if_pos rfl]

theorem process_audio_written (f : MuxerFlow) (env : WriteEnv) (b : MediaBuffer)
    (r : VideoRecorder) (ha : f.audio_in = true) (hr : f.video_recorder = some r)
    (hw : (r.Write f b env).1 = true) :
    process_audio f (some b) env =
      ⟨{ f with video_recorder := some (r.Write f b env).2.1 }, (r.Write f b env).2.2, none⟩ := by
  unfold process_audio
  simp only [ha, hr, hw, Bool.not_true, Bool.false_eq_true, if_false, if_true]

theorem process_audio_skipped (f : MuxerFlow) (aud : Option MediaBuffer) (env : WriteEnv)
    (h : f.audio_in = false ∨ aud = none) : process_audio f aud env = ⟨f, [], none⟩ := by
  unfold process_audio
  rcases h with h | h
  · simp only [h, Bool.not_false, if_true]
  · subst h
    split <;> rfl

theorem process_audio_ok (f : MuxerFlow) (aud : Option MediaBuffer) (env : WriteEnv)
    (h1 : env.header = true) (h2 : env.write = true) (hr : f.video_recorder ≠ none) :
    (process_audio f aud env).stop = none ∧
    (process_audio f aud env).flow.file_duration = f.file_duration ∧
    (process_audio f aud env).flow.enable_streaming = f.enable_streaming ∧
    (process_audio f aud env).flow.video_in = f.video_in ∧
    (process_audio f aud env).flow.video_recorder ≠ none ∧
    (process_audio f aud env).flow.last_ts = f.last_ts := by
  by_cases hs : f.audio_in = false ∨ aud = none
  · rw [process_audio_skipped f aud env hs]
    exact ⟨rfl, rfl, rfl, rfl, hr, rfl⟩
  · have ha : f.audio_in = true := by
      cases h : f.audio_in
      · exact absurd (Or.inl h) hs
      · rfl
    cases hb : aud with
    | none => exact absurd (Or.inr hb) hs
    | some b =>
      cases hrec : f.video_recorder with
      | none => exact absurd hrec hr
      | some r =>
        rw [process_audio_written f env b r ha hrec (Write_ok r f b env h1 h2)]
        exact ⟨rfl, rfl, rfl, rfl, Option.some_ne_none _, rfl⟩

theorem capture_extra_ok (f : MuxerFlow) (b : MediaBuffer) (env : Env) (h : env.alloc = true) :
    (capture_extra f b env).2.2 = false ∧
    (capture_extra f b env).1 = { f with video_extra := (capture_extra f b env).1.video_extra } := by
  rcases env with ⟨cb, now, nr, ex, al, aw, vw⟩
  simp only at h
  subst h
  cases ex <;> simp only [capture_extra] <;> split_ifs <;> exact ⟨rfl, rfl⟩

theorem process_video_written (f : MuxerFlow) (b : MediaBuffer) (env : Env) (r : VideoRecorder)
    (hv : f.video_in = true) (hc : (capture_extra f b env).2.2 = false)
    (hr : (capture_extra f b env).1.video_recorder = some r)
    (hw : (r.Write (capture_extra f b env).1 b env.vidW).1 = true) :
    process_video f (some b) env =
      ⟨if (capture_extra f b env).1.last_ts = 0 ∨
            b.ustimestamp < (capture_extra f b env).1.last_ts then
          { (capture_extra f b env).1 with
            video_recorder := some (r.Write (capture_extra f b env).1 b env.vidW).2.1,
            last_ts := b.ustimestamp }
        else
          { (capture_extra f b env).1 with
            video_recorder := some (r.Write (capture_extra f b env).1 b env.vidW).2.1 },
        (capture_extra f b env).2.1 ++ (r.Write (capture_extra f b env).1 b env.vidW).2.2,
        none⟩ := by
  unfold process_video
  simp only [hv, hc, hr, hw, Bool.not_true, Bool.false_eq_true, if_false, if_true]

theorem process_video_ok (f : MuxerFlow) (b : MediaBuffer) (env : Env)
    (hv : f.video_in = true) (ha : env.alloc = true) (h1 : env.vidW.header = true)
    (h2 : env.vidW.write = true) (hr : f.video_recorder ≠ none) :
    (process_video f (some b) env).stop = none ∧
    (process_video f (some b) env).flow.file_duration = f.file_duration ∧
    (process_video f (some b) env).flow.enable_streaming = f.enable_streaming ∧
    (process_video f (some b) env).flow.video_in = f.video_in ∧
    (process_video f (some b) env).flow.video_recorder ≠ none ∧
    (process_video f (some b) env).flow.last_ts =
      if f.last_ts = 0 ∨ b.ustimestamp < f.last_ts then b.ustimestamp else f.last_ts := by
  obtain ⟨c1, c2⟩ := capture_extra_ok f b env ha
  have hrc : (capture_extra f b env).1.video_recorder = f.video_recorder := by rw [c2]
  have hlc : (capture_extra f b env).1.last_ts = f.last_ts := by rw [c2]
  have hdc : (capture_extra f b env).1.file_duration = f.file_duration := by rw [c2]
  have hec : (capture_extra f b env).1.enable_streaming = f.enable_streaming := by rw [c2]
  have hvc : (capture_extra f b env).1.video_in = f.video_in := by rw [c2]
  cases hrec : f.video_recorder with
  | none => exact absurd hrec hr
  | some r =>
    have hrc2 : (capture_extra f b env).1.video_recorder = some r := by rw [hrc, hrec]
    rw [process_video_written f b env r hv c1 hrc2 (Write_ok _ _ _ _ h1 h2), hlc]
    by_cases hcond : f.last_ts = 0 ∨ b.ustimestamp < f.last_ts
    · rw [if_pos hcond, if_pos hcond]
      exact ⟨rfl, hdc, hec, hvc, Option.some_ne_none _, rfl⟩
    · rw [if_neg hcond, if_neg hcond]
      exact ⟨rfl, hdc, hec, hvc, Option.some_ne_none _, hlc⟩

theorem rotation_check_fields (f : MuxerFlow) (vid : Option MediaBuffer) :
    (rotation_check f vid).1.file_duration = f.file_duration ∧
    (rotation_check f vid).1.enable_streaming = f.enable_streaming ∧
    (rotation_check f vid).1.video_in = f.video_in ∧
    (rotation_check f vid).1.last_ts = f.last_ts := by
  by_cases h : rotation_due f vid
  · obtain ⟨r, _, e⟩ := rotation_check_of_due f vid h
    rw [e]
    exact ⟨rfl, rfl, rfl, rfl⟩
  · rw [rotation_check_of_not_due f vid h]
    exact ⟨rfl, rfl, rfl, rfl⟩

theorem rotates_iff (f : MuxerFlow) (vid : Option MediaBuffer) (he : f.enable_streaming = true) :
    rotates f vid = true ↔ rotation_due f vid := by
  unfold rotates
  rw [he, Bool.true_and]
  by_cases h : rotation_due f vid
  · obtain ⟨r, _, e⟩ := rotation_check_of_due f vid h
    rw [e]
    simp [h, VideoRecorder.destroy]
  · rw [rotation_check_of_not_due f vid h]
    simp [h]

theorem key_cycle_ok (f : MuxerFlow) (t : Int) (aud : Option MediaBuffer) (env : Env)
    (he : f.enable_streaming = true) (hv : f.video_in = true) (hok : env.allOk) :
    (save_buffer f (some (keyFrame t)) aud env).status = Status.returned ∧
    (save_buffer f (some (keyFrame t)) aud env).flow.file_duration = f.file_duration ∧
    (save_buffer f (some (keyFrame t)) aud env).flow.enable_streaming = true ∧
    (save_buffer f (some (keyFrame t)) aud env).flow.video_in = true ∧
    (save_buffer f (some (keyFrame t)) aud env).flow.video_recorder ≠ none ∧
    (save_buffer f (some (keyFrame t)) aud env).flow.last_ts =
      if (if (rotation_check f (some (keyFrame t))).1.video_recorder = none then 0
          else f.last_ts) = 0 ∨
          t < (if (rotation_check f (some (keyFrame t))).1.video_recorder = none then 0
            else f.last_ts) then t
      else (if (rotation_check f (some (keyFrame t))).1.video_recorder = none then 0
        else f.last_ts) := by
  obtain ⟨k1, k2, k3, k4, k5, k6⟩ := hok
  obtain ⟨r1, r2, r3, r4⟩ := rotation_check_fields f (some (keyFrame t))
  obtain ⟨o1, o2, o3, o4, o5, o6⟩ := open_recorder_ok (rotation_check f (some (keyFrame t))).1 env k1
  obtain ⟨a1, a2, a3, a4, a5, a6⟩ :=
    process_audio_ok (open_recorder (rotation_check f (some (keyFrame t))).1 env).flow aud
      env.audW k3 k4 o5
  have hv2 : (process_audio (open_recorder (rotation_check f (some (keyFrame t))).1 env).flow aud
      env.audW).flow.video_in = true := by rw [a4, o4, r3, hv]
  obtain ⟨v1, v2, v3, v4, v5, v6⟩ :=
    process_video_ok _ (keyFrame t) env hv2 k2 k5 k6 a5
  rw [save_buffer_enabled f _ aud env he, enabled_cycle_video f _ aud env o1 a1]
  refine ⟨?_, ?_, ?_, ?_, v5, ?_⟩
  · show (process_video _ _ env).stop.getD Status.returned = _
    unfold after_audio before_writes
    rw [v1]
    rfl
  · exact v2.trans (a2.trans (o2.trans r1))
  · exact v3.trans (a3.trans (o3.trans (r2.trans he)))
  · exact v4.trans hv2
  · show (process_video _ _ env).flow.last_ts = _
    unfold after_audio before_writes
    rw [v6, a6, o6, r4]
    rfl

theorem key_cycle_step (D : Int) (hD : 0 < D) (f : MuxerFlow) (start : Option Int) (t : Int)
    (aud : Option MediaBuffer) (env : Env) (hf : f.file_duration = D)
    (he : f.enable_streaming = true) (hv : f.video_in = true) (hs : segment_start f start)
    (ht : t ≠ 0) (hlt : ∀ s, start = some s → s < t) (hok : env.allOk)
    (hDr : int64 (D * 1000000)) (hrg : ∀ s, start = some s → int64 (t - s)) :
    (save_buffer f (some (keyFrame t)) aud env).status = Status.returned ∧
    (save_buffer f (some (keyFrame t)) aud env).flow.file_duration = D ∧
    (save_buffer f (some (keyFrame t)) aud env).flow.enable_streaming = true ∧
    (save_buffer f (some (keyFrame t)) aud env).flow.video_in = true ∧
    ((start = none ∨ ∃ s, start = some s ∧ t - s ≥ D * 1000000) →
      rotates f (some (keyFrame t)) = decide (start ≠ none) ∧
      segment_start (save_buffer f (some (keyFrame t)) aud env).flow (some t)) ∧
    (∀ s, start = some s → ¬ t - s ≥ D * 1000000 →
      rotates f (some (keyFrame t)) = false ∧
      segment_start (save_buffer f (some (keyFrame t)) aud env).flow (some s)) := by
  obtain ⟨c1, c2, c3, c4, c5, c6⟩ := key_cycle_ok f t aud env he hv hok
  refine ⟨c1, c2.trans hf, c3, c4, ?_, ?_⟩
  · intro hcase
    have hstart : (if (rotation_check f (some (keyFrame t))).1.video_recorder = none then 0
        else f.last_ts) = 0 := by
      rcases hcase with h0 | ⟨s, hs1, hs2⟩
      · subst h0
        have : f.last_ts = 0 := hs
        split_ifs <;> simp [this]
      · subst hs1
        obtain ⟨h1, h2, h3⟩ := hs
        have hdue : rotation_due f (some (keyFrame t)) :=
          ⟨by omega, h3, hv, by rw [h1]; exact h2, keyFrame t, rfl, rfl, by
            rw [hf, h1, wrap64_of_int64 _ hDr]
            exact (wrap64_of_int64 _ (hrg s rfl)).symm ▸ hs2⟩
        obtain ⟨r, _, e⟩ := rotation_check_of_due f _ hdue
        rw [e]
        simp
    constructor
    · rcases hcase with h0 | ⟨s, hs1, hs2⟩
      · subst h0
        have hl : f.last_ts = 0 := hs
        have hnd : ¬ rotation_due f (some (keyFrame t)) := fun hd => hd.2.2.2.1 hl
        have : rotates f (some (keyFrame t)) = false := by
          cases hr : rotates f (some (keyFrame t))
          · rfl
          · exact absurd ((rotates_iff f _ he).mp hr) hnd
        rw [this]
        simp
      · subst hs1
        obtain ⟨h1, h2, h3⟩ := hs
        have hdue : rotation_due f (some (keyFrame t)) :=
          ⟨by omega, h3, hv, by rw [h1]; exact h2, keyFrame t, rfl, rfl, by
            rw [hf, h1, wrap64_of_int64 _ hDr]
            exact (wrap64_of_int64 _ (hrg s rfl)).symm ▸ hs2⟩
        rw [(rotates_iff f _ he).mpr hdue]
        simp
    · refine ⟨?_, ht, c5⟩
      rw [c6, hstart]
      simp
  · intro s hs1 hs2
    subst hs1
    obtain ⟨h1, h2, h3⟩ := hs
    have hnd : ¬ rotation_due f (some (keyFrame t)) := by
      rintro ⟨_, _, _, _, b, hb, _, hge⟩
      cases hb
      apply hs2
      rw [hf, h1, wrap64_of_int64 _ hDr] at hge
      have e : wrap64 ((keyFrame t).ustimestamp - s) = t - s := wrap64_of_int64 _ (hrg s rfl)
      rw [e] at hge
      exact hge
    have hrot : rotates f (some (keyFrame t)) = false := by
      cases hr : rotates f (some (keyFrame t))
      · rfl
      · exact absurd ((rotates_iff f _ he).mp hr) hnd
    refine ⟨hrot, ?_, h2, c5⟩
    rw [c6, rotation_check_of_not_due f _ hnd]
    have hlt2 := hlt s rfl
    simp only [h3, if_false, h1]
    rw [if_neg]
    rintro (h | h)
    · exact h2 h
    · omega

theorem rotations_cons_returned (f : MuxerFlow) (c : Int × Option MediaBuffer × Env)
    (cs : List (Int × Option MediaBuffer × Env))
    (h : (save_buffer f (some (keyFrame c.1)) c.2.1 c.2.2).status = Status.returned) :
    rotations f (c :: cs) =
      rotates f (some (keyFrame c.1)) ::
        rotations (save_buffer f (some (keyFrame c.1)) c.2.1 c.2.2).flow cs := by
  rw [rotations]
  split
  · rfl
  · rename_i hne
    exact absurd h (hne)

theorem rotations_eq_schedule (D : Int) (hD : 0 < D) (hDr : int64 (D * 1000000))
    (cs : List (Int × Option MediaBuffer × Env)) :
    ∀ (f : MuxerFlow) (start : Option Int), f.file_duration = D →
      f.enable_streaming = true → f.video_in = true → segment_start f start →
      (cs.map (·.1)).Pairwise (· < ·) → (∀ s, start = some s → ∀ c ∈ cs, s < c.1) →
      (∀ c ∈ cs, c.1 ≠ 0) → (∀ c ∈ cs, c.2.2.allOk) →
      (∀ s, start = some s → ∀ c ∈ cs, int64 (c.1 - s)) →
      (∀ c ∈ cs, ∀ c2 ∈ cs, int64 (c2.1 - c.1)) →
      rotations f cs = schedule (D * 1000000) start (cs.map (·.1)) := by
  induction cs with
  | nil =>
    intro f start _ _ _ _ _ _ _ _ _ _
    cases start <;> rfl
  | cons c cs ih =>
    intro f start hf he hv hs hsort hlt hnz hok hrs hrp
    have hc : c ∈ c :: cs := List.mem_cons_self c cs
    have hsub : ∀ x ∈ cs, x ∈ c :: cs := fun x hx => List.mem_cons_of_mem c hx
    have hrp2 : ∀ x ∈ cs, ∀ y ∈ cs, int64 (y.1 - x.1) := fun x hx y hy =>
      hrp x (hsub x hx) y (hsub y hy)
    have hrc : ∀ x ∈ cs, int64 (x.1 - c.1) := fun x hx => hrp c hc x (hsub x hx)
    rw [List.map_cons, List.pairwise_cons] at hsort
    obtain ⟨hhead, htail⟩ := hsort
    have hnext : ∀ x ∈ cs, c.1 < x.1 := fun x hx =>
      hhead x.1 (List.mem_map_of_mem (·.1) hx)
    obtain ⟨s1, s2, s3, s4, s5, s6⟩ := key_cycle_step D hD f start c.1 c.2.1 c.2.2 hf he hv hs
      (hnz c hc) (fun s e => hlt s e c hc) (hok c hc) hDr (fun s e => hrs s e c hc)
    rw [rotations_cons_returned f c cs s1, List.map_cons]
    cases start with
    | none =>
      obtain ⟨hr, hseg⟩ := s5 (Or.inl rfl)
      rw [schedule, hr]
      rw [ih _ (some c.1) s2 s3 s4 hseg htail
        (fun s e x hx => by cases e; exact hnext x hx)
        (fun x hx => hnz x (hsub x hx)) (fun x hx => hok x (hsub x hx))
        (fun s e x hx => by cases e; exact hrc x hx) hrp2]
      simp
    | some s =>
      rw [schedule]
      by_cases hge : c.1 - s ≥ D * 1000000
      · obtain ⟨hr, hseg⟩ := s5 (Or.inr ⟨s, rfl, hge⟩)
        rw [if_pos hge, hr]
        rw [ih _ (some c.1) s2 s3 s4 hseg htail
          (fun s e x hx => by cases e; exact hnext x hx)
          (fun x hx => hnz x (hsub x hx)) (fun x hx => hok x (hsub x hx))
          (fun s e x hx => by cases e; exact hrc x hx) hrp2]
        simp
      · obtain ⟨hr, hseg⟩ := s6 s rfl hge
        rw [if_neg hge, hr]
        rw [ih _ (some s) s2 s3 s4 hseg htail
          (fun s0 e x hx => by cases e; exact hlt s rfl x (hsub x hx))
          (fun x hx => hnz x (hsub x hx)) (fun x hx => hok x (hsub x hx))
          (fun s0 e x hx => by cases e; exact hrs s rfl x (hsub x hx)) hrp2]

/-- C2 as stated fails: with a duration of 1 the claim's threshold of 1
microsecond would rotate at a key frame 2 microseconds after the first one,
but the code compares with 1 000 000 microseconds and does not rotate; with a
first key frame stamped 0 the code takes the second key frame as the segment
start, so it does not rotate 1.2 s after the first key frame even though the
duration is 1 s; and with a first key frame stamped with the least 64-bit
value the difference to the next key frame is not representable, the 64-bit
result is negative and the code does not rotate although far more than 1 s
has elapsed. -/
theorem C2_counterexample :
    (0 < oneSecFlow.file_duration ∧
      rotations oneSecFlow [(1, none, okEnv), (3, none, okEnv)] = [false, false] ∧
      schedule oneSecFlow.file_duration none [1, 3] = [false, true] ∧
      rotations oneSecFlow [(1, none, okEnv), (3, none, okEnv)] ≠
        schedule oneSecFlow.file_duration none [1, 3]) ∧
    (rotations oneSecFlow [(0, none, okEnv), (500000, none, okEnv), (1200000, none, okEnv)] =
        [false, false, false] ∧
      schedule (oneSecFlow.file_duration * 1000000) none [0, 500000, 1200000] =
        [false, false, true]) ∧
    (rotations oneSecFlow [(-9223372036854775808, none, okEnv), (1000, none, okEnv)] =
        [false, false] ∧
      schedule (oneSecFlow.file_duration * 1000000) none [-9223372036854775808, 1000] =
        [false, true]) := by
  refine ⟨⟨by decide, by decide, by decide, by decide⟩, ⟨by decide, by decide⟩,
    ⟨by decide, by decide⟩⟩

/-- C2, amended: for a duration `D > 0` (seconds) whose threshold
`D * 1000000` is representable in 64 bits, and a run of cycles that carry
video key frames with increasing non-zero timestamps whose differences are
representable in 64 bits, entered with streaming enabled, video configured
and no segment start recorded, every call succeeding, a cycle rotates exactly
when its key frame is at least `D * 1000000` microseconds after the first key
frame of the current segment, the rotating key frame starts the next segment,
and the rotating cycles are the same for every choice of accompanying audio
buffers and call answers. -/
theorem C2_rotation_schedule (D : Int) (f : MuxerFlow)
    (cs : List (Int × Option MediaBuffer × Env)) (hD : 0 < D) (hf : f.file_duration = D)
    (he : f.enable_streaming = true) (hv : f.video_in = true) (hl : f.last_ts = 0)
    (hsort : (cs.map (·.1)).Pairwise (· < ·)) (hnz : ∀ c ∈ cs, c.1 ≠ 0)
    (hok : ∀ c ∈ cs, c.2.2.allOk) (hDr : int64 (D * 1000000))
    (hrg : ∀ c ∈ cs, ∀ c2 ∈ cs, int64 (c2.1 - c.1)) :
    rotations f cs = schedule (D * 1000000) none (cs.map (·.1)) ∧
    ∀ cs2 : List (Int × Option MediaBuffer × Env), cs2.map (·.1) = cs.map (·.1) →
      (∀ c ∈ cs2, c.2.2.allOk) → rotations f cs2 = rotations f cs := by
  have main := rotations_eq_schedule D hD hDr cs f none hf he hv hl hsort
    (fun s e => by cases e) hnz hok (fun s e => by cases e) hrg
  refine ⟨main, ?_⟩
  intro cs2 hmap hok2
  have hmem : ∀ c ∈ cs2, ∃ x ∈ cs, x.1 = c.1 := by
    intro c hc
    have hm : c.1 ∈ cs.map (·.1) := by
      rw [← hmap]
      exact List.mem_map_of_mem (·.1) hc
    exact List.mem_map.mp hm
  have hnz2 : ∀ c ∈ cs2, c.1 ≠ 0 := by
    intro c hc h0
    obtain ⟨x, hx, hxe⟩ := hmem c hc
    exact hnz x hx (hxe.trans h0)
  have hrg2 : ∀ c ∈ cs2, ∀ c2 ∈ cs2, int64 (c2.1 - c.1) := by
    intro c hc c2 hc2
    obtain ⟨x, hx, hxe⟩ := hmem c hc
    obtain ⟨y, hy, hye⟩ := hmem c2 hc2
    rw [← hxe, ← hye]
    exact hrg x hx y hy
  rw [main, ← hmap]
  exact rotations_eq_schedule D hD hDr cs2 f none hf he hv hl (hmap ▸ hsort)
    (fun s e => by cases e) hnz2 hok2 (fun s e => by cases e) hrg2

/-- Witness of C2: three key frames at 1 ms, 0.5 s and 1.2 s with a duration
of 1 s; the third one rotates. -/
theorem C2_rotation_schedule_witness :
    rotations oneSecFlow threeCycles = schedule (1 * 1000000) none (threeCycles.map (·.1)) ∧
      schedule (1 * 1000000) none (threeCycles.map (·.1)) = [false, false, true] :=
  ⟨(C2_rotation_schedule 1 oneSecFlow threeCycles (by decide) rfl rfl rfl rfl (by decide)
      (by decide) (by decide) (by decide) (by decide)).1, by decide⟩

/-! ## Theorems: header writes of a session -/

/-- C11, evaluation of the code: when the backend refuses the video stream,
`vid_stream_id` stays `-1`, so the next `Write` of the same session finds the
guard of the stream creation open again: it creates the streams again and
writes the header (for stream `-1`) a second time, after a frame was written.
The same happens in two successive cycles of `save_buffer`. -/
theorem C11_header_written_again :
    session_log newRec [(extraFlow, audioFrame 1, noVideoW), (extraFlow, audioFrame 2, noVideoW)] =
      [Action.newMuxerStream MediaType.Video none,
        Action.event ⟨MuxerEventType.MUX_EVENT_ERR_CREATE_FILE_FAIL, "cam_3.mp4", -1⟩,
        Action.newMuxerStream MediaType.Audio (some 1),
        Action.writeHeader (-1) true,
        Action.write (audioFrame 1) 1 true,
        Action.newMuxerStream MediaType.Video none,
        Action.event ⟨MuxerEventType.MUX_EVENT_ERR_CREATE_FILE_FAIL, "cam_3.mp4", -1⟩,
        Action.newMuxerStream MediaType.Audio (some 1),
        Action.writeHeader (-1) true,
        Action.write (audioFrame 2) 1 true] ∧
    ((session_log newRec
        [(extraFlow, audioFrame 1, noVideoW), (extraFlow, audioFrame 2, noVideoW)]).filter
      Action.isHeader).length = 2 ∧
    header_once false (session_log newRec
      [(extraFlow, audioFrame 1, noVideoW), (extraFlow, audioFrame 2, noVideoW)]) = false ∧
    (((run freshFlow [Op.ingest (some (keyFrame 5)) (some (audioFrame 5)) noVideoEnv,
        Op.ingest (some (deltaFrame 6)) (some (audioFrame 6)) noVideoEnv]).log.filter
      Action.isHeader).length = 3 ∧
      (run freshFlow [Op.ingest (some (keyFrame 5)) (some (audioFrame 5)) noVideoEnv,
        Op.ingest (some (deltaFrame 6)) (some (audioFrame 6)) noVideoEnv]).flow.video_recorder ≠
        none ∧
      ((run freshFlow [Op.ingest (some (keyFrame 5)) (some (audioFrame 5)) noVideoEnv,
        Op.ingest (some (deltaFrame 6)) (some (audioFrame 6)) noVideoEnv]).log.filter
      (fun a => decide (a = Action.closeMuxer))).length = 0) := by
  refine ⟨by decide, by decide, by decide, by decide, by decide, by decide⟩

/-! ## Theorems: extradata across sessions -/

/-- C13, evaluation of the code: only the rotation branch clears
`video_extra`.  After a session is closed by a disabled cycle, or by a failed
write, the extradata of that session is still cached, and the first cycle of
the next session creates the video track from it for a frame that is not a
key frame, without any extradata capture in that session. -/
theorem C13_stale_extradata_in_new_session :
    ((run freshFlow stopStartOps).flow.video_recorder = none ∧
      (run freshFlow stopStartOps).flow.video_extra = some [1] ∧
      (save_buffer (run freshFlow stopStartOps).flow (some (deltaFrame 9)) none okEnv).log =
        [Action.createMuxer "cam_4.mp4" false,
          Action.event ⟨MuxerEventType.MUX_EVENT_FILE_BEGIN, "cam_4.mp4", -1⟩,
          Action.newMuxerStream MediaType.Video (some 0),
          Action.newMuxerStream MediaType.Audio (some 1),
          Action.writeHeader 0 true,
          Action.write (deltaFrame 9) 0 true]) ∧
    ((run freshFlow failStartOps).flow.video_recorder = none ∧
      (run freshFlow failStartOps).flow.video_extra = some [1] ∧
      (save_buffer (run freshFlow failStartOps).flow (some (deltaFrame 9)) none okEnv).log =
        [Action.createMuxer "cam_4.mp4" false,
          Action.event ⟨MuxerEventType.MUX_EVENT_FILE_BEGIN, "cam_4.mp4", -1⟩,
          Action.newMuxerStream MediaType.Video (some 0),
          Action.newMuxerStream MediaType.Audio (some 1),
          Action.writeHeader 0 true,
          Action.write (deltaFrame 9) 0 true]) ∧
    (rotation_check rotFlow (some (keyFrame 61000000))).1.video_extra = none := by
  refine ⟨⟨by decide, by decide, by decide⟩, ⟨by decide, by decide, by decide⟩, by decide⟩

/-! ## Theorems: which buffers a cycle writes -/

theorem ProcessEvent_no_write (r : VideoRecorder) (f : MuxerFlow) (t : MuxerEventType) (v : Int) :
    ∀ x ∈ r.ProcessEvent f t v, x.isBufferWrite = false := by
  unfold VideoRecorder.ProcessEvent
  split <;> simp [Action.isBufferWrite]

theorem destroy_no_write (r : VideoRecorder) (f : MuxerFlow) :
    ∀ x ∈ r.destroy f, x.isBufferWrite = false := by
  intro x hx
  simp only [VideoRecorder.destroy, List.mem_append, List.mem_singleton] at hx
  rcases hx with (hx | hx) | hx
  · split at hx
    · simp only [List.mem_singleton] at hx
      subst hx
      rfl
    · simp at hx
  · exact ProcessEvent_no_write r f _ _ x hx
  · subst hx
    rfl

theorem rotation_check_no_write (f : MuxerFlow) (vid : Option MediaBuffer) :
    ∀ x ∈ (rotation_check f vid).2, x.isBufferWrite = false := by
  by_cases h : rotation_due f vid
  · obtain ⟨r, _, e⟩ := rotation_check_of_due f vid h
    rw [e]
    exact destroy_no_write r f
  · rw [rotation_check_of_not_due f vid h]
    simp

theorem mem_ProcessEvent (r : VideoRecorder) (f : MuxerFlow) (t : MuxerEventType) (v : Int)
    (x : Action) (hx : x ∈ r.ProcessEvent f t v) : ∃ e, x = Action.event e ∧ e.type = t := by
  unfold VideoRecorder.ProcessEvent at hx
  split at hx
  · simp only [List.mem_singleton] at hx
    exact ⟨_, hx, rfl⟩
  · simp at hx

theorem mem_GenFilePath_log (f : MuxerFlow) (cb : Int × String) (now : Tm) (x : Action)
    (hx : x ∈ (GenFilePath f cb now).2.2) : ∃ ret name, x = Action.fileNameCb ret name := by
  unfold GenFilePath at hx
  split_ifs at hx <;> simp only [List.mem_singleton, List.not_mem_nil] at hx
  · exact ⟨_, _, hx⟩
  · exact ⟨_, _, hx⟩

theorem mem_NewRecorder_log (f : MuxerFlow) (path : String) (res : OpenResult) (x : Action)
    (hx : x ∈ (NewRecorder f path res).2.1) :
    (∃ p c, x = Action.createMuxer p c) ∨
      ∃ e, x = Action.event e ∧ e.type = MuxerEventType.MUX_EVENT_FILE_BEGIN := by
  cases res <;>
    simp only [NewRecorder, VideoRecorder.create, List.mem_append, List.mem_singleton,
      List.not_mem_nil] at hx
  · rcases hx with hx | hx
    · exact Or.inl ⟨_, _, hx⟩
    · exact Or.inr (mem_ProcessEvent _ f _ _ x hx)
  · exact Or.inl ⟨_, _, hx⟩

theorem open_recorder_log (f : MuxerFlow) (env : Env) :
    (open_recorder f env).log = [] ∨
      (open_recorder f env).log = (GenFilePath f env.cb env.now).2.2 ++
        (NewRecorder (GenFilePath f env.cb env.now).2.1 (GenFilePath f env.cb env.now).1
          env.newRecorder).2.1 := by
  unfold open_recorder
  split
  · exact Or.inl rfl
  · simp only
    split
    · exact Or.inr rfl
    · split <;> exact Or.inr rfl

theorem mem_open_recorder_log (f : MuxerFlow) (env : Env) (x : Action)
    (hx : x ∈ (open_recorder f env).log) :
    (∃ ret name, x = Action.fileNameCb ret name) ∨ (∃ p c, x = Action.createMuxer p c) ∨
      ∃ e, x = Action.event e ∧ e.type = MuxerEventType.MUX_EVENT_FILE_BEGIN := by
  rcases open_recorder_log f env with e | e
  · rw [e] at hx
    simp at hx
  · rw [e] at hx
    rcases List.mem_append.mp hx with hx | hx
    · exact Or.inl (mem_GenFilePath_log f _ _ x hx)
    · exact Or.inr (mem_NewRecorder_log _ _ _ x hx)

theorem open_recorder_no_write (f : MuxerFlow) (env : Env) :
    ∀ x ∈ (open_recorder f env).log, x.isBufferWrite = false := by
  intro x hx
  rcases mem_open_recorder_log f env x hx with ⟨_, _, e⟩ | ⟨_, _, e⟩ | ⟨_, e, _⟩ <;>
    (subst e; rfl)

theorem capture_extra_no_write (f : MuxerFlow) (b : MediaBuffer) (env : Env) :
    ∀ x ∈ (capture_extra f b env).2.1, x.isBufferWrite = false := by
  intro x hx
  have h := (capture_extra_quiet f b env x hx).1
  cases x <;> first | rfl | simp [Action.isTrackCall] at h

theorem openStreams_no_write (r : VideoRecorder) (f : MuxerFlow) (env : WriteEnv) :
    ∀ x ∈ (r.openStreams f env).2.2, x.isBufferWrite = false := by
  intro x hx
  unfold VideoRecorder.openStreams at hx
  simp only at hx
  have hq := fun t v (r0 : VideoRecorder) hy => ProcessEvent_no_write r0 f t v x hy
  split at hx
  · split at hx <;>
      simp only [List.mem_append, List.mem_singleton] at hx
    · rcases hx with (hx | hx) | hx
      · rcases hx with hx | hx
        · subst hx; rfl
        · split at hx
          · simp at hx
          · exact hq _ _ _ hx
      · split at hx
        · simp only [List.mem_append, List.mem_singleton] at hx
          rcases hx with hx | hx
          · subst hx; rfl
          · split at hx
            · simp at hx
            · exact hq _ _ _ hx
        · simp at hx
      · subst hx; rfl
    · rcases hx with ((hx | hx) | hx) | hx
      · rcases hx with hx | hx
        · subst hx; rfl
        · split at hx
          · simp at hx
          · exact hq _ _ _ hx
      · split at hx
        · simp only [List.mem_append, List.mem_singleton] at hx
          rcases hx with hx | hx
          · subst hx; rfl
          · split at hx
            · simp at hx
            · exact hq _ _ _ hx
        · simp at hx
      · subst hx; rfl
      · exact hq _ _ _ hx
  · simp at hx

theorem writeFrame_writes (r : VideoRecorder) (f : MuxerFlow) (b : MediaBuffer)
    (env : WriteEnv) (b2 : MediaBuffer) (s : Int) (ok : Bool)
    (hx : Action.write b2 s ok ∈ (r.writeFrame f b env).2.2) : b2 = b := by
  unfold VideoRecorder.writeFrame at hx
  have hq := fun t v (r0 : VideoRecorder) hy =>
    ProcessEvent_no_write r0 f t v (Action.write b2 s ok) hy
  split_ifs at hx <;>
    simp only [List.mem_append, List.mem_singleton, List.not_mem_nil] at hx
  · cases hx; rfl
  · rcases hx with hx | hx
    · cases hx; rfl
    · exact absurd (hq _ _ _ hx) (by simp [Action.isBufferWrite])
  · cases hx; rfl
  · rcases hx with hx | hx
    · cases hx; rfl
    · exact absurd (hq _ _ _ hx) (by simp [Action.isBufferWrite])

theorem Write_writes (r : VideoRecorder) (f : MuxerFlow) (b : MediaBuffer)
    (env : WriteEnv) (b2 : MediaBuffer) (s : Int) (ok : Bool)
    (hx : Action.write b2 s ok ∈ (r.Write f b env).2.2) : b2 = b := by
  unfold VideoRecorder.Write at hx
  simp only at hx
  split at hx
  · rcases List.mem_append.mp hx with hx | hx
    · exact absurd (openStreams_no_write r f env _ hx) (by simp [Action.isBufferWrite])
    · exact writeFrame_writes _ f b env b2 s ok hx
  · exact absurd (openStreams_no_write r f env _ hx) (by simp [Action.isBufferWrite])

theorem process_video_writes (f : MuxerFlow) (vid : Option MediaBuffer) (env : Env)
    (b2 : MediaBuffer) (s : Int) (ok : Bool)
    (hx : Action.write b2 s ok ∈ (process_video f vid env).log) : vid = some b2 := by
  have hnw : ∀ l : List Action, (∀ x ∈ l, x.isBufferWrite = false) →
      Action.write b2 s ok ∈ l → False := fun l hl hm =>
    absurd (hl _ hm) (by simp [Action.isBufferWrite])
  unfold process_video at hx
  split at hx
  · simp at hx
  · split at hx
    · simp at hx
    · rename_i b
      simp only at hx
      split at hx
      · exact (hnw _ (capture_extra_no_write f b env) hx).elim
      · split at hx
        · exact (hnw _ (capture_extra_no_write f b env) hx).elim
        · split at hx
          · rcases List.mem_append.mp hx with hx | hx
            · exact (hnw _ (capture_extra_no_write f b env) hx).elim
            · rw [Write_writes _ _ _ _ _ _ _ hx]
          · rcases List.mem_append.mp hx with hx | hx
            · rcases List.mem_append.mp hx with hx | hx
              · exact (hnw _ (capture_extra_no_write f b env) hx).elim
              · rw [Write_writes _ _ _ _ _ _ _ hx]
            · exact (hnw _ (destroy_no_write _ _) hx).elim

theorem Write_audio_no_track (r : VideoRecorder) (f : MuxerFlow) (b : MediaBuffer)
    (env : WriteEnv) (hx : f.video_extra = none) (ha : r.aud_stream_id = -1)
    (hb : b.type = MediaType.Audio) : r.Write f b env = (true, r, []) := by
  unfold VideoRecorder.Write
  rw [openStreams_nil_of_no_extra r f env hx]
  simp only [if_true, List.nil_append]
  unfold VideoRecorder.writeFrame
  rw [if_neg (by rw [hb]; simp), if_neg (by simp [ha])]

/-- C17: in an enabled cycle that rotates and gets its new recorder, the
closed session is handed no input buffer; when the buffers are processed the
extradata is not cached and the new recorder has no open track, so the
`Write` of the cycle's audio buffer returns `true` without any call and
leaves the recorder as it is; the audio part of the cycle makes no call at
all, and every buffer the cycle hands to `muxer->Write` is its video
buffer. -/
theorem C17_audio_dropped_on_rotation (f : MuxerFlow) (vid aud : Option MediaBuffer) (env : Env)
    (b : MediaBuffer) (he : f.enable_streaming = true) (hd : rotation_due f vid)
    (ha : aud = some b) (hb : b.type = MediaType.Audio)
    (hn : env.newRecorder = OpenResult.created) :
    (∀ x ∈ (rotation_check f vid).2, x.isBufferWrite = false) ∧
    (before_writes f vid env).flow.video_extra = none ∧
    (∃ r, (before_writes f vid env).flow.video_recorder = some r ∧
      r.vid_stream_id = -1 ∧ r.aud_stream_id = -1 ∧
      r.Write (before_writes f vid env).flow b env.audW = (true, r, [])) ∧
    (after_audio f vid aud env).log = [] ∧
    (after_audio f vid aud env).stop = none ∧
    (∀ b2 s ok, Action.write b2 s ok ∈ (save_buffer f vid aud env).log → vid = some b2) := by
  obtain ⟨r0, hr0, e⟩ := rotation_check_of_due f vid hd
  have hrn : (rotation_check f vid).1.video_recorder = none := by rw [e]
  have hxn : (rotation_check f vid).1.video_extra = none := by rw [e]
  have hopen := open_recorder_created (rotation_check f vid).1 env hn hrn
  have hextra : (before_writes f vid env).flow.video_extra = none := by
    unfold before_writes
    rw [open_recorder_video_extra, hxn]
  have hrec : (before_writes f vid env).flow.video_recorder =
      some (VideoRecorder.create (GenFilePath (rotation_check f vid).1 env.cb env.now).2.1
        (GenFilePath (rotation_check f vid).1 env.cb env.now).1).1 := by
    unfold before_writes
    rw [hopen]
  have hstop : (before_writes f vid env).stop = none := by
    unfold before_writes
    rw [hopen]
  have hw := Write_audio_no_track
    (VideoRecorder.create (GenFilePath (rotation_check f vid).1 env.cb env.now).2.1
      (GenFilePath (rotation_check f vid).1 env.cb env.now).1).1
    (before_writes f vid env).flow b env.audW hextra rfl hb
  have haud : after_audio f vid aud env =
      process_audio (before_writes f vid env).flow (some b) env.audW := by
    unfold after_audio
    rw [ha]
  have hlog : (after_audio f vid aud env).log = [] ∧ (after_audio f vid aud env).stop = none := by
    rw [haud]
    cases hai : (before_writes f vid env).flow.audio_in
    · rw [process_audio_skipped _ _ _ (Or.inl hai)]
      exact ⟨rfl, rfl⟩
    · rw [process_audio_written _ _ _ _ hai hrec (by rw [hw]), hw]
      exact ⟨rfl, rfl⟩
  refine ⟨rotation_check_no_write f vid, hextra, ⟨_, hrec, rfl, rfl, hw⟩, hlog.1, hlog.2, ?_⟩
  intro b2 s ok hm
  rw [save_buffer_enabled f vid aud env he, enabled_cycle_video f vid aud env hstop hlog.2] at hm
  simp only [List.mem_append, hlog.1, List.not_mem_nil, or_false] at hm
  rcases hm with (hm | hm) | hm
  · exact absurd (rotation_check_no_write f vid _ hm) (by simp [Action.isBufferWrite])
  · exact absurd (open_recorder_no_write _ env _ hm) (by simp [Action.isBufferWrite])
  · exact process_video_writes _ vid env b2 s ok hm

/-- Witness of C17: a key frame 60 s after the segment start arrives together
with an audio buffer; the cycle rotates and the audio part is silent. -/
theorem C17_audio_dropped_on_rotation_witness :
    (after_audio rotFlow (some (keyFrame 61000000)) (some (audioFrame 61000000)) okEnv).log = [] :=
  (C17_audio_dropped_on_rotation rotFlow (some (keyFrame 61000000)) (some (audioFrame 61000000))
    okEnv (audioFrame 61000000) rfl
    ⟨by decide, by decide, rfl, by decide, keyFrame 61000000, rfl, rfl, by decide⟩ rfl rfl
    rfl).2.2.2.1

/-! ## Theorems: the configuration is constant -/

theorem GenFilePath_config (f : MuxerFlow) (cb : Int × String) (now : Tm) :
    config (GenFilePath f cb now).2.1 = config f := by
  rw [GenFilePath_fields]
  rfl

theorem rotation_check_config (f : MuxerFlow) (vid : Option MediaBuffer) :
    config (rotation_check f vid).1 = config f := by
  by_cases h : rotation_due f vid
  · obtain ⟨r, _, e⟩ := rotation_check_of_due f vid h
    rw [e]
    rfl
  · rw [rotation_check_of_not_due f vid h]

theorem open_recorder_config (f : MuxerFlow) (env : Env) :
    config (open_recorder f env).flow = config f := by
  unfold open_recorder
  split
  · rfl
  · simp only
    split
    · exact GenFilePath_config f _ _
    · split <;> exact GenFilePath_config f _ _

theorem process_audio_config (f : MuxerFlow) (aud : Option MediaBuffer) (env : WriteEnv) :
    config (process_audio f aud env).flow = config f := by
  unfold process_audio
  split
  · rfl
  · split
    · rfl
    · split
      · rfl
      · simp only
        split <;> rfl

theorem capture_extra_config (f : MuxerFlow) (b : MediaBuffer) (env : Env) :
    config (capture_extra f b env).1 = config f := by
  rcases env with ⟨cb, now, nr, ex, al, aw, vw⟩
  cases ex <;> cases al <;> simp only [capture_extra] <;> split_ifs <;> rfl

theorem process_video_config (f : MuxerFlow) (vid : Option MediaBuffer) (env : Env) :
    config (process_video f vid env).flow = config f := by
  unfold process_video
  split
  · rfl
  · split
    · rfl
    · rename_i b
      simp only
      split
      · exact capture_extra_config f b env
      · split
        · exact capture_extra_config f b env
        · split
          · split_ifs <;> exact capture_extra_config f b env
          · exact capture_extra_config f b env

theorem enabled_cycle_config (f : MuxerFlow) (vid aud : Option MediaBuffer) (env : Env) :
    config (enabled_cycle f vid aud env).flow = config f := by
  have h1 := rotation_check_config f vid
  have h2 := open_recorder_config (rotation_check f vid).1 env
  have h3 := process_audio_config (open_recorder (rotation_check f vid).1 env).flow aud env.audW
  have h4 := process_video_config
    (process_audio (open_recorder (rotation_check f vid).1 env).flow aud env.audW).flow vid env
  unfold enabled_cycle
  simp only
  split
  · exact h2.trans h1
  · split
    · exact h3.trans (h2.trans h1)
    · exact h4.trans (h3.trans (h2.trans h1))

theorem disabled_cycle_config (f : MuxerFlow) : config (disabled_cycle f).flow = config f := by
  unfold disabled_cycle
  split <;> rfl

theorem save_buffer_config (f : MuxerFlow) (vid aud : Option MediaBuffer) (env : Env) :
    config (save_buffer f vid aud env).flow = config f := by
  unfold save_buffer
  split
  · exact disabled_cycle_config f
  · exact enabled_cycle_config f vid aud env

theorem Control_config (f : MuxerFlow) (req : Request) : config (Control f req).flow = config f := by
  cases req <;> simp only [Control, StartStream, StopStream] <;> (try split_ifs) <;> rfl

theorem step_config (f : MuxerFlow) (op : Op) : config (step f op).flow = config f := by
  cases op with
  | ingest vid aud env => exact save_buffer_config f vid aud env
  | control req => exact Control_config f req

theorem run_config (f : MuxerFlow) (ops : List Op) : config (run f ops).flow = config f := by
  induction ops generalizing f with
  | nil => rfl
  | cons op ops ih =>
    unfold run
    split
    · exact (ih _).trans (step_config f op)
    · exact step_config f op
    · exact step_config f op

theorem no_h26x_of_config {f g : MuxerFlow} (h : config g = config f) (hf : no_h26x f) :
    no_h26x g := by
  unfold config at h
  simp only [Prod.mk.injEq] at h
  obtain ⟨h1, _, h3, _⟩ := h
  unfold no_h26x at *
  rw [h1, h3]
  exact hf

/-! ## Theorems: runs in which no track can be opened -/

theorem set_recorder_self (f : MuxerFlow) (r : VideoRecorder) (h : f.video_recorder = some r) :
    { f with video_recorder := some r } = f := by
  cases f
  simp only at h
  subst h
  rfl

theorem Write_no_track (r : VideoRecorder) (f : MuxerFlow) (b : MediaBuffer) (env : WriteEnv)
    (hx : f.video_extra = none) (hv : r.vid_stream_id = -1) (ha : r.aud_stream_id = -1) :
    r.Write f b env = (true, r, []) := by
  unfold VideoRecorder.Write
  rw [openStreams_nil_of_no_extra r f env hx]
  simp only [if_true, List.nil_append]
  unfold VideoRecorder.writeFrame
  rw [if_neg (by simp [hv]), if_neg (by simp [ha])]

theorem rotation_check_untracked (f : MuxerFlow) (vid : Option MediaBuffer) (h : untracked f) :
    untracked (rotation_check f vid).1 ∧
      ∀ x ∈ (rotation_check f vid).2, x.isTrackCall = false := by
  by_cases hd : rotation_due f vid
  · obtain ⟨r, hr, e⟩ := rotation_check_of_due f vid hd
    rw [e]
    refine ⟨⟨rfl, fun r0 h0 => by cases h0⟩, fun x hx => ?_⟩
    exact (destroy_cleared_quiet r f (h.2 r hr).1 x hx).1
  · rw [rotation_check_of_not_due f vid hd]
    exact ⟨h, fun x hx => by simp at hx⟩

theorem open_recorder_recorder (f : MuxerFlow) (env : Env) (r : VideoRecorder)
    (h : (open_recorder f env).flow.video_recorder = some r) :
    f.video_recorder = some r ∨ (r.vid_stream_id = -1 ∧ r.aud_stream_id = -1) := by
  unfold open_recorder at h
  split at h
  · exact Or.inl h
  · rename_i hnone
    simp only at h
    split at h
    · rw [GenFilePath_fields] at h
      exact absurd (hnone.symm.trans h) (by simp)
    · split at h
      · rename_i r1 hr1
        simp only [Option.some.injEq] at h
        subst h
        right
        cases hres : env.newRecorder <;> rw [hres] at hr1 <;>
          simp only [NewRecorder, VideoRecorder.create, Option.some.injEq] at hr1
        · subst hr1
          exact ⟨rfl, rfl⟩
        · cases hr1
        · cases hr1
      · cases h

theorem open_recorder_untracked (f : MuxerFlow) (env : Env) (h : untracked f) :
    untracked (open_recorder f env).flow ∧
      ∀ x ∈ (open_recorder f env).log, x.isTrackCall = false := by
  refine ⟨⟨?_, ?_⟩, ?_⟩
  · rw [open_recorder_video_extra]
    exact h.1
  · intro r hr
    rcases open_recorder_recorder f env r hr with h1 | h1
    · exact h.2 r h1
    · exact h1
  · intro x hx
    rcases mem_open_recorder_log f env x hx with ⟨_, _, e⟩ | ⟨_, _, e⟩ | ⟨_, e, _⟩ <;>
      (subst e; rfl)

theorem process_audio_untracked (f : MuxerFlow) (aud : Option MediaBuffer) (env : WriteEnv)
    (h : untracked f) :
    (process_audio f aud env).flow = f ∧ (process_audio f aud env).log = [] ∧
      (f.video_recorder ≠ none → (process_audio f aud env).stop = none) := by
  by_cases hs : f.audio_in = false ∨ aud = none
  · rw [process_audio_skipped f aud env hs]
    exact ⟨rfl, rfl, fun _ => rfl⟩
  · have ha : f.audio_in = true := by
      cases h0 : f.audio_in
      · exact absurd (Or.inl h0) hs
      · rfl
    cases hb : aud with
    | none => exact absurd (Or.inr hb) hs
    | some b =>
      cases hrec : f.video_recorder with
      | none =>
        have e : process_audio f (some b) env = ⟨f, [], some Status.nullDeref⟩ := by
          unfold process_audio
          simp only [ha, hrec, Bool.not_true, Bool.false_eq_true, if_false]
        rw [e]
        exact ⟨rfl, rfl, fun hn => absurd rfl hn⟩
      | some r =>
        have hw := Write_no_track r f b env h.1 (h.2 r hrec).1 (h.2 r hrec).2
        rw [process_audio_written f env b r ha hrec (by rw [hw]), hw]
        exact ⟨set_recorder_self f r hrec, rfl, fun _ => rfl⟩

theorem capture_extra_no_h26x (f : MuxerFlow) (b : MediaBuffer) (env : Env)
    (hv : f.video_in = true) (h : no_h26x f) : capture_extra f b env = (f, [], false) := by
  have hc : ¬ (f.codec_type = CodecType.CODEC_TYPE_H264 ∨
      f.codec_type = CodecType.CODEC_TYPE_H265) := by
    rcases h with h | ⟨h1, h2⟩
    · rw [hv] at h
      cases h
    · rintro (h3 | h3)
      · exact h1 h3
      · exact h2 h3
  unfold capture_extra
  rw [if_neg hc]
  split_ifs <;> rfl

theorem process_video_untracked (f : MuxerFlow) (vid : Option MediaBuffer) (env : Env)
    (hc : no_h26x f) (h : untracked f) :
    untracked (process_video f vid env).flow ∧ (process_video f vid env).log = [] ∧
      (process_video f vid env).flow.enable_streaming = f.enable_streaming ∧
      (f.video_recorder ≠ none →
        (process_video f vid env).stop = none ∧
          (process_video f vid env).flow.video_recorder ≠ none) := by
  cases hv : f.video_in with
  | false =>
    have e : process_video f vid env = ⟨f, [], none⟩ := by
      unfold process_video
      simp only [hv, Bool.not_false, if_true]
    rw [e]
    exact ⟨h, rfl, rfl, fun hn => ⟨rfl, hn⟩⟩
  | true =>
    cases hb : vid with
    | none =>
      have e : process_video f none env = ⟨f, [], none⟩ := by
        unfold process_video
        simp only [hv, Bool.not_true, Bool.false_eq_true, if_false]
      rw [e]
      exact ⟨h, rfl, rfl, fun hn => ⟨rfl, hn⟩⟩
    | some b =>
      have hcap := capture_extra_no_h26x f b env hv hc
      cases hrec : f.video_recorder with
      | none =>
        have e : process_video f (some b) env = ⟨f, [], some Status.nullDeref⟩ := by
          unfold process_video
          simp only [hv, hcap, hrec, Bool.not_true, Bool.false_eq_true, if_false]
        rw [e]
        exact ⟨h, rfl, rfl, fun hn => absurd rfl hn⟩
      | some r =>
        have hw := Write_no_track r f b env.vidW h.1 (h.2 r hrec).1 (h.2 r hrec).2
        have hr2 : (capture_extra f b env).1.video_recorder = some r := by rw [hcap]; exact hrec
        have e : process_video f (some b) env =
            ⟨if f.last_ts = 0 ∨ b.ustimestamp < f.last_ts then
                { f with video_recorder := some r, last_ts := b.ustimestamp }
              else f, [], none⟩ := by
          rw [process_video_written f b env r hv (by rw [hcap]) hr2 (by rw [hcap, hw])]
          simp only [hcap, hw, set_recorder_self f r hrec, List.append_nil]
        rw [e]
        refine ⟨?_, rfl, ?_, fun _ => ⟨rfl, ?_⟩⟩
        · split_ifs
          · exact ⟨h.1, fun r0 h0 => by
              simp only [Option.some.injEq] at h0
              subst h0
              exact h.2 r hrec⟩
          · exact h
        · split_ifs <;> rfl
        · split_ifs
          · exact Option.some_ne_none r
          · rw [hrec]
            exact Option.some_ne_none r

theorem enabled_cycle_open_stop (f : MuxerFlow) (vid aud : Option MediaBuffer) (env : Env)
    (s : Status) (ho : (before_writes f vid env).stop = some s) :
    enabled_cycle f vid aud env =
      ⟨(before_writes f vid env).flow,
        (rotation_check f vid).2 ++ (before_writes f vid env).log, s⟩ := by
  unfold before_writes at *
  unfold enabled_cycle
  simp only [ho]

theorem disabled_cycle_untracked (f : MuxerFlow) (h : untracked f) :
    untracked (disabled_cycle f).flow ∧ ∀ x ∈ (disabled_cycle f).log, x.isTrackCall = false := by
  unfold disabled_cycle
  split
  · rename_i r hr
    refine ⟨⟨h.1, fun r0 h0 => by cases h0⟩, fun x hx => ?_⟩
    rcases List.mem_append.mp hx with hx | hx
    · exact (destroy_cleared_quiet r f (h.2 r hr).1 x hx).1
    · split at hx
      · simp only [List.mem_singleton] at hx
        subst hx
        rfl
      · simp at hx
  · exact ⟨h, fun x hx => by simp at hx⟩

theorem enabled_cycle_untracked (f : MuxerFlow) (vid aud : Option MediaBuffer) (env : Env)
    (hc : no_h26x f) (h : untracked f) :
    untracked (enabled_cycle f vid aud env).flow ∧
      ∀ x ∈ (enabled_cycle f vid aud env).log, x.isTrackCall = false := by
  obtain ⟨u1, q1⟩ := rotation_check_untracked f vid h
  obtain ⟨u2, q2⟩ := open_recorder_untracked (rotation_check f vid).1 env u1
  have u2' : untracked (before_writes f vid env).flow := u2
  obtain ⟨e3, l3, _⟩ := process_audio_untracked (before_writes f vid env).flow aud env.audW u2'
  have c2 : no_h26x (before_writes f vid env).flow :=
    no_h26x_of_config ((open_recorder_config _ env).trans (rotation_check_config f vid)) hc
  have e3' : (after_audio f vid aud env).flow = (before_writes f vid env).flow := e3
  have l3' : (after_audio f vid aud env).log = [] := l3
  have u3 : untracked (after_audio f vid aud env).flow := by rw [e3']; exact u2'
  have c3 : no_h26x (after_audio f vid aud env).flow := by rw [e3']; exact c2
  obtain ⟨u4, l4, _, _⟩ := process_video_untracked (after_audio f vid aud env).flow vid env c3 u3
  have q12 : ∀ x ∈ (rotation_check f vid).2 ++ (before_writes f vid env).log,
      x.isTrackCall = false := by
    intro x hx
    rcases List.mem_append.mp hx with hx | hx
    · exact q1 x hx
    · exact q2 x hx
  cases ho : (before_writes f vid env).stop with
  | some s =>
    rw [enabled_cycle_open_stop f vid aud env s ho]
    exact ⟨u2', q12⟩
  | none =>
    cases ha : (after_audio f vid aud env).stop with
    | some s =>
      rw [enabled_cycle_audio_stop f vid aud env s ho ha]
      refine ⟨u3, ?_⟩
      simp only [l3', List.append_nil]
      exact q12
    | none =>
      rw [enabled_cycle_video f vid aud env ho ha]
      refine ⟨u4, ?_⟩
      simp only [l3', l4, List.append_nil]
      exact q12

theorem save_buffer_untracked (f : MuxerFlow) (vid aud : Option MediaBuffer) (env : Env)
    (hc : no_h26x f) (h : untracked f) :
    untracked (save_buffer f vid aud env).flow ∧
      ∀ x ∈ (save_buffer f vid aud env).log, x.isTrackCall = false := by
  unfold save_buffer
  split
  · exact disabled_cycle_untracked f h
  · exact enabled_cycle_untracked f vid aud env hc h

theorem save_buffer_untracked_open (f : MuxerFlow) (vid aud : Option MediaBuffer) (env : Env)
    (hc : no_h26x f) (h : untracked f) (he : f.enable_streaming = true)
    (hn : env.newRecorder = OpenResult.created) :
    (save_buffer f vid aud env).status = Status.returned ∧
      (save_buffer f vid aud env).flow.enable_streaming = true ∧
      (save_buffer f vid aud env).flow.video_recorder ≠ none := by
  obtain ⟨u1, _⟩ := rotation_check_untracked f vid h
  obtain ⟨r1, r2, r3, r4⟩ := rotation_check_fields f vid
  obtain ⟨o1, o2, o3, o4, o5, o6⟩ := open_recorder_ok (rotation_check f vid).1 env hn
  obtain ⟨u2, _⟩ := open_recorder_untracked (rotation_check f vid).1 env u1
  have u2' : untracked (before_writes f vid env).flow := u2
  have o1' : (before_writes f vid env).stop = none := o1
  have o5' : (before_writes f vid env).flow.video_recorder ≠ none := o5
  obtain ⟨e3, _, s3⟩ := process_audio_untracked (before_writes f vid env).flow aud env.audW u2'
  have e3' : (after_audio f vid aud env).flow = (before_writes f vid env).flow := e3
  have s3' : (after_audio f vid aud env).stop = none := s3 o5'
  have c3 : no_h26x (after_audio f vid aud env).flow :=
    no_h26x_of_config (by
      rw [e3']
      exact (open_recorder_config _ env).trans (rotation_check_config f vid)) hc
  have u3 : untracked (after_audio f vid aud env).flow := by rw [e3']; exact u2'
  obtain ⟨_, _, v3, v4⟩ := process_video_untracked (after_audio f vid aud env).flow vid env c3 u3
  have hr3 : (after_audio f vid aud env).flow.video_recorder ≠ none := by rw [e3']; exact o5'
  obtain ⟨v5, v6⟩ := v4 hr3
  rw [save_buffer_enabled f vid aud env he, enabled_cycle_video f vid aud env o1' s3']
  refine ⟨?_, ?_, v6⟩
  · show (process_video _ vid env).stop.getD Status.returned = _
    rw [v5]
    rfl
  · show (process_video _ vid env).flow.enable_streaming = _
    rw [v3, e3']
    exact o3.trans (r2.trans he)

theorem run_ingests_cons (f : MuxerFlow) (c : Option MediaBuffer × Option MediaBuffer × Env)
    (cs : List (Option MediaBuffer × Option MediaBuffer × Env))
    (h : (save_buffer f c.1 c.2.1 c.2.2).status = Status.returned) :
    run f (ingests (c :: cs)) =
      ⟨(run (save_buffer f c.1 c.2.1 c.2.2).flow (ingests cs)).flow,
        (save_buffer f c.1 c.2.1 c.2.2).log ++
          (run (save_buffer f c.1 c.2.1 c.2.2).flow (ingests cs)).log,
        (run (save_buffer f c.1 c.2.1 c.2.2).flow (ingests cs)).status⟩ := by
  unfold ingests
  rw [List.map_cons, run]
  simp only [step, h]

theorem run_ingests_stopped (f : MuxerFlow) (c : Option MediaBuffer × Option MediaBuffer × Env)
    (cs : List (Option MediaBuffer × Option MediaBuffer × Env))
    (h : (save_buffer f c.1 c.2.1 c.2.2).status ≠ Status.returned) :
    run f (ingests (c :: cs)) = save_buffer f c.1 c.2.1 c.2.2 := by
  unfold ingests
  rw [List.map_cons, run]
  simp only [step]
  split
  · rename_i h2
    exact absurd h2 h
  · rfl
  · rfl

theorem run_untracked (cs : List (Option MediaBuffer × Option MediaBuffer × Env)) :
    ∀ f : MuxerFlow, no_h26x f → untracked f →
      untracked (run f (ingests cs)).flow ∧
        ∀ x ∈ (run f (ingests cs)).log, x.isTrackCall = false := by
  induction cs with
  | nil =>
    intro f _ hu
    exact ⟨hu, fun x hx => by simp [ingests, run] at hx⟩
  | cons c cs ih =>
    intro f hc hu
    obtain ⟨u1, q1⟩ := save_buffer_untracked f c.1 c.2.1 c.2.2 hc hu
    by_cases hs : (save_buffer f c.1 c.2.1 c.2.2).status = Status.returned
    · rw [run_ingests_cons f c cs hs]
      obtain ⟨u2, q2⟩ := ih _ (no_h26x_of_config (save_buffer_config f _ _ _) hc) u1
      refine ⟨u2, fun x hx => ?_⟩
      rcases List.mem_append.mp hx with hx | hx
      · exact q1 x hx
      · exact q2 x hx
    · rw [run_ingests_stopped f c cs hs]
      exact ⟨u1, q1⟩

theorem run_untracked_open (cs : List (Option MediaBuffer × Option MediaBuffer × Env)) :
    ∀ f : MuxerFlow, no_h26x f → untracked f → f.enable_streaming = true →
      (∀ c ∈ cs, c.2.2.newRecorder = OpenResult.created) →
      (run f (ingests cs)).status = Status.returned ∧
        (run f (ingests cs)).flow.enable_streaming = true ∧
        (cs ≠ [] → (run f (ingests cs)).flow.video_recorder ≠ none) := by
  induction cs with
  | nil =>
    intro f _ _ he _
    exact ⟨rfl, he, fun h => absurd rfl h⟩
  | cons c cs ih =>
    intro f hc hu he hn
    obtain ⟨s1, s2, s3⟩ := save_buffer_untracked_open f c.1 c.2.1 c.2.2 hc hu he
      (hn c (List.mem_cons_self c cs))
    obtain ⟨u1, _⟩ := save_buffer_untracked f c.1 c.2.1 c.2.2 hc hu
    rw [run_ingests_cons f c cs s1]
    obtain ⟨t1, t2, t3⟩ := ih _ (no_h26x_of_config (save_buffer_config f _ _ _) hc) u1 s2
      (fun x hx => hn x (List.mem_cons_of_mem c hx))
    refine ⟨t1, t2, fun _ => ?_⟩
    cases cs with
    | nil => exact s3
    | cons c2 cs2 => exact t3 (by simp)

theorem GenFilePath_file_duration (f : MuxerFlow) (cb : Int × String) (now : Tm) :
    (GenFilePath f cb now).2.1.file_duration = f.file_duration := by
  rw [GenFilePath_fields]

theorem open_recorder_file_duration (f : MuxerFlow) (env : Env) :
    (open_recorder f env).flow.file_duration = f.file_duration := by
  unfold open_recorder
  split
  · rfl
  · simp only
    split
    · exact GenFilePath_file_duration f _ _
    · split <;> exact GenFilePath_file_duration f _ _

theorem process_audio_file_duration (f : MuxerFlow) (aud : Option MediaBuffer) (env : WriteEnv) :
    (process_audio f aud env).flow.file_duration = f.file_duration := by
  unfold process_audio
  split
  · rfl
  · split
    · rfl
    · split
      · rfl
      · simp only
        split <;> rfl

theorem capture_extra_file_duration (f : MuxerFlow) (b : MediaBuffer) (env : Env) :
    (capture_extra f b env).1.file_duration = f.file_duration := by
  rcases env with ⟨cb, now, nr, ex, al, aw, vw⟩
  cases ex <;> cases al <;> simp only [capture_extra] <;> split_ifs <;> rfl

theorem process_video_file_duration (f : MuxerFlow) (vid : Option MediaBuffer) (env : Env) :
    (process_video f vid env).flow.file_duration = f.file_duration := by
  unfold process_video
  split
  · rfl
  · split
    · rfl
    · rename_i b
      simp only
      split
      · exact capture_extra_file_duration f b env
      · split
        · exact capture_extra_file_duration f b env
        · split
          · split_ifs <;> exact capture_extra_file_duration f b env
          · exact capture_extra_file_duration f b env

theorem save_buffer_file_duration (f : MuxerFlow) (vid aud : Option MediaBuffer) (env : Env) :
    (save_buffer f vid aud env).flow.file_duration = f.file_duration := by
  have h1 := (rotation_check_fields f vid).1
  have h2 := open_recorder_file_duration (rotation_check f vid).1 env
  have h3 := process_audio_file_duration (open_recorder (rotation_check f vid).1 env).flow aud
    env.audW
  have h4 := process_video_file_duration
    (process_audio (open_recorder (rotation_check f vid).1 env).flow aud env.audW).flow vid env
  unfold save_buffer
  split
  · unfold disabled_cycle
    split <;> rfl
  · unfold enabled_cycle
    simp only
    split
    · exact h2.trans h1
    · split
      · exact h3.trans (h2.trans h1)
      · exact h4.trans (h3.trans (h2.trans h1))

theorem save_buffer_untracked_no_close (f : MuxerFlow) (vid aud : Option MediaBuffer)
    (env : Env) (hc : no_h26x f) (h : untracked f) (he : f.enable_streaming = true)
    (hn : env.newRecorder = OpenResult.created)
    (hnr : f.video_in = false ∨ f.file_duration ≤ 0) :
    Action.closeMuxer ∉ (save_buffer f vid aud env).log := by
  have hnd : ¬ rotation_due f vid := by
    rintro ⟨d1, _, d3, _⟩
    rcases hnr with h1 | h1
    · rw [h1] at d3
      cases d3
    · omega
  have er := rotation_check_of_not_due f vid hnd
  obtain ⟨o1, o2, o3, o4, o5, o6⟩ := open_recorder_ok (rotation_check f vid).1 env hn
  obtain ⟨u1, _⟩ := rotation_check_untracked f vid h
  obtain ⟨u2, _⟩ := open_recorder_untracked (rotation_check f vid).1 env u1
  have u2' : untracked (before_writes f vid env).flow := u2
  have o1' : (before_writes f vid env).stop = none := o1
  have o5' : (before_writes f vid env).flow.video_recorder ≠ none := o5
  obtain ⟨e3, l3, s3⟩ := process_audio_untracked (before_writes f vid env).flow aud env.audW u2'
  have e3' : (after_audio f vid aud env).flow = (before_writes f vid env).flow := e3
  have l3' : (after_audio f vid aud env).log = [] := l3
  have s3' : (after_audio f vid aud env).stop = none := s3 o5'
  have c3 : no_h26x (after_audio f vid aud env).flow :=
    no_h26x_of_config (by
      rw [e3']
      exact (open_recorder_config _ env).trans (rotation_check_config f vid)) hc
  have u3 : untracked (after_audio f vid aud env).flow := by rw [e3']; exact u2'
  obtain ⟨_, l4, _, _⟩ := process_video_untracked (after_audio f vid aud env).flow vid env c3 u3
  rw [save_buffer_enabled f vid aud env he, enabled_cycle_video f vid aud env o1' s3']
  simp only [l3', l4, er, List.append_nil, List.nil_append]
  intro hm
  rcases mem_open_recorder_log _ env _ hm with ⟨_, _, e⟩ | ⟨_, _, e⟩ | ⟨_, e, _⟩ <;> cases e

theorem run_untracked_no_close (cs : List (Option MediaBuffer × Option MediaBuffer × Env)) :
    ∀ f : MuxerFlow, no_h26x f → untracked f → f.enable_streaming = true →
      (∀ c ∈ cs, c.2.2.newRecorder = OpenResult.created) →
      (f.video_in = false ∨ f.file_duration ≤ 0) →
      Action.closeMuxer ∉ (run f (ingests cs)).log := by
  induction cs with
  | nil =>
    intro f _ _ _ _ _
    simp [ingests, run]
  | cons c cs ih =>
    intro f hc hu he hn hnr
    have hc1 := hn c (List.mem_cons_self c cs)
    obtain ⟨s1, s2, s3⟩ := save_buffer_untracked_open f c.1 c.2.1 c.2.2 hc hu he hc1
    obtain ⟨u1, _⟩ := save_buffer_untracked f c.1 c.2.1 c.2.2 hc hu
    have hcfg := save_buffer_config f c.1 c.2.1 c.2.2
    have hnr2 : (save_buffer f c.1 c.2.1 c.2.2).flow.video_in = false ∨
        (save_buffer f c.1 c.2.1 c.2.2).flow.file_duration ≤ 0 := by
      rw [save_buffer_file_duration]
      unfold config at hcfg
      simp only [Prod.mk.injEq] at hcfg
      rw [hcfg.1]
      exact hnr
    rw [run_ingests_cons f c cs s1]
    intro hm
    rcases List.mem_append.mp hm with hm | hm
    · exact save_buffer_untracked_no_close f c.1 c.2.1 c.2.2 hc hu he hc1 hnr hm
    · exact ih _ (no_h26x_of_config hcfg hc) u1 s2
        (fun x hx => hn x (List.mem_cons_of_mem c hx)) hnr2 hm

/-- C16 as stated fails: on a flow whose video codec is neither H.264 nor
H.265 and whose segment duration is 60 s, started without session, two cycles
with key frames 70 s apart (streaming enabled, every call succeeding) do not
leave the session open: the segment start is recorded whatever the codec, so
the rotation check of the second cycle closes the first session and a second
one is opened. -/
theorem C16_counterexample :
    no_h26x otherCodecTimedFlow ∧ untracked otherCodecTimedFlow ∧
    otherCodecTimedFlow.enable_streaming = true ∧
    (∀ c ∈ avCycles, c.2.2.allOk) ∧
    Action.closeMuxer ∈ (run otherCodecTimedFlow (ingests avCycles)).log ∧
    (run otherCodecTimedFlow (ingests avCycles)).log =
      [Action.createMuxer "cam_3.mp4" false, Action.closeMuxer,
        Action.createMuxer "cam_4.mp4" false] := by
  refine ⟨Or.inr ⟨by decide, by decide⟩, ⟨rfl, fun r h => by cases h⟩, rfl, by decide,
    by decide, by decide⟩

/-- C16, amended: in every run of ingest cycles of a flow that is audio-only, or whose
video codec is neither H.264 nor H.265, started without cached extradata and
without open track, whatever the buffers and the answers of the calls, no
stream is created and no header, frame or end-of-stream marker is written (so
no write is ever refused); and when streaming is enabled and every recorder
creation succeeds, every cycle returns, streaming stays enabled and a session
without open track is active after each cycle; the session is never closed
when the flow is audio-only or has no positive segment duration (otherwise
only the rotation check closes it, to open the next one in the same
cycle). -/
theorem C16_nothing_recorded (f : MuxerFlow)
    (cs : List (Option MediaBuffer × Option MediaBuffer × Env)) (hc : no_h26x f)
    (hu : untracked f) :
    (∀ x ∈ (run f (ingests cs)).log, x.isTrackCall = false ∧ x.isFailedWrite = false) ∧
    untracked (run f (ingests cs)).flow ∧
    (f.enable_streaming = true → (∀ c ∈ cs, c.2.2.newRecorder = OpenResult.created) →
      (run f (ingests cs)).status = Status.returned ∧
        (run f (ingests cs)).flow.enable_streaming = true ∧
        (cs ≠ [] → (run f (ingests cs)).flow.video_recorder ≠ none) ∧
        ((f.video_in = false ∨ f.file_duration ≤ 0) →
          Action.closeMuxer ∉ (run f (ingests cs)).log)) := by
  obtain ⟨u, q⟩ := run_untracked cs f hc hu
  refine ⟨fun x hx => ⟨q x hx, ?_⟩, u, fun he hn => ?_⟩
  · have hq := q x hx
    cases x <;> first | rfl | simp [Action.isTrackCall] at hq
  · obtain ⟨a1, a2, a3⟩ := run_untracked_open cs f hc hu he hn
    exact ⟨a1, a2, a3, run_untracked_no_close cs f hc hu he hn⟩

/-- Witness of C16: two cycles with key frames and audio buffers on an
audio-only flow and on a flow with another video codec. -/
theorem C16_nothing_recorded_witness :
    ((run audioOnlyFlow (ingests avCycles)).status = Status.returned ∧
      (run audioOnlyFlow (ingests avCycles)).flow.enable_streaming = true ∧
      (avCycles ≠ [] → (run audioOnlyFlow (ingests avCycles)).flow.video_recorder ≠ none) ∧
      ((audioOnlyFlow.video_in = false ∨ audioOnlyFlow.file_duration ≤ 0) →
        Action.closeMuxer ∉ (run audioOnlyFlow (ingests avCycles)).log)) ∧
    (∀ x ∈ (run otherCodecFlow (ingests avCycles)).log,
      x.isTrackCall = false ∧ x.isFailedWrite = false) :=
  ⟨(C16_nothing_recorded audioOnlyFlow avCycles (Or.inl rfl)
      ⟨rfl, fun r h => by cases h⟩).2.2 rfl (by decide),
    (C16_nothing_recorded otherCodecFlow avCycles (Or.inr ⟨by decide, by decide⟩)
      ⟨rfl, fun r h => by cases h⟩).1⟩

/-! ## Theorems: rejected tracks -/

/-- C14 as stated fails: the event carries the track's value only when the
path of the session is not empty (with an empty path, reachable through a
file-name callback that succeeds without writing a name, the value is 0);
without an event callback no event is delivered; and after a rejected audio
track and a successful header write the `Write` still returns `false` when
the frame write is refused. -/
theorem C14_counterexample :
    (noPathRec.Write extraFlow (keyFrame 1) noVideoW).2.2 =
      [Action.newMuxerStream MediaType.Video none,
        Action.event ⟨MuxerEventType.MUX_EVENT_ERR_CREATE_FILE_FAIL, "", 0⟩,
        Action.newMuxerStream MediaType.Audio (some 1),
        Action.writeHeader (-1) true] ∧
    (save_buffer cbFreshFlow (some (keyFrame 1)) none emptyNameEnv).log =
      [Action.fileNameCb 0 "",
        Action.createMuxer "" false,
        Action.event ⟨MuxerEventType.MUX_EVENT_FILE_BEGIN, "", 0⟩,
        Action.extract (keyFrame 1), Action.allocExtra true,
        Action.newMuxerStream MediaType.Video none,
        Action.event ⟨MuxerEventType.MUX_EVENT_ERR_CREATE_FILE_FAIL, "", 0⟩,
        Action.newMuxerStream MediaType.Audio (some 1),
        Action.writeHeader (-1) true] ∧
    events (newRec.Write noSinkFlow (keyFrame 1) noVideoW).2.2 = [] ∧
    (newRec.Write extraFlow (keyFrame 1) noAudioBadFrameW).1 = false := by
  refine ⟨by decide, by decide, by decide, by decide⟩

theorem capture_extra_cached (f : MuxerFlow) (b : MediaBuffer) (env : Env)
    (h : f.video_extra ≠ none) : capture_extra f b env = (f, [], false) := by
  unfold capture_extra
  rw [if_neg (fun hc => h hc.1)]

/-- C14, amended: when a `Write` opens the tracks (video configured, extradata
cached, video track not open) with an event callback registered and a
non-empty session path: a rejected video stream yields the event
`ERR_CREATE_FILE_FAIL` with value -1 and the audio stream is still requested,
and, if accepted, opened and written to; a rejected audio stream yields the
event with value -2 and leaves the video stream open and written to; no such
event is delivered for an accepted stream; and if the header write and the
frame write succeed, `Write` returns `true`, so the audio and the video part
of the cycle keep the session. -/
theorem C14_track_rejected (r : VideoRecorder) (f : MuxerFlow) (b : MediaBuffer)
    (w : WriteEnv) (env : Env) (hv : f.video_in = true) (hx : f.video_extra ≠ none)
    (hid : r.vid_stream_id = -1) (hs : f.event_callback_ = true) (hp : r.record_path ≠ "") :
    (Action.event ⟨MuxerEventType.MUX_EVENT_ERR_CREATE_FILE_FAIL, r.record_path, -1⟩ ∈
        (r.Write f b w).2.2 ↔ w.newVid = none) ∧
    (Action.event ⟨MuxerEventType.MUX_EVENT_ERR_CREATE_FILE_FAIL, r.record_path, -2⟩ ∈
        (r.Write f b w).2.2 ↔ (f.audio_in = true ∧ w.newAud = none)) ∧
    (w.newVid = none → f.audio_in = true →
      Action.newMuxerStream MediaType.Audio w.newAud ∈ (r.Write f b w).2.2 ∧
      ∀ n : Nat, w.newAud = some n → w.header = true →
        ((r.Write f b w).1 = true → (r.Write f b w).2.1.aud_stream_id = n) ∧
        (b.type = MediaType.Audio → Action.write b n w.write ∈ (r.Write f b w).2.2)) ∧
    (f.audio_in = true → w.newAud = none →
      ∀ n : Nat, w.newVid = some n → w.header = true →
        ((r.Write f b w).1 = true → (r.Write f b w).2.1.vid_stream_id = n) ∧
        (b.type = MediaType.Video → Action.write b n w.write ∈ (r.Write f b w).2.2)) ∧
    (w.header = true → w.write = true → (r.Write f b w).1 = true) ∧
    (env.audW.header = true → env.audW.write = true → f.audio_in = true →
      f.video_recorder = some r →
      (process_audio f (some b) env.audW).stop = none ∧
        (process_audio f (some b) env.audW).flow.video_recorder ≠ none ∧
        (process_audio f (some b) env.audW).flow.enable_streaming = f.enable_streaming) ∧
    (env.vidW.header = true → env.vidW.write = true → f.video_recorder = some r →
      (process_video f (some b) env).stop = none ∧
        (process_video f (some b) env).flow.video_recorder ≠ none ∧
        (process_video f (some b) env).flow.enable_streaming = f.enable_streaming) := by
  have hx2 : ¬ f.video_extra = none := hx
  refine ⟨?_, ?_, ?_, ?_, Write_ok r f b w, ?_, ?_⟩
  · rcases w with ⟨nv, na, hd, wr⟩
    cases nv <;> cases na <;> cases hd <;> cases wr <;> cases hai : f.audio_in <;>
      simp [VideoRecorder.Write, VideoRecorder.openStreams, VideoRecorder.writeFrame,
        NewMuxerStream, VideoRecorder.ProcessEvent, VideoRecorder.ClearStream, hv, hx2, hid, hs,
        hp, hai] <;>
      (try split_ifs) <;> simp
  · rcases w with ⟨nv, na, hd, wr⟩
    cases nv <;> cases na <;> cases hd <;> cases wr <;> cases hai : f.audio_in <;>
      simp [VideoRecorder.Write, VideoRecorder.openStreams, VideoRecorder.writeFrame,
        NewMuxerStream, VideoRecorder.ProcessEvent, VideoRecorder.ClearStream, hv, hx2, hid, hs,
        hp, hai] <;>
      (try split_ifs) <;> simp
  · intro h1 hai
    rcases w with ⟨nv, na, hd, wr⟩
    simp only at h1
    subst h1
    refine ⟨?_, ?_⟩
    · cases na <;> cases hd <;> cases wr <;>
        simp [VideoRecorder.Write, VideoRecorder.openStreams, VideoRecorder.writeFrame,
          NewMuxerStream, VideoRecorder.ProcessEvent, VideoRecorder.ClearStream, hv, hx2, hid,
          hs, hp, hai]
    · intro n h2 h3
      simp only at h2 h3
      subst h2
      subst h3
      cases wr <;> cases hbt : b.type <;>
        simp [VideoRecorder.Write, VideoRecorder.openStreams, VideoRecorder.writeFrame,
          NewMuxerStream, VideoRecorder.ProcessEvent, VideoRecorder.ClearStream, hv, hx2, hid,
          hs, hp, hai, hbt]
  · intro hai h1 n h2 h3
    rcases w with ⟨nv, na, hd, wr⟩
    simp only at h1 h2 h3
    subst h1
    subst h2
    subst h3
    cases wr <;> cases hbt : b.type <;>
      simp [VideoRecorder.Write, VideoRecorder.openStreams, VideoRecorder.writeFrame,
        NewMuxerStream, VideoRecorder.ProcessEvent, VideoRecorder.ClearStream, hv, hx2, hid,
        hs, hp, hai, hbt] <;>
      split_ifs <;> simp
  · intro h1 h2 hai hr
    rw [process_audio_written f env.audW b r hai hr (Write_ok r f b env.audW h1 h2)]
    exact ⟨rfl, Option.some_ne_none _, rfl⟩
  · intro h1 h2 hr
    have hcap := capture_extra_cached f b env hx
    have hr2 : (capture_extra f b env).1.video_recorder = some r := by rw [hcap]; exact hr
    rw [process_video_written f b env r hv (by rw [hcap]) hr2
      (Write_ok r _ b env.vidW h1 h2)]
    refine ⟨rfl, ?_, ?_⟩
    · split_ifs <;> exact Option.some_ne_none _
    · split_ifs <;> rw [hcap]

/-! ## Theorems: segment start -/

/-- C15 as stated fails: a disabled cycle, or a failed write, closes the
session and leaves `last_ts` set although no video buffer was written since;
and a forwarded buffer stamped 0 is not remembered: after frames at 0 and 7
the segment start is 7, and a frame at 0 after one at 5 unsets it. -/
theorem C15_counterexample :
    ((run freshFlow stopOps).flow.video_recorder = none ∧
      (run freshFlow stopOps).flow.last_ts = 5) ∧
    ((run freshFlow [Op.ingest (some (keyFrame 5)) none okEnv,
        Op.ingest (some (deltaFrame 6)) none badWriteEnv]).flow.video_recorder = none ∧
      (run freshFlow [Op.ingest (some (keyFrame 5)) none okEnv,
        Op.ingest (some (deltaFrame 6)) none badWriteEnv]).flow.last_ts = 5) ∧
    ((run freshFlow [Op.ingest (some (keyFrame 0)) none okEnv,
        Op.ingest (some (deltaFrame 7)) none okEnv]).flow.last_ts = 7 ∧
      forwarded_since_reset freshFlow [] [Op.ingest (some (keyFrame 0)) none okEnv,
        Op.ingest (some (deltaFrame 7)) none okEnv] = [7, 0]) ∧
    ((run freshFlow [Op.ingest (some (keyFrame 5)) none okEnv,
        Op.ingest (some (deltaFrame 0)) none okEnv]).flow.last_ts = 0 ∧
      forwarded_since_reset freshFlow [] [Op.ingest (some (keyFrame 5)) none okEnv,
        Op.ingest (some (deltaFrame 0)) none okEnv] = [0, 5]) := by
  refine ⟨⟨by decide, by decide⟩, ⟨by decide, by decide⟩, ⟨by decide, by decide⟩,
    ⟨by decide, by decide⟩⟩

theorem open_recorder_stop (f : MuxerFlow) (env : Env) :
    (open_recorder f env).stop = none ∨ (open_recorder f env).stop = some Status.exited := by
  unfold open_recorder
  split
  · exact Or.inl rfl
  · simp only
    split
    · exact Or.inr rfl
    · split <;> exact Or.inl rfl

theorem open_recorder_null (f : MuxerFlow) (env : Env)
    (h : env.newRecorder = OpenResult.nullRecorder) (hr : f.video_recorder = none) :
    open_recorder f env =
      ⟨{ (GenFilePath f env.cb env.now).2.1 with
          video_recorder := none, last_ts := 0, enable_streaming := false },
        (GenFilePath f env.cb env.now).2.2 ++ [], none⟩ := by
  unfold open_recorder
  rw [hr]
  simp only [h, NewRecorder, Bool.false_eq_true, if_false]

theorem open_recorder_exit (f : MuxerFlow) (env : Env)
    (h : env.newRecorder = OpenResult.muxerFailed) (hr : f.video_recorder = none) :
    (open_recorder f env).stop = some Status.exited := by
  unfold open_recorder
  rw [hr]
  simp only [h, NewRecorder, if_true]

theorem open_recorder_last_ts (f : MuxerFlow) (env : Env)
    (h : (open_recorder f env).stop = none) :
    (open_recorder f env).flow.last_ts = if f.video_recorder = none then 0 else f.last_ts := by
  cases hr : f.video_recorder with
  | some r =>
    have e : open_recorder f env = ⟨f, [], none⟩ := by
      unfold open_recorder
      rw [hr]
    rw [e, if_neg (Option.some_ne_none r)]
  | none =>
    rw [if_pos rfl]
    cases hres : env.newRecorder with
    | created => rw [open_recorder_created f env hres hr]
    | muxerFailed =>
      rw [open_recorder_exit f env hres hr] at h
      cases h
    | nullRecorder => rw [open_recorder_null f env hres hr]

theorem process_video_last_ts_law (g : MuxerFlow) (vid : Option MediaBuffer) (env : Env) :
    (process_video g vid env).flow.last_ts = next_start g.last_ts (video_write_ok g vid env) := by
  cases hv : g.video_in with
  | false =>
    simp only [process_video, video_write_ok, hv, Bool.not_false, if_true, next_start]
  | true =>
    cases vid with
    | none =>
      simp only [process_video, video_write_ok, hv, Bool.not_true, Bool.false_eq_true, if_false,
        next_start]
    | some b =>
      have hl := capture_extra_last_ts g b env
      cases hc : (capture_extra g b env).2.2 with
      | true =>
        simp only [process_video, video_write_ok, hv, hc, Bool.not_true, Bool.false_eq_true,
          if_false, if_true, next_start, hl]
      | false =>
        cases hrec : (capture_extra g b env).1.video_recorder with
        | none =>
          simp only [process_video, video_write_ok, hv, hc, hrec, Bool.not_true,
            Bool.false_eq_true, if_false, next_start, hl]
        | some r =>
          cases hw : (r.Write (capture_extra g b env).1 b env.vidW).1 with
          | false =>
            simp only [process_video, video_write_ok, hv, hc, hrec, hw, Bool.not_true,
              Bool.false_eq_true, if_false, next_start, hl]
          | true =>
            simp only [process_video, video_write_ok, hv, hc, hrec, hw, Bool.not_true,
              Bool.false_eq_true, if_false, if_true, next_start, hl]
            split_ifs <;> rfl

theorem video_write_ok_ts (g : MuxerFlow) (vid : Option MediaBuffer) (env : Env) (t : Int)
    (h : video_write_ok g vid env = some t) : ∃ b, vid = some b ∧ b.ustimestamp = t := by
  unfold video_write_ok at h
  split_ifs at h
  split at h
  · cases h
  · rename_i b
    split_ifs at h
    split at h
    · cases h
    · split_ifs at h
      simp only [Option.some.injEq] at h
      exact ⟨b, rfl, h⟩

theorem video_forwarded_ts (f : MuxerFlow) (vid aud : Option MediaBuffer) (env : Env) (t : Int)
    (h : video_forwarded f vid aud env = some t) : ∃ b, vid = some b ∧ b.ustimestamp = t := by
  unfold video_forwarded at h
  split_ifs at h
  exact video_write_ok_ts _ vid env t h

theorem enabled_cycle_last_ts (f : MuxerFlow) (vid aud : Option MediaBuffer) (env : Env)
    (hs : (enabled_cycle f vid aud env).status = Status.returned) :
    (enabled_cycle f vid aud env).flow.last_ts =
      next_start (if segment_reset f vid then 0 else f.last_ts)
        (video_forwarded f vid aud env) := by
  have hr4 := (rotation_check_fields f vid).2.2.2
  have hbase : ∀ h : (before_writes f vid env).stop = none,
      (before_writes f vid env).flow.last_ts =
        if segment_reset f vid then 0 else f.last_ts := by
    intro h
    unfold before_writes at h ⊢
    rw [open_recorder_last_ts _ env h, hr4]
    unfold segment_reset
    by_cases hn : (rotation_check f vid).1.video_recorder = none
    · simp [hn]
    · simp [hn]
  cases ho : (before_writes f vid env).stop with
  | some s =>
    rw [enabled_cycle_open_stop f vid aud env s ho] at hs
    simp only at hs
    subst hs
    rcases open_recorder_stop (rotation_check f vid).1 env with h | h
    · exact absurd (h.symm.trans ho) (by simp)
    · exact absurd (h.symm.trans ho) (by simp)
  | none =>
    cases ha : (after_audio f vid aud env).stop with
    | some s =>
      rw [enabled_cycle_audio_stop f vid aud env s ho ha]
      have hfw : video_forwarded f vid aud env = none := by
        unfold video_forwarded
        rw [if_neg]
        rintro ⟨_, h2⟩
        rw [ha] at h2
        cases h2
      rw [hfw]
      show (process_audio _ aud env.audW).flow.last_ts = _
      rw [process_audio_last_ts]
      exact hbase ho
    | none =>
      rw [enabled_cycle_video f vid aud env ho ha]
      have hfw : video_forwarded f vid aud env =
          video_write_ok (after_audio f vid aud env).flow vid env := by
        unfold video_forwarded
        rw [if_pos ⟨ho, ha⟩]
      rw [hfw]
      show (process_video _ vid env).flow.last_ts = _
      rw [process_video_last_ts_law]
      have : (after_audio f vid aud env).flow.last_ts =
          if segment_reset f vid then 0 else f.last_ts := by
        show (process_audio _ aud env.audW).flow.last_ts = _
        rw [process_audio_last_ts]
        exact hbase ho
      rw [this]

theorem next_start_some (base t : Int) :
    next_start base (some t) = if base = 0 ∨ t < base then t else base := rfl

theorem next_start_none (base : Int) : next_start base none = base := rfl

theorem start_is_min_next (last : Int) (g : List Int) (t : Int) (ht : t ≠ 0)
    (h1 : g = [] → last = 0)
    (h2 : g ≠ [] → last ∈ g ∧ ∀ x ∈ g, last ≤ x) (h3 : ∀ x ∈ g, x ≠ 0) :
    next_start last (some t) ∈ t :: g ∧ (∀ x ∈ t :: g, next_start last (some t) ≤ x) ∧
      ∀ x ∈ t :: g, x ≠ 0 := by
  have h3' : ∀ x ∈ t :: g, x ≠ 0 := by
    intro x hx
    rcases List.mem_cons.mp hx with hx | hx
    · rw [hx]
      exact ht
    · exact h3 x hx
  rw [next_start_some]
  refine ⟨?_, ?_, h3'⟩
  · split_ifs
    · exact List.mem_cons_self t g
    · rename_i hc
      have hg : g ≠ [] := fun hg => hc (Or.inl (h1 hg))
      exact List.mem_cons_of_mem t (h2 hg).1
  · intro x hx
    by_cases hg : g = []
    · subst hg
      simp only [List.mem_singleton] at hx
      subst hx
      rw [if_pos (Or.inl (h1 rfl))]
    · obtain ⟨hm, hle⟩ := h2 hg
      rcases List.mem_cons.mp hx with hx | hx
      · subst hx
        split_ifs <;> omega
      · have := hle x hx
        have hl0 : last ≠ 0 := h3 last hm
        split_ifs with hc
        · rcases hc with hc | hc
          · exact absurd hc hl0
          · omega
        · exact this

theorem forwarded_step_min (f : MuxerFlow) (g : List Int) (op : Op) (h : start_is_min f g)
    (hs : (step f op).status = Status.returned)
    (hnz : ∀ vid aud env, op = Op.ingest vid aud env → ∀ b, vid = some b → b.ustimestamp ≠ 0) :
    start_is_min (step f op).flow (forwarded_step f g op) := by
  obtain ⟨h1, h2, h3⟩ := h
  cases op with
  | control req =>
    have hl : (step f (Op.control req)).flow.last_ts = f.last_ts := by
      cases req <;> simp only [step, Control, StartStream, StopStream] <;> (try split_ifs) <;> rfl
    unfold start_is_min
    rw [hl]
    exact ⟨h1, h2, h3⟩
  | ingest vid aud env =>
    cases he : f.enable_streaming with
    | false =>
      have hl : (step f (Op.ingest vid aud env)).flow.last_ts = f.last_ts := by
        simp only [step]
        rw [save_buffer_disabled f vid aud env he]
        unfold disabled_cycle
        split <;> rfl
      have hg : forwarded_step f g (Op.ingest vid aud env) = g := by
        simp only [forwarded_step, he, Bool.false_eq_true, if_false]
      unfold start_is_min
      rw [hl, hg]
      exact ⟨h1, h2, h3⟩
    | true =>
      have hs2 : (enabled_cycle f vid aud env).status = Status.returned := by
        rw [← save_buffer_enabled f vid aud env he]
        exact hs
      have hl : (step f (Op.ingest vid aud env)).flow.last_ts =
          next_start (if segment_reset f vid then 0 else f.last_ts)
            (video_forwarded f vid aud env) := by
        simp only [step]
        rw [save_buffer_enabled f vid aud env he]
        exact enabled_cycle_last_ts f vid aud env hs2
      unfold start_is_min
      rw [hl]
      cases hfw : video_forwarded f vid aud env with
      | none =>
        rw [next_start_none]
        cases hr : segment_reset f vid with
        | true =>
          have hg : forwarded_step f g (Op.ingest vid aud env) = [] := by
            simp only [forwarded_step, he, hfw, hr, if_true]
          rw [hg, if_pos rfl]
          exact ⟨fun _ => rfl, fun hn => absurd rfl hn, fun t ht => by simp at ht⟩
        | false =>
          have hg : forwarded_step f g (Op.ingest vid aud env) = g := by
            simp only [forwarded_step, he, hfw, hr, if_true, Bool.false_eq_true, if_false]
          rw [hg, if_neg (by simp)]
          exact ⟨h1, h2, h3⟩
      | some t =>
        obtain ⟨b, hb, hbt⟩ := video_forwarded_ts f vid aud env t hfw
        have ht : t ≠ 0 := by
          rw [← hbt]
          exact hnz vid aud env rfl b hb
        cases hr : segment_reset f vid with
        | true =>
          have hg : forwarded_step f g (Op.ingest vid aud env) = [t] := by
            simp only [forwarded_step, he, hfw, hr, if_true]
          rw [hg, if_pos rfl]
          obtain ⟨a1, a2, a3⟩ := start_is_min_next 0 [] t ht (fun _ => rfl)
            (fun hn => absurd rfl hn) (fun x hx => by simp at hx)
          exact ⟨fun hn => by simp at hn, fun _ => ⟨a1, a2⟩, a3⟩
        | false =>
          have hg : forwarded_step f g (Op.ingest vid aud env) = t :: g := by
            simp only [forwarded_step, he, hfw, hr, if_true, Bool.false_eq_true, if_false]
          rw [hg, if_neg (by simp)]
          obtain ⟨a1, a2, a3⟩ := start_is_min_next f.last_ts g t ht h1 h2 h3
          exact ⟨fun hn => by simp at hn, fun _ => ⟨a1, a2⟩, a3⟩

theorem run_cons_returned (f : MuxerFlow) (op : Op) (ops : List Op)
    (h : (step f op).status = Status.returned) :
    run f (op :: ops) =
      ⟨(run (step f op).flow ops).flow, (step f op).log ++ (run (step f op).flow ops).log,
        (run (step f op).flow ops).status⟩ := by
  rw [run]
  simp only [h]

theorem run_cons_stopped (f : MuxerFlow) (op : Op) (ops : List Op)
    (h : (step f op).status ≠ Status.returned) : run f (op :: ops) = step f op := by
  rw [run]
  split
  · rename_i h2
    exact absurd h2 h
  · rfl
  · rfl

theorem forwarded_since_reset_min (ops : List Op) :
    ∀ (f : MuxerFlow) (g : List Int), start_is_min f g →
      (∀ vid aud env, Op.ingest vid aud env ∈ ops → ∀ b, vid = some b → b.ustimestamp ≠ 0) →
      (run f ops).status = Status.returned →
      start_is_min (run f ops).flow (forwarded_since_reset f g ops) := by
  induction ops with
  | nil =>
    intro f g h _ _
    exact h
  | cons op ops ih =>
    intro f g h hnz hs
    by_cases hst : (step f op).status = Status.returned
    · rw [run_cons_returned f op ops hst] at hs ⊢
      have hstep := forwarded_step_min f g op h hst
        (fun vid aud env e => hnz vid aud env (by rw [e]; exact List.mem_cons_self _ _))
      have hrest := ih (step f op).flow (forwarded_step f g op) hstep
        (fun vid aud env hm => hnz vid aud env (List.mem_cons_of_mem op hm)) hs
      rw [forwarded_since_reset]
      simp only [hst]
      exact hrest
    · rw [run_cons_stopped f op ops hst] at hs
      exact absurd hs hst

/-- C15, amended: the segment start is reset when a recorder is created (in
the rotating cycle or in the first enabled cycle after the session was
closed), not when the session is closed.  In every run of ingest cycles and
control calls that is entered with the segment start unset, whose video
buffers all have a non-zero timestamp and whose calls all return, at the end
of the run the segment start is unset if no video buffer was forwarded since
the last reset, and otherwise it is the minimum of the timestamps of the
video buffers forwarded since the last reset; in an enabled cycle that
returns, the segment start is the value after the reset (0 if a recorder was
created, the old value otherwise), replaced by the timestamp of the forwarded
video buffer when that value is 0 or larger. -/
theorem C15_segment_start_minimum (f : MuxerFlow) (ops : List Op) (h0 : f.last_ts = 0)
    (hnz : ∀ vid aud env, Op.ingest vid aud env ∈ ops → ∀ b, vid = some b →
      b.ustimestamp ≠ 0)
    (hs : (run f ops).status = Status.returned) :
    (forwarded_since_reset f [] ops = [] → (run f ops).flow.last_ts = 0) ∧
    (forwarded_since_reset f [] ops ≠ [] →
      (run f ops).flow.last_ts ∈ forwarded_since_reset f [] ops ∧
        ∀ t ∈ forwarded_since_reset f [] ops, (run f ops).flow.last_ts ≤ t) ∧
    (∀ (g : MuxerFlow) (vid aud : Option MediaBuffer) (env : Env),
      g.enable_streaming = true → (save_buffer g vid aud env).status = Status.returned →
      (save_buffer g vid aud env).flow.last_ts =
        next_start (if segment_reset g vid then 0 else g.last_ts)
          (video_forwarded g vid aud env)) := by
  have h := forwarded_since_reset_min ops f []
    ⟨fun _ => h0, fun hn => absurd rfl hn, fun t ht => by simp at ht⟩ hnz hs
  refine ⟨h.1, h.2.1, ?_⟩
  intro g vid aud env he hst
  rw [save_buffer_enabled g vid aud env he] at hst ⊢
  exact enabled_cycle_last_ts g vid aud env hst

/-- Witness of C15: frames at 9, 4 and 6 us in one session leave the segment
start at 4. -/
theorem C15_segment_start_minimum_witness :
    (run freshFlow threeFrames).flow.last_ts ∈ forwarded_since_reset freshFlow [] threeFrames ∧
      (∀ t ∈ forwarded_since_reset freshFlow [] threeFrames,
        (run freshFlow threeFrames).flow.last_ts ≤ t) ∧
      forwarded_since_reset freshFlow [] threeFrames = [6, 4, 9] ∧
      (run freshFlow threeFrames).flow.last_ts = 4 :=
  have h := (C15_segment_start_minimum freshFlow threeFrames rfl (by
    intro vid aud env hm b hb
    simp only [threeFrames, List.mem_cons, List.mem_singleton, Op.ingest.injEq,
      List.not_mem_nil, or_false] at hm
    rcases hm with ⟨h1, _, _⟩ | ⟨h1, _, _⟩ | ⟨h1, _, _⟩ <;>
      (rw [h1] at hb; cases hb; decide)) (by decide)).2.1 (by decide)
  ⟨h.1, h.2, by decide, by decide⟩

/-! ## Theorems: life cycle of sessions -/

theorem Lives.nil (sink : Bool) (g : MuxerFlow) : Lives sink g [] g := rfl

theorem GenFilePath_recorder (f : MuxerFlow) (cb : Int × String) (now : Tm) :
    (GenFilePath f cb now).2.1.video_recorder = f.video_recorder := by
  rw [GenFilePath_fields]

/-- Witness of C14: the backend refuses the video stream of a session with a
path and an event callback; the event carries -1, the audio stream is opened
and the `Write` succeeds. -/
theorem C14_track_rejected_witness :
    Action.event ⟨MuxerEventType.MUX_EVENT_ERR_CREATE_FILE_FAIL, "cam_3.mp4", -1⟩ ∈
        (newRec.Write sessionFlow (audioFrame 1) noVideoW).2.2 ∧
      (newRec.Write sessionFlow (audioFrame 1) noVideoW).1 = true ∧
      Action.write (audioFrame 1) 1 true ∈ (newRec.Write sessionFlow (audioFrame 1) noVideoW).2.2 :=
  have h := C14_track_rejected newRec sessionFlow (audioFrame 1) noVideoW okEnv rfl (by decide)
    rfl rfl (by decide)
  ⟨h.1.mpr rfl, h.2.2.2.2.1 rfl rfl, ((h.2.2.1 rfl rfl).2 1 rfl rfl).2 rfl⟩

/-! ## Theorems: the header of a session whose video stream is accepted -/

theorem header_once_append (h : Bool) (l1 l2 : List Action) :
    header_once h (l1 ++ l2) =
      (header_once h l1 && header_once (h || l1.any Action.isHeader) l2) := by
  induction l1 generalizing h with
  | nil => simp [header_once]
  | cons a l ih =>
    cases a <;>
      (rw [List.cons_append]
       simp only [header_once, ih, List.any_cons, Action.isHeader,
        Bool.false_or, Bool.true_or, Bool.or_true, Bool.and_assoc])

theorem header_once_events (h : Bool) (l : List Action)
    (hl : ∀ x ∈ l, ∃ e, x = Action.event e) : header_once h l = true := by
  induction l with
  | nil => rfl
  | cons a l ih =>
    obtain ⟨e, he⟩ := hl a (List.mem_cons_self a l)
    subst he
    show header_once h l = true
    exact ih (fun x hx => hl x (List.mem_cons_of_mem _ hx))

theorem ProcessEvent_header_once (h : Bool) (r : VideoRecorder) (f : MuxerFlow)
    (t : MuxerEventType) (v : Int) : header_once h (r.ProcessEvent f t v) = true :=
  header_once_events h _ (fun x hx => by
    obtain ⟨e, he, _⟩ := mem_ProcessEvent r f t v x hx
    exact ⟨e, he⟩)

theorem ProcessEvent_no_header (r : VideoRecorder) (f : MuxerFlow) (t : MuxerEventType)
    (v : Int) : (r.ProcessEvent f t v).any Action.isHeader = false := by
  unfold VideoRecorder.ProcessEvent
  split <;> rfl

theorem writeFrame_header_once (r : VideoRecorder) (f : MuxerFlow) (b : MediaBuffer)
    (env : WriteEnv) : header_once true (r.writeFrame f b env).2.2 = true := by
  unfold VideoRecorder.writeFrame
  split_ifs <;>
    first
    | rfl
    | (rw [List.singleton_append, header_once]
       exact ProcessEvent_header_once true _ f _ _)

theorem writeFrame_stream (r : VideoRecorder) (f : MuxerFlow) (b : MediaBuffer) (env : WriteEnv)
    (h : (r.writeFrame f b env).1 = true) : (r.writeFrame f b env).2.1 = r := by
  unfold VideoRecorder.writeFrame at h ⊢
  split_ifs at h ⊢ <;> rfl

theorem Write_opened (r : VideoRecorder) (f : MuxerFlow) (b : MediaBuffer) (env : WriteEnv)
    (hv : r.vid_stream_id ≠ -1) :
    header_once true (r.Write f b env).2.2 = true ∧
      ((r.Write f b env).1 = true → (r.Write f b env).2.1 = r) := by
  have ho : r.openStreams f env = (true, r, []) := by
    unfold VideoRecorder.openStreams
    rw [if_neg (fun h => hv h.2.2)]
  unfold VideoRecorder.Write
  rw [ho]
  simp only [if_true, List.nil_append]
  exact ⟨writeFrame_header_once r f b env, writeFrame_stream r f b env⟩

theorem Write_unopened (r : VideoRecorder) (f : MuxerFlow) (b : MediaBuffer) (env : WriteEnv)
    (hv : r.vid_stream_id = -1) (ha : r.aud_stream_id = -1) (hn : env.newVid ≠ none) :
    header_once false (r.Write f b env).2.2 = true ∧
      ((r.Write f b env).1 = true →
        ((r.Write f b env).2.1 = r ∧ (r.Write f b env).2.2 = []) ∨
          ((r.Write f b env).2.1.vid_stream_id ≠ -1 ∧
            (r.Write f b env).2.2.any Action.isHeader = true)) := by
  by_cases hg : f.video_in = true ∧ f.video_extra ≠ none
  · obtain ⟨n, hnv⟩ := Option.ne_none_iff_exists'.mp hn
    have hopen : (r.openStreams f env).2.2.any Action.isHeader = true ∧
        header_once false (r.openStreams f env).2.2 = true ∧
        ((r.openStreams f env).1 = true → (r.openStreams f env).2.1.vid_stream_id = n) := by
      unfold VideoRecorder.openStreams
      rw [if_pos ⟨hg.1, hg.2, hv⟩]
      simp only [hnv, NewMuxerStream, if_true, List.append_nil]
      cases hh : env.header <;> cases hai : f.audio_in <;> cases hna : env.newAud <;>
        simp [header_once, Action.isHeader, VideoRecorder.ProcessEvent,
          VideoRecorder.ClearStream] <;>
        (try split_ifs) <;> simp [header_once]
    obtain ⟨o1, o2, o3⟩ := hopen
    unfold VideoRecorder.Write
    simp only
    split
    · rename_i hok
      refine ⟨?_, fun hw => Or.inr ⟨?_, ?_⟩⟩
      · rw [header_once_append, o2, o1]
        exact writeFrame_header_once _ f b env
      · rw [writeFrame_stream _ f b env hw, o3 hok]
        omega
      · rw [List.any_append, o1]
        rfl
    · exact ⟨o2, fun hw => by cases hw⟩
  · have hw := Write_no_track r f b env
    have ho : r.openStreams f env = (true, r, []) := by
      unfold VideoRecorder.openStreams
      rw [if_neg (fun h => hg ⟨h.1, h.2.1⟩)]
    have hwf : r.Write f b env = (true, r, []) := by
      unfold VideoRecorder.Write
      rw [ho]
      simp only [if_true, List.nil_append]
      unfold VideoRecorder.writeFrame
      rw [if_neg (by simp [hv]), if_neg (by simp [ha])]
    rw [hwf]
    exact ⟨rfl, fun _ => Or.inl ⟨rfl, rfl⟩⟩

theorem session_log_cons (r : VideoRecorder) (c : MuxerFlow × MediaBuffer × WriteEnv)
    (cs : List (MuxerFlow × MediaBuffer × WriteEnv)) :
    session_log r (c :: cs) =
      if (r.Write c.1 c.2.1 c.2.2).1 then
        (r.Write c.1 c.2.1 c.2.2).2.2 ++ session_log (r.Write c.1 c.2.1 c.2.2).2.1 cs
      else (r.Write c.1 c.2.1 c.2.2).2.2 := rfl

theorem session_header_once_opened (cs : List (MuxerFlow × MediaBuffer × WriteEnv)) :
    ∀ r : VideoRecorder, r.vid_stream_id ≠ -1 → header_once true (session_log r cs) = true := by
  induction cs with
  | nil =>
    intro r _
    rfl
  | cons c cs ih =>
    intro r hv
    obtain ⟨w1, w2⟩ := Write_opened r c.1 c.2.1 c.2.2 hv
    rw [session_log_cons]
    split
    · rename_i hw
      rw [header_once_append, w1, Bool.true_or, w2 hw]
      exact ih r hv
    · exact w1

/-- In a session on a recorder without open track in which the backend
accepts the video stream whenever it is asked to create it, the header is
written at most once and before every frame, whatever the other answers. -/
theorem session_header_once (cs : List (MuxerFlow × MediaBuffer × WriteEnv)) :
    ∀ r : VideoRecorder, r.vid_stream_id = -1 → r.aud_stream_id = -1 →
      (∀ c ∈ cs, c.2.2.newVid ≠ none) → header_once false (session_log r cs) = true := by
  induction cs with
  | nil =>
    intro r _ _ _
    rfl
  | cons c cs ih =>
    intro r hv ha hn
    obtain ⟨w1, w2⟩ := Write_unopened r c.1 c.2.1 c.2.2 hv ha (hn c (List.mem_cons_self c cs))
    have hn2 : ∀ x ∈ cs, x.2.2.newVid ≠ none := fun x hx => hn x (List.mem_cons_of_mem c hx)
    rw [session_log_cons]
    split
    · rename_i hw
      rcases w2 hw with ⟨e1, e2⟩ | ⟨e1, e2⟩
      · rw [e1, e2, List.nil_append]
        exact ih r hv ha hn2
      · rw [header_once_append, w1, e2, Bool.or_true]
        exact session_header_once_opened cs _ e1
    · exact w1

/-! ## Theorems: failure to open a session -/

theorem open_recorder_exit_eq (f : MuxerFlow) (env : Env)
    (h : env.newRecorder = OpenResult.muxerFailed) (hr : f.video_recorder = none) :
    open_recorder f env =
      ⟨(GenFilePath f env.cb env.now).2.1,
        (GenFilePath f env.cb env.now).2.2 ++
          [Action.createMuxer (GenFilePath f env.cb env.now).1
            (GenFilePath f env.cb env.now).2.1.is_use_customio],
        some Status.exited⟩ := by
  unfold open_recorder
  rw [hr]
  simp only [h, NewRecorder, if_true]

theorem rotation_check_closed (f : MuxerFlow) (vid : Option MediaBuffer)
    (hn : f.video_recorder = none ∨ rotation_due f vid) :
    (rotation_check f vid).1.video_recorder = none := by
  by_cases hd : rotation_due f vid
  · obtain ⟨r, _, e⟩ := rotation_check_of_due f vid hd
    rw [e]
  · rw [rotation_check_of_not_due f vid hd]
    rcases hn with hn | hn
    · exact hn
    · exact absurd hn hd

/-- C8 as stated fails: on a flow without a session and with streaming
enabled, a cycle in which the muxer cannot be created does not return and
does not disable streaming; the constructor of the recorder ends the
process. -/
theorem C8_counterexample :
    freshFlow.video_recorder = none ∧ freshFlow.enable_streaming = true ∧
    (save_buffer freshFlow (some (keyFrame 5)) (some (audioFrame 5)) noMuxerEnv).status =
      Status.exited ∧
    (save_buffer freshFlow (some (keyFrame 5)) (some (audioFrame 5)) noMuxerEnv).status ≠
      Status.returned ∧
    (save_buffer freshFlow (some (keyFrame 5)) (some (audioFrame 5)) noMuxerEnv).flow.enable_streaming =
      true := by
  refine ⟨by decide, by decide, by decide, by decide, by decide⟩

/-- C8, amended: in a cycle entered with streaming enabled that reaches the
creation of a recorder (no session is active at entry, or the rotation check
has just closed it) and in which the muxer cannot be created, the constructor
of the recorder ends the process with `exit`: the cycle does not return,
streaming is not disabled and no session exists; the creation of the muxer is
the last call of the cycle, no buffer of the cycle is handed to the muxer or
to the extradata extraction, and a run ends with that cycle, so that no later
cycle creates a recorder. -/
theorem C8_open_failure_exits (f : MuxerFlow) (vid aud : Option MediaBuffer) (env : Env)
    (he : f.enable_streaming = true) (hn : f.video_recorder = none ∨ rotation_due f vid)
    (hm : env.newRecorder = OpenResult.muxerFailed) :
    (save_buffer f vid aud env).status = Status.exited ∧
    (save_buffer f vid aud env).flow.enable_streaming = true ∧
    (save_buffer f vid aud env).flow.video_recorder = none ∧
    (save_buffer f vid aud env).log =
      (rotation_check f vid).2 ++ (GenFilePath (rotation_check f vid).1 env.cb env.now).2.2 ++
        [Action.createMuxer (GenFilePath (rotation_check f vid).1 env.cb env.now).1
          f.is_use_customio] ∧
    (∀ x ∈ (save_buffer f vid aud env).log, x.isBufferWrite = false ∧ x.isExtract = false) ∧
    (∀ ops, run f (Op.ingest vid aud env :: ops) = save_buffer f vid aud env) := by
  have hr := rotation_check_closed f vid hn
  have eo := open_recorder_exit_eq (rotation_check f vid).1 env hm hr
  have hstop : (before_writes f vid env).stop = some Status.exited := by
    unfold before_writes
    rw [eo]
  have ec := enabled_cycle_open_stop f vid aud env Status.exited hstop
  have es : save_buffer f vid aud env =
      ⟨(GenFilePath (rotation_check f vid).1 env.cb env.now).2.1,
        (rotation_check f vid).2 ++ ((GenFilePath (rotation_check f vid).1 env.cb env.now).2.2 ++
          [Action.createMuxer (GenFilePath (rotation_check f vid).1 env.cb env.now).1
            (GenFilePath (rotation_check f vid).1 env.cb env.now).2.1.is_use_customio]),
        Status.exited⟩ := by
    rw [save_buffer_enabled f vid aud env he, ec]
    unfold before_writes
    rw [eo]
  have hg := GenFilePath_fields (rotation_check f vid).1 env.cb env.now
  have hcio : (GenFilePath (rotation_check f vid).1 env.cb env.now).2.1.is_use_customio =
      f.is_use_customio := by
    rw [hg]
    by_cases hd : rotation_due f vid
    · obtain ⟨r, _, e⟩ := rotation_check_of_due f vid hd
      rw [e]
    · rw [rotation_check_of_not_due f vid hd]
  have hstat : (save_buffer f vid aud env).status = Status.exited := by rw [es]
  refine ⟨hstat, ?_, ?_, ?_, ?_, ?_⟩
  · rw [es]
    show (GenFilePath (rotation_check f vid).1 env.cb env.now).2.1.enable_streaming = true
    rw [hg]
    exact (rotation_check_fields f vid).2.1.trans he
  · rw [es]
    show (GenFilePath (rotation_check f vid).1 env.cb env.now).2.1.video_recorder = none
    rw [GenFilePath_recorder]
    exact hr
  · rw [es]
    show (rotation_check f vid).2 ++ (_ ++ [Action.createMuxer _ _]) = _
    rw [hcio, List.append_assoc]
  · intro x hx
    rw [es] at hx
    rcases List.mem_append.mp hx with hx | hx
    · exact ⟨rotation_check_no_write f vid x hx, rotation_check_no_extract f vid x hx⟩
    · rcases List.mem_append.mp hx with hx | hx
      · obtain ⟨ret, name, e⟩ := mem_GenFilePath_log _ _ _ x hx
        subst e
        exact ⟨rfl, rfl⟩
      · rw [List.mem_singleton] at hx
        subst hx
        exact ⟨rfl, rfl⟩
  · intro ops
    apply run_cons_stopped
    show (save_buffer f vid aud env).status ≠ Status.returned
    rw [hstat]
    decide

/-- Witness of C8: a fresh flow, a cycle with a key frame and an audio
buffer, and a muxer that cannot be created. -/
theorem C8_open_failure_exits_witness :
    (save_buffer freshFlow (some (keyFrame 5)) (some (audioFrame 5)) noMuxerEnv).status =
      Status.exited ∧
    (save_buffer freshFlow (some (keyFrame 5)) (some (audioFrame 5)) noMuxerEnv).log =
      [Action.createMuxer "cam_3.mp4" false] :=
  have h := C8_open_failure_exits freshFlow (some (keyFrame 5)) (some (audioFrame 5)) noMuxerEnv
    rfl (Or.inl rfl) rfl
  ⟨h.1, by decide⟩

end easymedia
